import Mathlib

/-!
# Boot mode (`src/modes/boot/boot.cpp`)

A shallow embedding of `hoa_boot::BootMode`: the member data of the class, the
engine singletons it talks to (`InputManager`, `VideoManager`, `AudioManager`,
`SystemManager`, `ModeManager`, the script descriptors) as an explicit `World`
value, and every call made to a collaborator recorded in order in a list of
`Event`s.  Member functions are functions `Sys → Sys`.

The build modelled is the one without `DEBUG_MENU`.
-/

namespace hoa_boot

/-! ## Data model -/

/-- The two values of `_boot_state`. -/
inductive BOOT_STATE where
  | BOOT_STATE_INTRO
  | BOOT_STATE_MENU
  deriving DecidableEq, Repr

/-- The eight `BootMenu` members of `BootMode`; `_active_menu` points at one of them. -/
inductive MenuId where
  | main_menu
  | options_menu
  | video_options_menu
  | audio_options_menu
  | language_options_menu
  | key_settings_menu
  | joy_settings_menu
  | resolution_menu
  deriving DecidableEq, Repr

/-- Targets of `_key_setting_function` (`void (BootMode::*)(const SDLKey &)`). -/
inductive KeySetter where
  | SetUpKey | SetDownKey | SetLeftKey | SetRightKey
  | SetConfirmKey | SetCancelKey | SetMenuKey | SetPauseKey
  deriving DecidableEq, Repr

/-- Targets of `_joy_setting_function` (`void (BootMode::*)(uint8)`). -/
inductive JoySetter where
  | SetConfirmJoy | SetCancelJoy | SetMenuJoy | SetPauseJoy
  deriving DecidableEq, Repr

/-- Targets of `_joy_axis_setting_function` (`void (BootMode::*)(int8)`). -/
inductive AxisSetter where
  | SetXAxisJoy | SetYAxisJoy
  deriving DecidableEq, Repr

/-- The zero-argument member functions registered with `AddOption` as option
handlers (confirm, left or right). -/
inductive Handler where
  | OnNewGame | OnLoadGame | OnOptions | OnQuit
  | OnVideoOptions | OnAudioOptions | OnLanguageOptions | OnKeySettings | OnJoySettings
  | OnResolution | OnToggleFullscreen | OnBrightnessLeft | OnBrightnessRight
  | OnTogglePixelArtSmoothed
  | OnSoundLeft | OnSoundRight | OnMusicLeft | OnMusicRight
  | OnLanguageSelect
  | RedefineUpKey | RedefineDownKey | RedefineLeftKey | RedefineRightKey
  | RedefineConfirmKey | RedefineCancelKey | RedefineMenuKey | RedefinePauseKey
  | OnRestoreDefaultKeys
  | RedefineXAxisJoy | RedefineYAxisJoy
  | RedefineConfirmJoy | RedefineCancelJoy | RedefineMenuJoy | RedefinePauseJoy
  | OnRestoreDefaultJoyButtons
  | OnResolution640x480 | OnResolution800x600 | OnResolution1024x768 | OnResolution1280x1024
  deriving DecidableEq, Repr

/-- The argument of `_ShowMessageWindow(WAIT_FOR)`. -/
inductive WAIT_FOR where
  | WAIT_KEY | WAIT_JOY_BUTTON | WAIT_JOY_AXIS
  deriving DecidableEq, Repr

/-- One row of a boot menu: the enabled flag and the five handler slots of
`AddOption(text, confirm, up, down, left, right)`; a null handler is `none`. -/
structure MenuOption where
  enabled : Bool
  confirm : Option Handler
  up : Option Handler
  down : Option Handler
  left : Option Handler
  right : Option Handler
  deriving DecidableEq, Repr

/-- A `BootMenu`: its rows and the selected row (`-1` when there is none). -/
structure BootMenu where
  options : List MenuOption
  selection : Int
  deriving DecidableEq, Repr

/-- A single-precision value, kept as its bit pattern; float arithmetic is not
interpreted. -/
structure F32 where
  bits : Nat
  deriving DecidableEq, Repr

/-- The part of an `SDL_Event` that `Update` looks at. -/
structure SDL_Event where
  type : Nat
  key_keysym_sym : Int
  jbutton_button : Int
  deriving DecidableEq, Repr

/-- SDL 1.2 event type of a key press. -/
def SDL_KEYDOWN : Nat := 2

/-- SDL 1.2 event type of a joystick button press. -/
def SDL_JOYBUTTONDOWN : Nat := 10

/-- What the engine reports during one frame: the edge-triggered presses of
`InputManager`, its most recent raw event and last moved axis, whether
`VideoManager` is still fading, and the row an option box settles on when it
moves its cursor (cursor movement is the widget's own business). -/
structure Frame where
  AnyKeyPress : Bool
  HelpPress : Bool
  ConfirmPress : Bool
  CancelPress : Bool
  LeftPress : Bool
  RightPress : Bool
  UpPress : Bool
  DownPress : Bool
  QuitPress : Bool
  MostRecentEvent : SDL_Event
  LastAxisMoved : Int
  IsFading : Bool
  cursor : Int
  deriving DecidableEq, Repr

/-- A value stored in a Lua settings script. -/
inductive Value where
  | int (v : Int)
  | bool (v : Bool)
  | float (v : F32)
  | str (v : String)
  deriving DecidableEq, Repr

/-- A script file: its fields by dotted path, e.g. `settings.key_settings.up`. -/
abbrev Script := List (String × Value)

/-- The bindings `InputManager` lets the boot mode read and set. -/
inductive Binding where
  | UpKey | DownKey | LeftKey | RightKey | ConfirmKey | CancelKey | MenuKey | PauseKey
  | JoyIndex | XAxisJoy | YAxisJoy | ThresholdJoy
  | ConfirmJoy | CancelJoy | MenuJoy | PauseJoy | QuitJoy
  deriving DecidableEq, Repr

/-- The methods `Update` calls on the active menu. -/
inductive MenuCall where
  | Update | InputConfirm | InputLeft | InputRight | InputUp | InputDown
  deriving DecidableEq, Repr

/-- A call made to a collaborator, or the invocation of an option handler by a menu. -/
inductive Event where
  | ExitGame
  | NewGame
  | ReloadGlobalScripts
  | PushSaveMode
  | SetLanguage (lang : String)
  | PlaySound (name : String)
  | LoadSound (name : String)
  | StopAllMusic
  | SetMusicVolume (v : F32)
  | SetSoundVolume (v : F32)
  | FadeScreen (ms : Nat)
  | SetResolution (width height : Int)
  | ApplySettings
  | ToggleFullscreen
  | SetPixelArtSmoothed (b : Bool)
  | SetGamma (v : F32)
  | HelpWindowShow
  | HelpWindowHide
  | InputSet (b : Binding) (v : Int)
  | RestoreDefaultKeys
  | RestoreDefaultJoyButtons
  | ResetLastAxisMoved
  | SDL_JoystickEventState_IGNORE
  | SDL_QuitSubSystem_JOYSTICK
  | Menu (m : MenuId) (c : MenuCall)
  | Invoke (h : Handler)
  | DoesFileExist (path : String)
  | CopyFile (source dest : String)
  | OpenFile (path : String)
  | Modify (path : String) (v : Value)
  | CommitChanges
  | CloseFile
  deriving DecidableEq, Repr

/-- The eight key codes of `InputManager`. -/
structure KeyMap where
  up : Int
  down : Int
  left : Int
  right : Int
  confirm : Int
  cancel : Int
  menu : Int
  pause : Int
  deriving DecidableEq, Repr

/-- The joystick button codes of `InputManager`. -/
structure JoyButtonMap where
  confirm : Int
  cancel : Int
  menu : Int
  pause : Int
  quit : Int
  deriving DecidableEq, Repr

/-- The state of the engine singletons and of the file system, as far as the
boot mode reads or writes it.  `f32_sub_tenth` and `f32_add_tenth` stand for
`x - 0.1f` and `x + 0.1f`; `user_data_path` is `GetUserDataPath`,
`default_max_saves` is the default argument of
`_SavesAvailable` and `AUDIO_ENABLE` the flag of the audio engine, both
declared outside this file. -/
structure World where
  keys : KeyMap
  default_keys : KeyMap
  joy_buttons : JoyButtonMap
  default_joy_buttons : JoyButtonMap
  joy_index : Int
  x_axis_joy : Int
  y_axis_joy : Int
  threshold_joy : Int
  screen_width : Int
  screen_height : Int
  fullscreen : Bool
  smooth_pixel_art : Bool
  gamma : F32
  music_volume : F32
  sound_volume : F32
  f32_sub_tenth : F32 → F32
  f32_add_tenth : F32 → F32
  language : String
  help_window : Option Bool
  user_data_path : Bool → String
  default_max_saves : Int
  AUDIO_ENABLE : Bool
  files : List (String × Script)
  unreadable : List String
  unwritable : List String

/-- The member data of `BootMode`. -/
structure BootMode where
  _boot_state : BOOT_STATE
  _exiting_to_new_game : Bool
  _has_modified_settings : Bool
  _key_setting_function : Option KeySetter
  _joy_setting_function : Option JoySetter
  _joy_axis_setting_function : Option AxisSetter
  _active_menu : MenuId
  _main_menu : BootMenu
  _options_menu : BootMenu
  _video_options_menu : BootMenu
  _audio_options_menu : BootMenu
  _language_options_menu : BootMenu
  _key_settings_menu : BootMenu
  _joy_settings_menu : BootMenu
  _resolution_menu : BootMenu
  _po_files : List String
  _options_window_shown : Bool
  _message_window_shown : Bool
  _message_window_text : String
  deriving DecidableEq, Repr

/-- The boot mode, the world around it and the calls made so far. -/
structure Sys where
  boot : BootMode
  world : World
  trace : List Event

/-- Record a call. -/
def emit (e : Event) (σ : Sys) : Sys :=
  { σ with trace := σ.trace ++ [e] }

/-- The menu member a `MenuId` points at. -/
def BootMode.menu (b : BootMode) : MenuId → BootMenu
  | .main_menu => b._main_menu
  | .options_menu => b._options_menu
  | .video_options_menu => b._video_options_menu
  | .audio_options_menu => b._audio_options_menu
  | .language_options_menu => b._language_options_menu
  | .key_settings_menu => b._key_settings_menu
  | .joy_settings_menu => b._joy_settings_menu
  | .resolution_menu => b._resolution_menu

/-- Replace the menu member a `MenuId` points at. -/
def BootMode.setMenu (b : BootMode) (m : MenuId) (x : BootMenu) : BootMode :=
  match m with
  | .main_menu => { b with _main_menu := x }
  | .options_menu => { b with _options_menu := x }
  | .video_options_menu => { b with _video_options_menu := x }
  | .audio_options_menu => { b with _audio_options_menu := x }
  | .language_options_menu => { b with _language_options_menu := x }
  | .key_settings_menu => { b with _key_settings_menu := x }
  | .joy_settings_menu => { b with _joy_settings_menu := x }
  | .resolution_menu => { b with _resolution_menu := x }

/-! ## Integer conversions -/

/-- The conversion `static_cast<uint8>`. -/
def to_uint8 (v : Int) : Int := v % 256

/-- The conversion `static_cast<uint16>`. -/
def to_uint16 (v : Int) : Int := v % 65536

/-- The conversion to `int8` (two's complement wrap). -/
def to_int8 (v : Int) : Int := (v + 128) % 256 - 128

/-! ## The option box widget

`BootMenu` and the `OptionBox` it derives from are declared in `boot_menu.h`
and the GUI library. -/

/-- Modelled from the spec: `BootMenu::ClearOptions` (boot_menu.cpp is missing);
the menu is left without rows and without a selected row. -/
def BootMenu.ClearOptions (_m : BootMenu) : BootMenu :=
  { options := [], selection := -1 }

/-- Modelled from the spec: `BootMenu::AddOption` (boot_menu.cpp is missing);
appends an enabled row with its bound actions. -/
def BootMenu.AddOption (m : BootMenu) (confirm : Option Handler)
    (up down left right : Option Handler) : BootMenu :=
  { m with options := m.options ++ [⟨true, confirm, up, down, left, right⟩] }

/-- Modelled from the spec: `OptionBox::SetSelection` (the GUI library is
missing); the given row becomes the selected one. -/
def BootMenu.SetSelection (m : BootMenu) (index : Int) : BootMenu :=
  { m with selection := index }

/-- Modelled from the spec: `OptionBox::EnableOption` (the GUI library is
missing); sets the enabled flag of one row. -/
def BootMenu.EnableOption (m : BootMenu) (index : Nat) (enable : Bool) : BootMenu :=
  { m with options := m.options.modify (fun o => { o with enabled := enable }) index }

/-- Modelled from the spec: `OptionBox::GetSelection` (the GUI library is missing). -/
def BootMenu.GetSelection (m : BootMenu) : Int := m.selection

/-- The row at an index, if there is one. -/
def BootMenu.row (m : BootMenu) (index : Int) : Option MenuOption :=
  if index < 0 then none else m.options[index.toNat]?

/-- Modelled from the spec: `OptionBox::IsOptionEnabled` (the GUI library is
missing); a row that does not exist is not enabled. -/
def BootMenu.IsOptionEnabled (m : BootMenu) (index : Int) : Bool :=
  match m.row index with
  | some o => o.enabled
  | none => false

/-- A menu as its default constructor leaves it. -/
def BootMenu.empty : BootMenu := { options := [], selection := -1 }

/-! ## Engine calls

Each call is recorded with `emit` and changes the `World` in the way the
boot mode can later observe through the matching getter. -/

/-- The getters `InputManager->Get...()`. -/
def InputManager_Get (w : World) : Binding → Int
  | .UpKey => w.keys.up
  | .DownKey => w.keys.down
  | .LeftKey => w.keys.left
  | .RightKey => w.keys.right
  | .ConfirmKey => w.keys.confirm
  | .CancelKey => w.keys.cancel
  | .MenuKey => w.keys.menu
  | .PauseKey => w.keys.pause
  | .JoyIndex => w.joy_index
  | .XAxisJoy => w.x_axis_joy
  | .YAxisJoy => w.y_axis_joy
  | .ThresholdJoy => w.threshold_joy
  | .ConfirmJoy => w.joy_buttons.confirm
  | .CancelJoy => w.joy_buttons.cancel
  | .MenuJoy => w.joy_buttons.menu
  | .PauseJoy => w.joy_buttons.pause
  | .QuitJoy => w.joy_buttons.quit

/-- The stored value behind a setter `InputManager->Set...(v)`. -/
def World.setBinding (w : World) (b : Binding) (v : Int) : World :=
  match b with
  | .UpKey => { w with keys := { w.keys with up := v } }
  | .DownKey => { w with keys := { w.keys with down := v } }
  | .LeftKey => { w with keys := { w.keys with left := v } }
  | .RightKey => { w with keys := { w.keys with right := v } }
  | .ConfirmKey => { w with keys := { w.keys with confirm := v } }
  | .CancelKey => { w with keys := { w.keys with cancel := v } }
  | .MenuKey => { w with keys := { w.keys with menu := v } }
  | .PauseKey => { w with keys := { w.keys with pause := v } }
  | .JoyIndex => { w with joy_index := v }
  | .XAxisJoy => { w with x_axis_joy := v }
  | .YAxisJoy => { w with y_axis_joy := v }
  | .ThresholdJoy => { w with threshold_joy := v }
  | .ConfirmJoy => { w with joy_buttons := { w.joy_buttons with confirm := v } }
  | .CancelJoy => { w with joy_buttons := { w.joy_buttons with cancel := v } }
  | .MenuJoy => { w with joy_buttons := { w.joy_buttons with menu := v } }
  | .PauseJoy => { w with joy_buttons := { w.joy_buttons with pause := v } }
  | .QuitJoy => { w with joy_buttons := { w.joy_buttons with quit := v } }

/-- The setters `InputManager->Set...(v)`. -/
def InputManager_Set (b : Binding) (v : Int) (σ : Sys) : Sys :=
  emit (.InputSet b v) { σ with world := σ.world.setBinding b v }

/-- The call `InputManager->RestoreDefaultKeys()`. -/
def InputManager_RestoreDefaultKeys (σ : Sys) : Sys :=
  emit .RestoreDefaultKeys { σ with world := { σ.world with keys := σ.world.default_keys } }

/-- The call `InputManager->RestoreDefaultJoyButtons()`. -/
def InputManager_RestoreDefaultJoyButtons (σ : Sys) : Sys :=
  emit .RestoreDefaultJoyButtons
    { σ with world := { σ.world with joy_buttons := σ.world.default_joy_buttons } }

/-- The call `VideoManager->SetResolution(width, height)`. -/
def VideoManager_SetResolution (width height : Int) (σ : Sys) : Sys :=
  emit (.SetResolution width height)
    { σ with world := { σ.world with screen_width := width, screen_height := height } }

/-- The call `VideoManager->ApplySettings()`. -/
def VideoManager_ApplySettings (σ : Sys) : Sys := emit .ApplySettings σ

/-- The call `VideoManager->ToggleFullscreen()`. -/
def VideoManager_ToggleFullscreen (σ : Sys) : Sys :=
  emit .ToggleFullscreen
    { σ with world := { σ.world with fullscreen := !σ.world.fullscreen } }

/-- The call `VideoManager->SetPixelArtSmoothed(b)`. -/
def VideoManager_SetPixelArtSmoothed (b : Bool) (σ : Sys) : Sys :=
  emit (.SetPixelArtSmoothed b) { σ with world := { σ.world with smooth_pixel_art := b } }

/-- The call `VideoManager->SetGamma(v)`. -/
def VideoManager_SetGamma (v : F32) (σ : Sys) : Sys :=
  emit (.SetGamma v) { σ with world := { σ.world with gamma := v } }

/-- The call `AudioManager->SetMusicVolume(v)`. -/
def AudioManager_SetMusicVolume (v : F32) (σ : Sys) : Sys :=
  emit (.SetMusicVolume v) { σ with world := { σ.world with music_volume := v } }

/-- The call `AudioManager->SetSoundVolume(v)`. -/
def AudioManager_SetSoundVolume (v : F32) (σ : Sys) : Sys :=
  emit (.SetSoundVolume v) { σ with world := { σ.world with sound_volume := v } }

/-- The call `AudioManager->PlaySound(name)`. -/
def AudioManager_PlaySound (name : String) (σ : Sys) : Sys := emit (.PlaySound name) σ

/-- The call `AudioManager->LoadSound(name)`. -/
def AudioManager_LoadSound (name : String) (σ : Sys) : Sys := emit (.LoadSound name) σ

/-- The call `SystemManager->SetLanguage(lang)`. -/
def SystemManager_SetLanguage (lang : String) (σ : Sys) : Sys :=
  emit (.SetLanguage lang) { σ with world := { σ.world with language := lang } }

/-- The test `help_window && help_window->IsActive()`. -/
def HelpWindow_IsActive (w : World) : Bool :=
  match w.help_window with
  | some active => active
  | none => false

/-- The call `help_window->Hide()`. -/
def HelpWindow_Hide (σ : Sys) : Sys :=
  emit .HelpWindowHide
    { σ with world := { σ.world with help_window := σ.world.help_window.map (fun _ => false) } }

/-- The call `ModeManager->GetHelpWindow()->Show()`. -/
def HelpWindow_Show (σ : Sys) : Sys :=
  emit .HelpWindowShow
    { σ with world := { σ.world with help_window := σ.world.help_window.map (fun _ => true) } }

/-- The call `DoesFileExist(path)`. -/
def DoesFileExist (path : String) (σ : Sys) : Bool × Sys :=
  ((σ.world.files.lookup path).isSome, emit (.DoesFileExist path) σ)

/-- The call `CopyFile(source, dest)`: the destination gets the content of the
source when the source exists. -/
def CopyFile (source dest : String) (σ : Sys) : Sys :=
  let σ := emit (.CopyFile source dest) σ
  match σ.world.files.lookup source with
  | some content =>
      { σ with world := { σ.world with
          files := (dest, content) :: σ.world.files.filter (fun f => f.1 != dest) } }
  | none => σ

/-! ## Script descriptors

`ReadScriptDescriptor` and `ModifyScriptDescriptor` belong to the script
engine.  A descriptor holds the fields of the file it opened, the tables
currently open and whether an error has been detected. -/

/-- Modelled from the spec: the state of a script descriptor (engine/script is
missing): the fields of the opened file, the names of the open tables, the path
of the file and the accumulated error flag. -/
structure ScriptDescriptor where
  filename : String
  script : Script
  open_tables : List String
  error : Bool
  deriving DecidableEq, Repr

/-- Modelled from the spec: the dotted path of a key inside the open tables. -/
def ScriptDescriptor.path (d : ScriptDescriptor) (key : String) : String :=
  String.intercalate "." (d.open_tables ++ [key])

/-- Modelled from the spec: `OpenTable(name)`. -/
def ScriptDescriptor.OpenTable (d : ScriptDescriptor) (name : String) : ScriptDescriptor :=
  { d with open_tables := d.open_tables ++ [name] }

/-- Modelled from the spec: `CloseTable()`. -/
def ScriptDescriptor.CloseTable (d : ScriptDescriptor) : ScriptDescriptor :=
  { d with open_tables := d.open_tables.dropLast }

/-- Modelled from the spec: `CloseAllTables()`. -/
def ScriptDescriptor.CloseAllTables (d : ScriptDescriptor) : ScriptDescriptor :=
  { d with open_tables := [] }

/-- Modelled from the spec: `IsErrorDetected()`. -/
def ScriptDescriptor.IsErrorDetected (d : ScriptDescriptor) : Bool := d.error

/-- Modelled from the spec: `ReadInt(key)`; a field that is missing or not an
integer is a read error and reads as 0. -/
def ScriptDescriptor.ReadInt (d : ScriptDescriptor) (key : String) : Int × ScriptDescriptor :=
  match d.script.lookup (d.path key) with
  | some (.int v) => (v, d)
  | _ => (0, { d with error := true })

/-- Modelled from the spec: `ReadBool(key)`; a field that is missing or not a
boolean is a read error and reads as false. -/
def ScriptDescriptor.ReadBool (d : ScriptDescriptor) (key : String) : Bool × ScriptDescriptor :=
  match d.script.lookup (d.path key) with
  | some (.bool v) => (v, d)
  | _ => (false, { d with error := true })

/-- Modelled from the spec: `ReadFloat(key)`; a field that is missing or not a
number is a read error and reads as zero. -/
def ScriptDescriptor.ReadFloat (d : ScriptDescriptor) (key : String) : F32 × ScriptDescriptor :=
  match d.script.lookup (d.path key) with
  | some (.float v) => (v, d)
  | _ => (⟨0⟩, { d with error := true })

/-- Modelled from the spec: `ReadString(key)`; a field that is missing or not a
string is a read error and reads as the empty string. -/
def ScriptDescriptor.ReadString (d : ScriptDescriptor) (key : String) :
    String × ScriptDescriptor :=
  match d.script.lookup (d.path key) with
  | some (.str v) => (v, d)
  | _ => ("", { d with error := true })

/-- Modelled from the spec: `DoesIntExist(key)`. -/
def ScriptDescriptor.DoesIntExist (d : ScriptDescriptor) (key : String) : Bool :=
  match d.script.lookup (d.path key) with
  | some (.int _) => true
  | _ => false

/-- Modelled from the spec: `DoesBoolExist(key)`. -/
def ScriptDescriptor.DoesBoolExist (d : ScriptDescriptor) (key : String) : Bool :=
  match d.script.lookup (d.path key) with
  | some (.bool _) => true
  | _ => false

/-- Modelled from the spec: `GetTableSize()` of the open table: the number of
consecutive entries `1, 2, ...` whose first element is present. -/
def ScriptDescriptor.GetTableSize (d : ScriptDescriptor) : Nat :=
  ((List.range d.script.length).takeWhile
    (fun i => (d.script.lookup (d.path (toString (i + 1) ++ ".1"))).isSome)).length

/-- Modelled from the spec: `OpenFile(filename)` of either descriptor; it fails
when the file does not exist or cannot be read. -/
def ScriptDescriptor_OpenFile (filename : String) (σ : Sys) : Option ScriptDescriptor × Sys :=
  let σ := emit (.OpenFile filename) σ
  match σ.world.files.lookup filename with
  | some content =>
      if filename ∈ σ.world.unreadable then (none, σ)
      else (some { filename := filename, script := content, open_tables := [], error := false }, σ)
  | none => (none, σ)

/-- Modelled from the spec: `ModifyInt`, `ModifyBool`, `ModifyFloat` and
`ModifyString`: update one field, by dotted path inside the open tables, in
the descriptor. -/
def ScriptDescriptor.Modify (key : String) (v : Value) (dσ : ScriptDescriptor × Sys) :
    ScriptDescriptor × Sys :=
  let p := dσ.1.path key
  ({ dσ.1 with script := (p, v) :: dσ.1.script.filter (fun f => f.1 != p) },
   emit (.Modify p v) dσ.2)

/-- Modelled from the spec: `CommitChanges()`: write the updated fields back to
the file; when the file cannot be written the file keeps its content and the
descriptor records an error. -/
def ScriptDescriptor.CommitChanges (dσ : ScriptDescriptor × Sys) : ScriptDescriptor × Sys :=
  let σ := emit .CommitChanges dσ.2
  if dσ.1.filename ∈ σ.world.unwritable then ({ dσ.1 with error := true }, σ)
  else (dσ.1, { σ with world := { σ.world with
      files := (dσ.1.filename, dσ.1.script) ::
        σ.world.files.filter (fun f => f.1 != dσ.1.filename) } })

/-- Modelled from the spec: `CloseFile()`. -/
def ScriptDescriptor_CloseFile (σ : Sys) : Sys := emit .CloseFile σ

/-! ## Menu setup and refresh -/

/-- Change the member data, leaving the world and the recorded calls alone. -/
def Sys.modifyBoot (σ : Sys) (f : BootMode → BootMode) : Sys :=
  { σ with boot := f σ.boot }

/-- The file name `data_path + "saved_game_" << id << ".lua"`. -/
def saved_game_filename (data_path : String) (id : Nat) : String :=
  data_path ++ "saved_game_" ++ toString id ++ ".lua"

/-- `BootMode::_SavesAvailable(maxId)`: count the saved games with an id below
`maxId` and report whether there is one. -/
def _SavesAvailable (maxId : Int) (σ : Sys) : Bool × Sys :=
  let data_path := σ.world.user_data_path true
  let r := (List.range maxId.toNat).foldl
    (fun (acc : Nat × Sys) id =>
      let e := DoesFileExist (saved_game_filename data_path id) acc.2
      (if e.1 then acc.1 + 1 else acc.1, e.2))
    (0, σ)
  (decide (r.1 > 0), r.2)

/-- `BootMode::_SetupMainMenu` (the drawing properties of the option box are
not carried). -/
def _SetupMainMenu (σ : Sys) : Sys :=
  let m := σ.boot._main_menu.ClearOptions
  let m := m.AddOption (some .OnNewGame) none none none none
  let m := m.AddOption (some .OnLoadGame) none none none none
  let m := m.AddOption (some .OnOptions) none none none none
  let m := m.AddOption (some .OnQuit) none none none none
  let r := _SavesAvailable σ.world.default_max_saves σ
  let m := if !r.1 then (m.EnableOption 1 false).SetSelection 0 else m.SetSelection 1
  let σ := r.2.modifyBoot (fun b => { b with _main_menu := m })
  let σ := AudioManager_LoadSound "snd/confirm.wav" σ
  let σ := AudioManager_LoadSound "snd/cancel.wav" σ
  AudioManager_LoadSound "snd/bump.wav" σ

/-- `BootMode::_SetupOptionsMenu`. -/
def _SetupOptionsMenu (σ : Sys) : Sys :=
  let m := σ.boot._options_menu.ClearOptions
  let m := m.AddOption (some .OnVideoOptions) none none none none
  let m := m.AddOption (some .OnAudioOptions) none none none none
  let m := m.AddOption (some .OnLanguageOptions) none none none none
  let m := m.AddOption (some .OnKeySettings) none none none none
  let m := m.AddOption (some .OnJoySettings) none none none none
  σ.modifyBoot (fun b => { b with _options_menu := m.SetSelection 0 })

/-- `BootMode::_SetupVideoOptionsMenu`. -/
def _SetupVideoOptionsMenu (σ : Sys) : Sys :=
  let m := σ.boot._video_options_menu.ClearOptions
  let m := m.AddOption (some .OnResolution) none none none none
  let m := m.AddOption (some .OnToggleFullscreen) none none
    (some .OnToggleFullscreen) (some .OnToggleFullscreen)
  let m := m.AddOption none none none (some .OnBrightnessLeft) (some .OnBrightnessRight)
  let m := m.AddOption (some .OnTogglePixelArtSmoothed) none none
    (some .OnTogglePixelArtSmoothed) (some .OnTogglePixelArtSmoothed)
  σ.modifyBoot (fun b => { b with _video_options_menu := m.SetSelection 0 })

/-- `BootMode::_SetupAudioOptionsMenu`. -/
def _SetupAudioOptionsMenu (σ : Sys) : Sys :=
  let m := σ.boot._audio_options_menu.ClearOptions
  let m := m.AddOption none none none (some .OnSoundLeft) (some .OnSoundRight)
  let m := m.AddOption none none none (some .OnMusicLeft) (some .OnMusicRight)
  let σ := σ.modifyBoot (fun b => { b with _audio_options_menu := m.SetSelection 0 })
  AudioManager_LoadSound "snd/volume_test.wav" σ

/-- The file named by `_LANGUAGE_FILE`. -/
def _LANGUAGE_FILE : String := "dat/config/languages.lua"

/-- `BootMode::_SetupLanguageOptionsMenu`: one row per entry of the `languages`
table, whose second element is kept in `_po_files`. -/
def _SetupLanguageOptionsMenu (σ : Sys) : Sys :=
  match ScriptDescriptor_OpenFile _LANGUAGE_FILE σ with
  | (none, σ) => σ
  | (some read_data, σ) =>
      let read_data := read_data.OpenTable "languages"
      let table_size := read_data.GetTableSize
      let r := (List.range table_size).foldl
        (fun (acc : List String × BootMenu) i =>
          let d := read_data.OpenTable (toString (i + 1))
          (acc.1 ++ [(d.ReadString "2").1],
           acc.2.AddOption (some .OnLanguageSelect) none none none none))
        (([] : List String), σ.boot._language_options_menu)
      let σ := σ.modifyBoot (fun b => { b with _po_files := r.1, _language_options_menu := r.2 })
      ScriptDescriptor_CloseFile σ

/-- `BootMode::_SetupKeySettingsMenu`. -/
def _SetupKeySettingsMenu (σ : Sys) : Sys :=
  let m := σ.boot._key_settings_menu.ClearOptions
  let m := m.AddOption (some .RedefineUpKey) none none none none
  let m := m.AddOption (some .RedefineDownKey) none none none none
  let m := m.AddOption (some .RedefineLeftKey) none none none none
  let m := m.AddOption (some .RedefineRightKey) none none none none
  let m := m.AddOption (some .RedefineConfirmKey) none none none none
  let m := m.AddOption (some .RedefineCancelKey) none none none none
  let m := m.AddOption (some .RedefineMenuKey) none none none none
  let m := m.AddOption (some .RedefinePauseKey) none none none none
  let m := m.AddOption (some .OnRestoreDefaultKeys) none none none none
  σ.modifyBoot (fun b => { b with _key_settings_menu := m })

/-- `BootMode::_SetupJoySettingsMenu`. -/
def _SetupJoySettingsMenu (σ : Sys) : Sys :=
  let m := σ.boot._joy_settings_menu.ClearOptions
  let m := m.AddOption (some .RedefineXAxisJoy) none none none none
  let m := m.AddOption (some .RedefineYAxisJoy) none none none none
  let m := m.AddOption (some .RedefineConfirmJoy) none none none none
  let m := m.AddOption (some .RedefineCancelJoy) none none none none
  let m := m.AddOption (some .RedefineMenuJoy) none none none none
  let m := m.AddOption (some .RedefinePauseJoy) none none none none
  let m := m.AddOption (some .OnRestoreDefaultJoyButtons) none none none none
  σ.modifyBoot (fun b => { b with _joy_settings_menu := m })

/-- `BootMode::_SetupResolutionMenu`: the rows are added to whatever the menu
already holds, and the row of the current screen width is selected. -/
def _SetupResolutionMenu (σ : Sys) : Sys :=
  let m := σ.boot._resolution_menu
  let m := m.AddOption (some .OnResolution640x480) none none none none
  let m := m.AddOption (some .OnResolution800x600) none none none none
  let m := m.AddOption (some .OnResolution1024x768) none none none none
  let m := m.AddOption (some .OnResolution1280x1024) none none none none
  let m :=
    if σ.world.screen_width = 640 then m.SetSelection 0
    else if σ.world.screen_width = 800 then m.SetSelection 1
    else if σ.world.screen_width = 1024 then m.SetSelection 2
    else if σ.world.screen_width = 1280 then m.SetSelection 3
    else m
  σ.modifyBoot (fun b => { b with _resolution_menu := m })

/-- `BootMode::_ReloadTranslatableMenus`. -/
def _ReloadTranslatableMenus (σ : Sys) : Sys :=
  let σ := _SetupMainMenu σ
  let σ := _SetupOptionsMenu σ
  let σ := _SetupVideoOptionsMenu σ
  let σ := _SetupAudioOptionsMenu σ
  let σ := _SetupKeySettingsMenu σ
  let σ := _SetupJoySettingsMenu σ
  _SetupResolutionMenu σ

/-- `BootMode::_RefreshVideoOptions`: it only rewrites the labels of the video
options rows, and labels are not carried. -/
def _RefreshVideoOptions (σ : Sys) : Sys := σ

/-- `BootMode::_RefreshAudioOptions`: it only rewrites row labels. -/
def _RefreshAudioOptions (σ : Sys) : Sys := σ

/-- `BootMode::_RefreshKeySettings`: it only rewrites row labels. -/
def _RefreshKeySettings (σ : Sys) : Sys := σ

/-- `BootMode::_RefreshJoySettings`: it only rewrites row labels. -/
def _RefreshJoySettings (σ : Sys) : Sys := σ

/-! ## Menu handler methods -/

/-- `BootMode::_OnNewGame`. -/
def _OnNewGame (σ : Sys) : Sys :=
  let σ := emit .StopAllMusic σ
  let σ := emit (.FadeScreen 2000) σ
  let σ := AudioManager_PlaySound "snd/new_game.wav" σ
  σ.modifyBoot (fun b => { b with _exiting_to_new_game := true })

/-- `BootMode::_OnLoadGame`. -/
def _OnLoadGame (σ : Sys) : Sys := emit .PushSaveMode σ

/-- `BootMode::_OnOptions`. -/
def _OnOptions (σ : Sys) : Sys :=
  σ.modifyBoot (fun b => { b with _active_menu := .options_menu, _options_window_shown := true })

/-- `BootMode::_OnQuit`. -/
def _OnQuit (σ : Sys) : Sys := emit .ExitGame σ

/-- `BootMode::_OnVideoOptions`. -/
def _OnVideoOptions (σ : Sys) : Sys :=
  _RefreshVideoOptions (σ.modifyBoot (fun b => { b with _active_menu := .video_options_menu }))

/-- `BootMode::_OnAudioOptions`. -/
def _OnAudioOptions (σ : Sys) : Sys :=
  _RefreshAudioOptions (σ.modifyBoot (fun b => { b with _active_menu := .audio_options_menu }))

/-- `BootMode::_OnLanguageOptions`. -/
def _OnLanguageOptions (σ : Sys) : Sys :=
  σ.modifyBoot (fun b => { b with _active_menu := .language_options_menu })

/-- `BootMode::_OnKeySettings`. -/
def _OnKeySettings (σ : Sys) : Sys :=
  _RefreshKeySettings (σ.modifyBoot (fun b => { b with _active_menu := .key_settings_menu }))

/-- `BootMode::_OnJoySettings`. -/
def _OnJoySettings (σ : Sys) : Sys :=
  _RefreshJoySettings (σ.modifyBoot (fun b => { b with _active_menu := .joy_settings_menu }))

/-- `BootMode::_OnToggleFullscreen`. -/
def _OnToggleFullscreen (σ : Sys) : Sys :=
  let σ := VideoManager_ToggleFullscreen σ
  let σ := VideoManager_ApplySettings σ
  let σ := _RefreshVideoOptions σ
  σ.modifyBoot (fun b => { b with _has_modified_settings := true })

/-- `BootMode::_OnTogglePixelArtSmoothed`. -/
def _OnTogglePixelArtSmoothed (σ : Sys) : Sys :=
  let σ := VideoManager_SetPixelArtSmoothed (!σ.world.smooth_pixel_art) σ
  let σ := VideoManager_ApplySettings σ
  let σ := _RefreshVideoOptions σ
  σ.modifyBoot (fun b => { b with _has_modified_settings := true })

/-- `BootMode::_OnResolution`. -/
def _OnResolution (σ : Sys) : Sys :=
  σ.modifyBoot (fun b => { b with _active_menu := .resolution_menu })

/-- `BootMode::_ChangeResolution`. -/
def _ChangeResolution (width height : Int) (σ : Sys) : Sys :=
  let σ := VideoManager_SetResolution width height σ
  let σ := VideoManager_ApplySettings σ
  let σ := _RefreshVideoOptions σ
  σ.modifyBoot (fun b => { b with _has_modified_settings := true })

/-- `BootMode::_OnResolution640x480`. -/
def _OnResolution640x480 (σ : Sys) : Sys :=
  if σ.world.screen_width ≠ 640 ∧ σ.world.screen_height ≠ 480 then _ChangeResolution 640 480 σ
  else σ

/-- `BootMode::_OnResolution800x600`. -/
def _OnResolution800x600 (σ : Sys) : Sys :=
  if σ.world.screen_width ≠ 800 ∧ σ.world.screen_height ≠ 600 then _ChangeResolution 800 600 σ
  else σ

/-- `BootMode::_OnResolution1024x768`. -/
def _OnResolution1024x768 (σ : Sys) : Sys :=
  if σ.world.screen_width ≠ 1024 ∧ σ.world.screen_height ≠ 768 then _ChangeResolution 1024 768 σ
  else σ

/-- `BootMode::_OnResolution1280x1024`. -/
def _OnResolution1280x1024 (σ : Sys) : Sys :=
  if σ.world.screen_width ≠ 1280 ∧ σ.world.screen_height ≠ 1024 then
    _ChangeResolution 1280 1024 σ
  else σ

/-- `BootMode::_OnBrightnessLeft`. -/
def _OnBrightnessLeft (σ : Sys) : Sys :=
  _RefreshVideoOptions (VideoManager_SetGamma (σ.world.f32_sub_tenth σ.world.gamma) σ)

/-- `BootMode::_OnBrightnessRight`. -/
def _OnBrightnessRight (σ : Sys) : Sys :=
  _RefreshVideoOptions (VideoManager_SetGamma (σ.world.f32_add_tenth σ.world.gamma) σ)

/-- `BootMode::_OnSoundLeft`. -/
def _OnSoundLeft (σ : Sys) : Sys :=
  let σ := AudioManager_SetSoundVolume (σ.world.f32_sub_tenth σ.world.sound_volume) σ
  let σ := _RefreshAudioOptions σ
  let σ := AudioManager_PlaySound "snd/volume_test.wav" σ
  σ.modifyBoot (fun b => { b with _has_modified_settings := true })

/-- `BootMode::_OnSoundRight`. -/
def _OnSoundRight (σ : Sys) : Sys :=
  let σ := AudioManager_SetSoundVolume (σ.world.f32_add_tenth σ.world.sound_volume) σ
  let σ := _RefreshAudioOptions σ
  let σ := AudioManager_PlaySound "snd/volume_test.wav" σ
  σ.modifyBoot (fun b => { b with _has_modified_settings := true })

/-- `BootMode::_OnMusicLeft`. -/
def _OnMusicLeft (σ : Sys) : Sys :=
  let σ := AudioManager_SetMusicVolume (σ.world.f32_sub_tenth σ.world.music_volume) σ
  let σ := _RefreshAudioOptions σ
  σ.modifyBoot (fun b => { b with _has_modified_settings := true })

/-- `BootMode::_OnMusicRight`. -/
def _OnMusicRight (σ : Sys) : Sys :=
  let σ := AudioManager_SetMusicVolume (σ.world.f32_add_tenth σ.world.music_volume) σ
  let σ := _RefreshAudioOptions σ
  σ.modifyBoot (fun b => { b with _has_modified_settings := true })

/-- The read `_po_files[_language_options_menu.GetSelection()]` of
`_OnLanguageSelect`. The source indexes the vector with an unchecked
`operator[]`, so the read has a value only for a selection inside the vector;
outside it the source has no defined behaviour, which is `none` here. -/
def selected_po_file (b : BootMode) : Option String :=
  let sel := b._language_options_menu.GetSelection
  if sel < 0 then none else b._po_files[sel.toNat]?

/-- `BootMode::_OnLanguageSelect`. The result is `none` exactly when the
selection lies outside `_po_files`, where the unchecked read of the source is
undefined and nothing after it can be relied on. -/
def _OnLanguageSelect (σ : Sys) : Option Sys :=
  match selected_po_file σ.boot with
  | none => none
  | some lang =>
    let σ := SystemManager_SetLanguage lang σ
    let σ := σ.modifyBoot (fun b => { b with _has_modified_settings := true })
    let σ := _ReloadTranslatableMenus σ
    some (emit .ReloadGlobalScripts σ)

/-- `BootMode::_OnRestoreDefaultKeys`. -/
def _OnRestoreDefaultKeys (σ : Sys) : Sys :=
  let σ := InputManager_RestoreDefaultKeys σ
  let σ := _RefreshKeySettings σ
  σ.modifyBoot (fun b => { b with _has_modified_settings := true })

/-- `BootMode::_OnRestoreDefaultJoyButtons`. -/
def _OnRestoreDefaultJoyButtons (σ : Sys) : Sys :=
  let σ := InputManager_RestoreDefaultJoyButtons σ
  let σ := _RefreshJoySettings σ
  σ.modifyBoot (fun b => { b with _has_modified_settings := true })

/-! ## Helper methods -/

/-- `BootMode::_ShowMessageWindow(WAIT_FOR)`: set the prompt and show the window. -/
def _ShowMessageWindow (wait : WAIT_FOR) (σ : Sys) : Sys :=
  let text := match wait with
    | .WAIT_JOY_BUTTON => "Please press a new joystick button."
    | .WAIT_KEY => "Please press a new key."
    | .WAIT_JOY_AXIS => "Please move an axis."
  σ.modifyBoot (fun b => { b with _message_window_text := text, _message_window_shown := true })

/-- `BootMode::_ShowMessageWindow(bool joystick)`. -/
def _ShowMessageWindow_bool (joystick : Bool) (σ : Sys) : Sys :=
  if joystick then _ShowMessageWindow .WAIT_JOY_BUTTON σ else _ShowMessageWindow .WAIT_KEY σ

/-- The call `_message_window.Hide()`. -/
def _message_window_Hide (σ : Sys) : Sys :=
  σ.modifyBoot (fun b => { b with _message_window_shown := false })

/-! ## Settings file -/

/-- One line `InputManager->SetX(static_cast<T>(settings.ReadInt(key)))` of
`_LoadSettingsFile`, with `cast` the conversion to `T`. -/
def load_binding (b : Binding) (key : String) (cast : Int → Int)
    (dσ : ScriptDescriptor × Sys) : ScriptDescriptor × Sys :=
  let r := dσ.1.ReadInt key
  (r.2, InputManager_Set b (cast r.1) dσ.2)

/-- The `key_settings` block of `_LoadSettingsFile`. -/
def load_key_settings (dσ : ScriptDescriptor × Sys) : ScriptDescriptor × Sys :=
  let dσ := (dσ.1.OpenTable "key_settings", dσ.2)
  let dσ := load_binding .UpKey "up" id dσ
  let dσ := load_binding .DownKey "down" id dσ
  let dσ := load_binding .LeftKey "left" id dσ
  let dσ := load_binding .RightKey "right" id dσ
  let dσ := load_binding .ConfirmKey "confirm" id dσ
  let dσ := load_binding .CancelKey "cancel" id dσ
  let dσ := load_binding .MenuKey "menu" id dσ
  let dσ := load_binding .PauseKey "pause" id dσ
  (dσ.1.CloseTable, dσ.2)

/-- The `joystick_settings` block of `_LoadSettingsFile`. -/
def load_joystick_settings (dσ : ScriptDescriptor × Sys) : ScriptDescriptor × Sys :=
  let dσ := (dσ.1.OpenTable "joystick_settings", dσ.2)
  let dσ :=
    if dσ.1.DoesBoolExist "input_disabled" then
      let r := dσ.1.ReadBool "input_disabled"
      if r.1 = true then
        (r.2, emit .SDL_QuitSubSystem_JOYSTICK (emit .SDL_JoystickEventState_IGNORE dσ.2))
      else (r.2, dσ.2)
    else dσ
  let dσ := load_binding .JoyIndex "index" id dσ
  let dσ := load_binding .ConfirmJoy "confirm" to_uint8 dσ
  let dσ := load_binding .CancelJoy "cancel" to_uint8 dσ
  let dσ := load_binding .MenuJoy "menu" to_uint8 dσ
  let dσ := load_binding .PauseJoy "pause" to_uint8 dσ
  let dσ := load_binding .QuitJoy "quit" to_uint8 dσ
  let dσ := if dσ.1.DoesIntExist "x_axis" then load_binding .XAxisJoy "x_axis" to_int8 dσ else dσ
  let dσ := if dσ.1.DoesIntExist "y_axis" then load_binding .YAxisJoy "y_axis" to_int8 dσ else dσ
  let dσ :=
    if dσ.1.DoesIntExist "threshold" then load_binding .ThresholdJoy "threshold" to_uint16 dσ
    else dσ
  (dσ.1.CloseTable, dσ.2)

/-- The `video_settings` block of `_LoadSettingsFile`. -/
def load_video_settings (dσ : ScriptDescriptor × Sys) : ScriptDescriptor × Sys :=
  let settings := dσ.1.OpenTable "video_settings"
  let r := settings.ReadBool "full_screen"
  let fullscreen := r.1
  let r := r.2.ReadBool "smooth_graphics"
  let σ := VideoManager_SetPixelArtSmoothed r.1 dσ.2
  let r := r.2.ReadInt "screen_resx"
  let resx := r.1
  let settings := r.2
  let σ :=
    if resx = 800 then
      (_OnResolution800x600 σ).modifyBoot
        (fun b => { b with _resolution_menu := b._resolution_menu.SetSelection 1 })
    else if resx = 1024 then
      (_OnResolution1024x768 σ).modifyBoot
        (fun b => { b with _resolution_menu := b._resolution_menu.SetSelection 2 })
    else if resx = 1280 then
      (_OnResolution1280x1024 σ).modifyBoot
        (fun b => { b with _resolution_menu := b._resolution_menu.SetSelection 3 })
    else
      (_OnResolution640x480 σ).modifyBoot
        (fun b => { b with _resolution_menu := b._resolution_menu.SetSelection 0 })
  let σ :=
    if σ.world.fullscreen = true ∧ fullscreen = false then _OnToggleFullscreen σ
    else if σ.world.fullscreen = false ∧ fullscreen = true then _OnToggleFullscreen σ
    else σ
  (settings.CloseTable, σ)

/-- The `audio_settings` block of `_LoadSettingsFile`. -/
def load_audio_settings (dσ : ScriptDescriptor × Sys) : ScriptDescriptor × Sys :=
  let dσ :=
    if dσ.2.world.AUDIO_ENABLE then
      let settings := dσ.1.OpenTable "audio_settings"
      let r := settings.ReadFloat "music_vol"
      let σ := AudioManager_SetMusicVolume r.1 dσ.2
      let r := r.2.ReadFloat "sound_vol"
      (r.2, AudioManager_SetSoundVolume r.1 σ)
    else dσ
  (dσ.1.CloseAllTables, dσ.2)

/-- `BootMode::_LoadSettingsFile`: the language, then the four blocks, with the
error check of the source after each block. -/
def _LoadSettingsFile (filename : String) (σ : Sys) : Bool × Sys :=
  match ScriptDescriptor_OpenFile filename σ with
  | (none, σ) => (false, σ)
  | (some settings, σ) =>
      let settings := settings.OpenTable "settings"
      let r := settings.ReadString "language"
      let σ := SystemManager_SetLanguage r.1 σ
      let dσ := load_key_settings (r.2, σ)
      if dσ.1.IsErrorDetected then (false, ScriptDescriptor_CloseFile dσ.2)
      else
        let dσ := load_joystick_settings dσ
        if dσ.1.IsErrorDetected then (false, ScriptDescriptor_CloseFile dσ.2)
        else
          let dσ := load_video_settings dσ
          if dσ.1.IsErrorDetected then (false, ScriptDescriptor_CloseFile dσ.2)
          else
            let dσ := load_audio_settings dσ
            if dσ.1.IsErrorDetected then (false, ScriptDescriptor_CloseFile dσ.2)
            else (true, ScriptDescriptor_CloseFile dσ.2)

/-- The field updates of `_SaveSettingsFile`, in the order of the source. -/
def save_fields (dσ : ScriptDescriptor × Sys) : ScriptDescriptor × Sys :=
  let w := dσ.2.world
  let dσ := ScriptDescriptor.Modify "settings.first_start" (.int 0) dσ
  let dσ := ScriptDescriptor.Modify "settings.language" (.str w.language) dσ
  let dσ := (dσ.1.OpenTable "settings", dσ.2)
  let dσ := ScriptDescriptor.Modify "video_settings.screen_resx" (.int w.screen_width) dσ
  let dσ := ScriptDescriptor.Modify "video_settings.screen_resy" (.int w.screen_height) dσ
  let dσ := ScriptDescriptor.Modify "video_settings.full_screen" (.bool w.fullscreen) dσ
  let dσ := ScriptDescriptor.Modify "video_settings.smooth_graphics" (.bool w.smooth_pixel_art) dσ
  let dσ := ScriptDescriptor.Modify "audio_settings.music_vol" (.float w.music_volume) dσ
  let dσ := ScriptDescriptor.Modify "audio_settings.sound_vol" (.float w.sound_volume) dσ
  let dσ := ScriptDescriptor.Modify "key_settings.up" (.int (InputManager_Get w .UpKey)) dσ
  let dσ := ScriptDescriptor.Modify "key_settings.down" (.int (InputManager_Get w .DownKey)) dσ
  let dσ := ScriptDescriptor.Modify "key_settings.left" (.int (InputManager_Get w .LeftKey)) dσ
  let dσ := ScriptDescriptor.Modify "key_settings.right" (.int (InputManager_Get w .RightKey)) dσ
  let dσ := ScriptDescriptor.Modify "key_settings.confirm"
    (.int (InputManager_Get w .ConfirmKey)) dσ
  let dσ := ScriptDescriptor.Modify "key_settings.cancel" (.int (InputManager_Get w .CancelKey)) dσ
  let dσ := ScriptDescriptor.Modify "key_settings.menu" (.int (InputManager_Get w .MenuKey)) dσ
  let dσ := ScriptDescriptor.Modify "key_settings.pause" (.int (InputManager_Get w .PauseKey)) dσ
  let dσ := ScriptDescriptor.Modify "joystick_settings.x_axis"
    (.int (InputManager_Get w .XAxisJoy)) dσ
  let dσ := ScriptDescriptor.Modify "joystick_settings.y_axis"
    (.int (InputManager_Get w .YAxisJoy)) dσ
  let dσ := ScriptDescriptor.Modify "joystick_settings.confirm"
    (.int (InputManager_Get w .ConfirmJoy)) dσ
  let dσ := ScriptDescriptor.Modify "joystick_settings.cancel"
    (.int (InputManager_Get w .CancelJoy)) dσ
  let dσ := ScriptDescriptor.Modify "joystick_settings.menu"
    (.int (InputManager_Get w .MenuJoy)) dσ
  ScriptDescriptor.Modify "joystick_settings.pause" (.int (InputManager_Get w .PauseJoy)) dσ

/-- `BootMode::_SaveSettingsFile`. -/
def _SaveSettingsFile (filename : String) (σ : Sys) : Bool × Sys :=
  if !σ.boot._has_modified_settings then (false, σ)
  else
    let fileTemp := σ.world.user_data_path false ++ "/settings.lua"
    let file := if filename = "" then fileTemp else σ.world.user_data_path false ++ "/" ++ filename
    let e := DoesFileExist file σ
    let σ := if !e.1 then CopyFile "dat/config/settings.lua" file e.2 else e.2
    match ScriptDescriptor_OpenFile file σ with
    | (none, σ) => (false, σ)
    | (some settings_lua, σ) =>
        let dσ := save_fields (settings_lua, σ)
        let dσ := ScriptDescriptor.CommitChanges dσ
        let σ := ScriptDescriptor_CloseFile dσ.2
        (true, σ.modifyBoot (fun b => { b with _has_modified_settings := false }))

/-! ## Input configuration methods -/

/-- `BootMode::_RedefineUpKey`. -/
def _RedefineUpKey (σ : Sys) : Sys :=
  let σ := σ.modifyBoot (fun b => { b with _key_setting_function := some .SetUpKey })
  _ShowMessageWindow_bool false σ

/-- `BootMode::_RedefineDownKey`. -/
def _RedefineDownKey (σ : Sys) : Sys :=
  let σ := σ.modifyBoot (fun b => { b with _key_setting_function := some .SetDownKey })
  _ShowMessageWindow_bool false σ

/-- `BootMode::_RedefineLeftKey`. -/
def _RedefineLeftKey (σ : Sys) : Sys :=
  let σ := σ.modifyBoot (fun b => { b with _key_setting_function := some .SetLeftKey })
  _ShowMessageWindow_bool false σ

/-- `BootMode::_RedefineRightKey`. -/
def _RedefineRightKey (σ : Sys) : Sys :=
  let σ := σ.modifyBoot (fun b => { b with _key_setting_function := some .SetRightKey })
  _ShowMessageWindow_bool false σ

/-- `BootMode::_RedefineConfirmKey`. -/
def _RedefineConfirmKey (σ : Sys) : Sys :=
  let σ := σ.modifyBoot (fun b => { b with _key_setting_function := some .SetConfirmKey })
  _ShowMessageWindow_bool false σ

/-- `BootMode::_RedefineCancelKey`. -/
def _RedefineCancelKey (σ : Sys) : Sys :=
  let σ := σ.modifyBoot (fun b => { b with _key_setting_function := some .SetCancelKey })
  _ShowMessageWindow_bool false σ

/-- `BootMode::_RedefineMenuKey`. -/
def _RedefineMenuKey (σ : Sys) : Sys :=
  let σ := σ.modifyBoot (fun b => { b with _key_setting_function := some .SetMenuKey })
  _ShowMessageWindow_bool false σ

/-- `BootMode::_RedefinePauseKey`. -/
def _RedefinePauseKey (σ : Sys) : Sys :=
  let σ := σ.modifyBoot (fun b => { b with _key_setting_function := some .SetPauseKey })
  _ShowMessageWindow_bool false σ

/-- `BootMode::_SetUpKey`. -/
def _SetUpKey (key : Int) (σ : Sys) : Sys := InputManager_Set .UpKey key σ

/-- `BootMode::_SetDownKey`. -/
def _SetDownKey (key : Int) (σ : Sys) : Sys := InputManager_Set .DownKey key σ

/-- `BootMode::_SetLeftKey`. -/
def _SetLeftKey (key : Int) (σ : Sys) : Sys := InputManager_Set .LeftKey key σ

/-- `BootMode::_SetRightKey`. -/
def _SetRightKey (key : Int) (σ : Sys) : Sys := InputManager_Set .RightKey key σ

/-- `BootMode::_SetConfirmKey`. -/
def _SetConfirmKey (key : Int) (σ : Sys) : Sys := InputManager_Set .ConfirmKey key σ

/-- `BootMode::_SetCancelKey`. -/
def _SetCancelKey (key : Int) (σ : Sys) : Sys := InputManager_Set .CancelKey key σ

/-- `BootMode::_SetMenuKey`. -/
def _SetMenuKey (key : Int) (σ : Sys) : Sys := InputManager_Set .MenuKey key σ

/-- `BootMode::_SetPauseKey`. -/
def _SetPauseKey (key : Int) (σ : Sys) : Sys := InputManager_Set .PauseKey key σ

/-- `BootMode::_RedefineXAxisJoy`. -/
def _RedefineXAxisJoy (σ : Sys) : Sys :=
  let σ := σ.modifyBoot (fun b => { b with _joy_axis_setting_function := some .SetXAxisJoy })
  let σ := _ShowMessageWindow .WAIT_JOY_AXIS σ
  emit .ResetLastAxisMoved σ

/-- `BootMode::_RedefineYAxisJoy`. -/
def _RedefineYAxisJoy (σ : Sys) : Sys :=
  let σ := σ.modifyBoot (fun b => { b with _joy_axis_setting_function := some .SetYAxisJoy })
  let σ := _ShowMessageWindow .WAIT_JOY_AXIS σ
  emit .ResetLastAxisMoved σ

/-- `BootMode::_RedefineConfirmJoy`. -/
def _RedefineConfirmJoy (σ : Sys) : Sys :=
  let σ := σ.modifyBoot (fun b => { b with _joy_setting_function := some .SetConfirmJoy })
  _ShowMessageWindow_bool true σ

/-- `BootMode::_RedefineCancelJoy`. -/
def _RedefineCancelJoy (σ : Sys) : Sys :=
  let σ := σ.modifyBoot (fun b => { b with _joy_setting_function := some .SetCancelJoy })
  _ShowMessageWindow_bool true σ

/-- `BootMode::_RedefineMenuJoy`. -/
def _RedefineMenuJoy (σ : Sys) : Sys :=
  let σ := σ.modifyBoot (fun b => { b with _joy_setting_function := some .SetMenuJoy })
  _ShowMessageWindow_bool true σ

/-- `BootMode::_RedefinePauseJoy`. -/
def _RedefinePauseJoy (σ : Sys) : Sys :=
  let σ := σ.modifyBoot (fun b => { b with _joy_setting_function := some .SetPauseJoy })
  _ShowMessageWindow_bool true σ

/-- `BootMode::_SetXAxisJoy`. -/
def _SetXAxisJoy (axis : Int) (σ : Sys) : Sys := InputManager_Set .XAxisJoy axis σ

/-- `BootMode::_SetYAxisJoy`. -/
def _SetYAxisJoy (axis : Int) (σ : Sys) : Sys := InputManager_Set .YAxisJoy axis σ

/-- `BootMode::_SetConfirmJoy`. -/
def _SetConfirmJoy (button : Int) (σ : Sys) : Sys := InputManager_Set .ConfirmJoy button σ

/-- `BootMode::_SetCancelJoy`. -/
def _SetCancelJoy (button : Int) (σ : Sys) : Sys := InputManager_Set .CancelJoy button σ

/-- `BootMode::_SetMenuJoy`. -/
def _SetMenuJoy (button : Int) (σ : Sys) : Sys := InputManager_Set .MenuJoy button σ

/-- `BootMode::_SetPauseJoy`. -/
def _SetPauseJoy (button : Int) (σ : Sys) : Sys := InputManager_Set .PauseJoy button σ

/-- The call `(this->*_key_setting_function)(key)`. -/
def call_key_setting_function (fn : KeySetter) (key : Int) (σ : Sys) : Sys :=
  match fn with
  | .SetUpKey => _SetUpKey key σ
  | .SetDownKey => _SetDownKey key σ
  | .SetLeftKey => _SetLeftKey key σ
  | .SetRightKey => _SetRightKey key σ
  | .SetConfirmKey => _SetConfirmKey key σ
  | .SetCancelKey => _SetCancelKey key σ
  | .SetMenuKey => _SetMenuKey key σ
  | .SetPauseKey => _SetPauseKey key σ

/-- The call `(this->*_joy_setting_function)(button)`. -/
def call_joy_setting_function (fn : JoySetter) (button : Int) (σ : Sys) : Sys :=
  match fn with
  | .SetConfirmJoy => _SetConfirmJoy button σ
  | .SetCancelJoy => _SetCancelJoy button σ
  | .SetMenuJoy => _SetMenuJoy button σ
  | .SetPauseJoy => _SetPauseJoy button σ

/-- The call `(this->*_joy_axis_setting_function)(axis)`. -/
def call_joy_axis_setting_function (fn : AxisSetter) (axis : Int) (σ : Sys) : Sys :=
  match fn with
  | .SetXAxisJoy => _SetXAxisJoy axis σ
  | .SetYAxisJoy => _SetYAxisJoy axis σ

/-- The member function behind each handler pointer.  `_OnLanguageSelect` has
no defined behaviour with the selection outside `_po_files`; a call made there
is carried as one that leaves the state as it is, and no `Update` call from a
state reachable from the constructor makes such a call. -/
def Handler.body : Handler → Sys → Sys
  | .OnNewGame => _OnNewGame
  | .OnLoadGame => _OnLoadGame
  | .OnOptions => _OnOptions
  | .OnQuit => _OnQuit
  | .OnVideoOptions => _OnVideoOptions
  | .OnAudioOptions => _OnAudioOptions
  | .OnLanguageOptions => _OnLanguageOptions
  | .OnKeySettings => _OnKeySettings
  | .OnJoySettings => _OnJoySettings
  | .OnResolution => _OnResolution
  | .OnToggleFullscreen => _OnToggleFullscreen
  | .OnBrightnessLeft => _OnBrightnessLeft
  | .OnBrightnessRight => _OnBrightnessRight
  | .OnTogglePixelArtSmoothed => _OnTogglePixelArtSmoothed
  | .OnSoundLeft => _OnSoundLeft
  | .OnSoundRight => _OnSoundRight
  | .OnMusicLeft => _OnMusicLeft
  | .OnMusicRight => _OnMusicRight
  | .OnLanguageSelect => fun σ => (_OnLanguageSelect σ).getD σ
  | .RedefineUpKey => _RedefineUpKey
  | .RedefineDownKey => _RedefineDownKey
  | .RedefineLeftKey => _RedefineLeftKey
  | .RedefineRightKey => _RedefineRightKey
  | .RedefineConfirmKey => _RedefineConfirmKey
  | .RedefineCancelKey => _RedefineCancelKey
  | .RedefineMenuKey => _RedefineMenuKey
  | .RedefinePauseKey => _RedefinePauseKey
  | .OnRestoreDefaultKeys => _OnRestoreDefaultKeys
  | .RedefineXAxisJoy => _RedefineXAxisJoy
  | .RedefineYAxisJoy => _RedefineYAxisJoy
  | .RedefineConfirmJoy => _RedefineConfirmJoy
  | .RedefineCancelJoy => _RedefineCancelJoy
  | .RedefineMenuJoy => _RedefineMenuJoy
  | .RedefinePauseJoy => _RedefinePauseJoy
  | .OnRestoreDefaultJoyButtons => _OnRestoreDefaultJoyButtons
  | .OnResolution640x480 => _OnResolution640x480
  | .OnResolution800x600 => _OnResolution800x600
  | .OnResolution1024x768 => _OnResolution1024x768
  | .OnResolution1280x1024 => _OnResolution1280x1024

/-- A menu invoking one of its bound handlers: `(_current_instance->*handler)()`. -/
def invoke (h : Option Handler) (σ : Sys) : Sys :=
  match h with
  | some h => h.body (emit (.Invoke h) σ)
  | none => σ

/-! ## Input routed to the active menu -/

/-- The call `_active_menu->Update()`: the widget's own animation. -/
def BootMenu_Update (m : MenuId) (σ : Sys) : Sys := emit (.Menu m .Update) σ

/-- Modelled from the spec: the action `BootMenu::InputConfirm` runs
(boot_menu.cpp is missing): the confirm action bound to the selected row when
that row is enabled; none on a disabled row or with no row selected. -/
def BootMenu.confirm_handler (menu : BootMenu) : Option Handler :=
  match menu.row menu.GetSelection with
  | some o => if o.enabled then o.confirm else none
  | none => none

/-- Modelled from the spec: the action a directional input runs (boot_menu.cpp
is missing): the action bound to that direction on the selected row, if any. -/
def BootMenu.direction_handler (pick : MenuOption → Option Handler) (menu : BootMenu) :
    Option Handler :=
  match menu.row menu.GetSelection with
  | some o => pick o
  | none => none

/-- Modelled from the spec: `BootMenu::InputConfirm` (boot_menu.cpp is
missing): confirm on an enabled row with a bound action invokes it; confirm on
a disabled row, or with no row selected, invokes nothing. -/
def BootMenu_InputConfirm (m : MenuId) (σ : Sys) : Sys :=
  let σ := emit (.Menu m .InputConfirm) σ
  invoke (σ.boot.menu m).confirm_handler σ

/-- Modelled from the spec: the directional inputs `BootMenu::InputLeft`,
`InputRight`, `InputUp` and `InputDown` (boot_menu.cpp is missing): the option
box moves its cursor, to the row the frame reports, and the action bound to
that direction on the selected row, if any, is invoked. -/
def BootMenu_InputDirection (c : MenuCall) (pick : MenuOption → Option Handler)
    (m : MenuId) (f : Frame) (σ : Sys) : Sys :=
  let σ := emit (.Menu m c) σ
  let σ := σ.modifyBoot (fun b => b.setMenu m ((b.menu m).SetSelection f.cursor))
  invoke ((σ.boot.menu m).direction_handler pick) σ

/-- Modelled from the spec: `BootMode::ChangeState` (declared in boot.h). -/
def ChangeState (boot_state : BOOT_STATE) (σ : Sys) : Sys :=
  σ.modifyBoot (fun b => { b with _boot_state := boot_state })

/-! ## `BootMode::Update` -/

/-- The help-window block of `Update` (`help_window && help_window->IsActive()`). -/
def Update_help_window (f : Frame) (σ : Sys) : Sys :=
  let σ :=
    if !f.HelpPress && f.AnyKeyPress then
      HelpWindow_Hide (AudioManager_PlaySound "snd/confirm.wav" σ)
    else σ
  let σ := σ.modifyBoot (fun b => { b with _has_modified_settings := true })
  (_SaveSettingsFile "" σ).2

/-- The block of `Update` under `_joy_setting_function != NULL`. -/
def Update_joy_capture (joy_setting_function : JoySetter) (f : Frame) (σ : Sys) : Sys :=
  let ev := f.MostRecentEvent
  let σ :=
    if f.AnyKeyPress && ev.type == SDL_JOYBUTTONDOWN then
      let σ := call_joy_setting_function joy_setting_function ev.jbutton_button σ
      let σ := σ.modifyBoot (fun b => { b with _joy_setting_function := none })
      let σ := σ.modifyBoot (fun b => { b with _has_modified_settings := true })
      let σ := _RefreshJoySettings σ
      _message_window_Hide σ
    else σ
  if f.CancelPress then
    _message_window_Hide (σ.modifyBoot (fun b => { b with _joy_setting_function := none }))
  else σ

/-- The block of `Update` under `_joy_axis_setting_function != NULL`. -/
def Update_joy_axis_capture (joy_axis_setting_function : AxisSetter) (f : Frame)
    (σ : Sys) : Sys :=
  let x := to_int8 f.LastAxisMoved
  let σ :=
    if x ≠ -1 then
      let σ := call_joy_axis_setting_function joy_axis_setting_function x σ
      let σ := σ.modifyBoot (fun b => { b with _joy_axis_setting_function := none })
      let σ := σ.modifyBoot (fun b => { b with _has_modified_settings := true })
      let σ := _RefreshJoySettings σ
      _message_window_Hide σ
    else σ
  if f.CancelPress then
    _message_window_Hide (σ.modifyBoot (fun b => { b with _joy_axis_setting_function := none }))
  else σ

/-- The block of `Update` under `_key_setting_function != NULL`. -/
def Update_key_capture (key_setting_function : KeySetter) (f : Frame) (σ : Sys) : Sys :=
  let ev := f.MostRecentEvent
  let σ :=
    if f.AnyKeyPress && ev.type == SDL_KEYDOWN then
      let σ := call_key_setting_function key_setting_function ev.key_keysym_sym σ
      let σ := σ.modifyBoot (fun b => { b with _key_setting_function := none })
      let σ := σ.modifyBoot (fun b => { b with _has_modified_settings := true })
      let σ := _RefreshKeySettings σ
      _message_window_Hide σ
    else σ
  if f.CancelPress then
    _message_window_Hide (σ.modifyBoot (fun b => { b with _key_setting_function := none }))
  else σ

/-- The cancel branch of `Update`: the chain of comparisons of `_active_menu`
with each menu, then the cancel sound. -/
def Update_cancel (σ : Sys) : Sys :=
  let σ :=
    if σ.boot._active_menu = .main_menu then σ
    else if σ.boot._active_menu = .options_menu then
      σ.modifyBoot (fun b => { b with _options_window_shown := false,
                                      _active_menu := .main_menu })
    else if σ.boot._active_menu = .video_options_menu then
      σ.modifyBoot (fun b => { b with _active_menu := .options_menu })
    else if σ.boot._active_menu = .audio_options_menu then
      σ.modifyBoot (fun b => { b with _active_menu := .options_menu })
    else if σ.boot._active_menu = .language_options_menu then
      σ.modifyBoot (fun b => { b with _active_menu := .options_menu })
    else if σ.boot._active_menu = .key_settings_menu then
      σ.modifyBoot (fun b => { b with _active_menu := .options_menu })
    else if σ.boot._active_menu = .joy_settings_menu then
      σ.modifyBoot (fun b => { b with _active_menu := .options_menu })
    else if σ.boot._active_menu = .resolution_menu then
      σ.modifyBoot (fun b => { b with _active_menu := .video_options_menu })
    else σ
  AudioManager_PlaySound "snd/cancel.wav" σ

/-- The confirm branch of `Update`: the sound, then `_active_menu->InputConfirm()`. -/
def Update_confirm (σ : Sys) : Sys :=
  let active := σ.boot.menu σ.boot._active_menu
  let σ :=
    if active.IsOptionEnabled active.GetSelection then
      if σ.boot._active_menu ≠ .main_menu ∧ active.GetSelection ≠ -1 then
        AudioManager_PlaySound "snd/confirm.wav" σ
      else σ
    else AudioManager_PlaySound "snd/bump.wav" σ
  BootMenu_InputConfirm σ.boot._active_menu σ

/-- The rest of `Update`, from `_active_menu->Update()` on: input routed to the
active menu. -/
def Update_menu_input (f : Frame) (σ : Sys) : Sys :=
  let σ := BootMenu_Update σ.boot._active_menu σ
  if σ.boot._active_menu = .main_menu ∧ f.QuitPress = true then emit .ExitGame σ
  else if f.ConfirmPress then Update_confirm σ
  else if f.LeftPress then
    BootMenu_InputDirection .InputLeft MenuOption.left σ.boot._active_menu f σ
  else if f.RightPress then
    BootMenu_InputDirection .InputRight MenuOption.right σ.boot._active_menu f σ
  else if f.UpPress then
    BootMenu_InputDirection .InputUp MenuOption.up σ.boot._active_menu f σ
  else if f.DownPress then
    BootMenu_InputDirection .InputDown MenuOption.down σ.boot._active_menu f σ
  else if f.CancelPress || f.QuitPress then Update_cancel σ
  else σ

/-- `BootMode::Update` for one frame, its blocks in the order of the source.
The two widget animation calls at the top (`_options_window.Update`,
`GameMode::Update`) touch nothing that is carried here. -/
def Update (f : Frame) (σ : Sys) : Sys :=
  if σ.boot._exiting_to_new_game then
    if !f.IsFading then emit .NewGame σ else σ
  else if σ.boot._boot_state = .BOOT_STATE_INTRO then
    if f.AnyKeyPress then ChangeState .BOOT_STATE_MENU σ else σ
  else if HelpWindow_IsActive σ.world then Update_help_window f σ
  else
    match σ.boot._joy_setting_function with
    | some joy_setting_function => Update_joy_capture joy_setting_function f σ
    | none =>
    match σ.boot._joy_axis_setting_function with
    | some joy_axis_setting_function => Update_joy_axis_capture joy_axis_setting_function f σ
    | none =>
    match σ.boot._key_setting_function with
    | some key_setting_function => Update_key_capture key_setting_function f σ
    | none => Update_menu_input f σ

/-! ## Construction -/

/-- Modelled from the spec: whether `OpenTablespace()` finds the table space of
the boot script (the script engine is missing): the script has a field inside
its `boot` table. -/
def boot_script_has_tablespace (script : Script) : Bool :=
  script.any (fun f => "boot.".toList.isPrefixOf f.1.toList)

/-- The member initialisers of the constructor. -/
def BootMode.initial : BootMode :=
  { _boot_state := .BOOT_STATE_INTRO
    _exiting_to_new_game := false
    _has_modified_settings := false
    _key_setting_function := none
    _joy_setting_function := none
    _joy_axis_setting_function := none
    _active_menu := .main_menu
    _main_menu := BootMenu.empty
    _options_menu := BootMenu.empty
    _video_options_menu := BootMenu.empty
    _audio_options_menu := BootMenu.empty
    _language_options_menu := BootMenu.empty
    _key_settings_menu := BootMenu.empty
    _joy_settings_menu := BootMenu.empty
    _resolution_menu := BootMenu.empty
    _po_files := []
    _options_window_shown := false
    _message_window_shown := false
    _message_window_text := "" }

/-- `BootMode::BootMode()`.  When the boot script is missing or has no table
space the constructor asks the engine to exit and returns before the menus and
`_active_menu` are set: that is `none`. -/
def BootMode_constructor (w : World) : Option Sys :=
  let σ : Sys := { boot := BootMode.initial, world := w, trace := [] }
  match ScriptDescriptor_OpenFile "dat/config/boot.lua" σ with
  | (none, _) => none
  | (some boot_script, σ) =>
      if !boot_script_has_tablespace boot_script.script then none
      else
        let σ := ScriptDescriptor_CloseFile σ
        let σ := σ.modifyBoot (fun b => { b with _options_window_shown := false })
        let σ := _SetupMainMenu σ
        let σ := _SetupOptionsMenu σ
        let σ := _SetupVideoOptionsMenu σ
        let σ := _SetupAudioOptionsMenu σ
        let σ := _SetupLanguageOptionsMenu σ
        let σ := _SetupKeySettingsMenu σ
        let σ := _SetupJoySettingsMenu σ
        let σ := _SetupResolutionMenu σ
        let σ := σ.modifyBoot (fun b => { b with _active_menu := .main_menu })
        some (_message_window_Hide σ)

/-- The states a boot mode can be in: the one its constructor leaves, and any
state one more `Update` leads to, whatever the frame reports and whatever the
rest of the engine did to the world in between; the scripted scene may also
call the public `ChangeState` between two frames. -/
inductive Reachable : BootMode → Prop where
  | constructed (w : World) (σ : Sys) (h : BootMode_constructor w = some σ) : Reachable σ.boot
  | update (b : BootMode) (w : World) (t : List Event) (f : Frame) (h : Reachable b) :
      Reachable (Update f { boot := b, world := w, trace := t }).boot
  | change_state (b : BootMode) (w : World) (t : List Event) (boot_state : BOOT_STATE)
      (h : Reachable b) :
      Reachable (ChangeState boot_state { boot := b, world := w, trace := t }).boot

/-! ## Vocabulary of the properties -/

/-- One `Update` call seen from outside: the calls recorded are those of this
call alone. -/
def run_Update (f : Frame) (b : BootMode) (w : World) : Sys :=
  Update f { boot := b, world := w, trace := [] }

/-- The parent each menu is given in the specification: the main menu for the
options menu, the options menu for the video, audio, language, key and joystick
menus, the video menu for the resolution menu; the main menu has none and
stands for itself. -/
def declared_parent : MenuId → MenuId
  | .main_menu => .main_menu
  | .options_menu => .main_menu
  | .video_options_menu => .options_menu
  | .audio_options_menu => .options_menu
  | .language_options_menu => .options_menu
  | .key_settings_menu => .options_menu
  | .joy_settings_menu => .options_menu
  | .resolution_menu => .video_options_menu

/-- The members of the boot mode other than its menus and language list. -/
def BootMode.control (b : BootMode) :
    BOOT_STATE × Bool × Bool × Option KeySetter × Option JoySetter × Option AxisSetter ×
      MenuId × Bool × Bool × String :=
  (b._boot_state, b._exiting_to_new_game, b._has_modified_settings, b._key_setting_function,
   b._joy_setting_function, b._joy_axis_setting_function, b._active_menu,
   b._options_window_shown, b._message_window_shown, b._message_window_text)

/-- No rebind capture is pending. -/
def no_capture_pending (b : BootMode) : Prop :=
  b._key_setting_function = none ∧ b._joy_setting_function = none ∧
    b._joy_axis_setting_function = none

/-- At most one of the three pending-capture pointers is non-null. -/
def at_most_one_pending (b : BootMode) : Prop :=
  (b._key_setting_function = none ∧ b._joy_setting_function = none) ∨
  (b._key_setting_function = none ∧ b._joy_axis_setting_function = none) ∨
  (b._joy_setting_function = none ∧ b._joy_axis_setting_function = none)

/-- `Update` gets past the new-game, intro and help-window returns. -/
def reaches_capture_check (b : BootMode) (w : World) : Prop :=
  b._exiting_to_new_game = false ∧ b._boot_state = .BOOT_STATE_MENU ∧
    HelpWindow_IsActive w = false

/-- The call is one made on the active menu or the invocation of a handler. -/
def Event.isMenuCall : Event → Bool
  | .Menu _ _ => true
  | .Invoke _ => true
  | _ => false

/-- The call is one of the binding setters of `InputManager`. -/
def Event.isInputSet : Event → Bool
  | .InputSet _ _ => true
  | _ => false

/-- The call is a file operation of `_SaveSettingsFile`: the existence check,
the template copy, the open, a field write, the commit or the close. -/
def Event.isFileOperation : Event → Bool
  | .DoesFileExist _ => true
  | .CopyFile _ _ => true
  | .OpenFile _ => true
  | .Modify _ _ => true
  | .CommitChanges => true
  | .CloseFile => true
  | _ => false

/-- The calls an option handler body can make: anything but a binding setter,
a call on a menu, the invocation of a handler, `NewGame`, the help window and
the script file operations other than the existence check. -/
def Event.isHandlerEffect : Event → Bool
  | .ExitGame => true
  | .ReloadGlobalScripts => true
  | .PushSaveMode => true
  | .SetLanguage _ => true
  | .PlaySound _ => true
  | .LoadSound _ => true
  | .StopAllMusic => true
  | .SetMusicVolume _ => true
  | .SetSoundVolume _ => true
  | .FadeScreen _ => true
  | .SetResolution _ _ => true
  | .ApplySettings => true
  | .ToggleFullscreen => true
  | .SetPixelArtSmoothed _ => true
  | .SetGamma _ => true
  | .RestoreDefaultKeys => true
  | .RestoreDefaultJoyButtons => true
  | .ResetLastAxisMoved => true
  | .DoesFileExist _ => true
  | _ => false

/-- The calls the menu input block of `Update` can make: calls on the active
menu, handler invocations and what handler bodies do (which covers the sounds
and `ExitGame`). -/
def Event.isMenuInputEffect (e : Event) : Bool := e.isHandlerEffect || e.isMenuCall

/-- The calls the help-window block of `Update` can make: the confirm sound,
hiding the help window and the file operations of `_SaveSettingsFile`. -/
def Event.isHelpWindowEffect : Event → Bool
  | .PlaySound _ => true
  | .HelpWindowHide => true
  | e => e.isFileOperation

/-- The three pending-capture pointers. -/
inductive Slot where
  | key
  | joy_button
  | joy_axis
  deriving DecidableEq, Repr

/-- The pending-capture pointer through which `Update` can set a binding:
`_key_setting_function` for the eight keys, `_joy_setting_function` for the
confirm, cancel, menu and pause buttons, `_joy_axis_setting_function` for the
two axes; the joystick index, threshold and quit button have none. -/
def Binding.slot : Binding → Option Slot
  | .UpKey | .DownKey | .LeftKey | .RightKey => some .key
  | .ConfirmKey | .CancelKey | .MenuKey | .PauseKey => some .key
  | .ConfirmJoy | .CancelJoy | .MenuJoy | .PauseJoy => some .joy_button
  | .XAxisJoy | .YAxisJoy => some .joy_axis
  | .JoyIndex | .ThresholdJoy | .QuitJoy => none

/-- The binding each `_SetXKey` forwards to. -/
def KeySetter.binding : KeySetter → Binding
  | .SetUpKey => .UpKey
  | .SetDownKey => .DownKey
  | .SetLeftKey => .LeftKey
  | .SetRightKey => .RightKey
  | .SetConfirmKey => .ConfirmKey
  | .SetCancelKey => .CancelKey
  | .SetMenuKey => .MenuKey
  | .SetPauseKey => .PauseKey

/-- The binding each `_SetXJoy` forwards to. -/
def JoySetter.binding : JoySetter → Binding
  | .SetConfirmJoy => .ConfirmJoy
  | .SetCancelJoy => .CancelJoy
  | .SetMenuJoy => .MenuJoy
  | .SetPauseJoy => .PauseJoy

/-- The binding each `_SetXAxisJoy` forwards to. -/
def AxisSetter.binding : AxisSetter → Binding
  | .SetXAxisJoy => .XAxisJoy
  | .SetYAxisJoy => .YAxisJoy

/-- The calls recorded in `σ'` are those of `σ` and further calls that all
satisfy `P`. -/
def emits_only (P : Event → Bool) (σ σ' : Sys) : Prop :=
  (∀ e, e ∈ σ.trace → e ∈ σ'.trace) ∧ (∀ e, e ∈ σ'.trace → e ∈ σ.trace ∨ P e = true)

/-- The handlers that arm a key capture. -/
def key_arming_handlers : List Handler :=
  [.RedefineUpKey, .RedefineDownKey, .RedefineLeftKey, .RedefineRightKey,
   .RedefineConfirmKey, .RedefineCancelKey, .RedefineMenuKey, .RedefinePauseKey]

/-- The handlers that arm a joystick axis capture. -/
def axis_arming_handlers : List Handler := [.RedefineXAxisJoy, .RedefineYAxisJoy]

/-- The handlers that arm a joystick button capture. -/
def joy_arming_handlers : List Handler :=
  [.RedefineConfirmJoy, .RedefineCancelJoy, .RedefineMenuJoy, .RedefinePauseJoy]

/-- The part of the world that `_LoadSettingsFile` sets outside the joystick
block and that `_SaveSettingsFile` reads: the eight keys, the screen size, the
window mode, the smoothing flag and the two volumes, with the audio flag. -/
def World.key_video_audio (w : World) :
    KeyMap × Int × Int × Bool × Bool × F32 × F32 × Bool :=
  (w.keys, w.screen_width, w.screen_height, w.fullscreen, w.smooth_pixel_art,
   w.music_volume, w.sound_volume, w.AUDIO_ENABLE)

/-- The content `_SaveSettingsFile` gives a settings script: the field updates of
`save_fields`, with the values of the world `w`, applied to the content `old`
the file had when it was opened. -/
def saved_script (w : World) (old : Script) : Script :=
  (save_fields ({ filename := "", script := old, open_tables := [], error := false },
    { boot := BootMode.initial, world := w, trace := [] })).1.script

/-- The path `_SaveSettingsFile(filename)` writes to. -/
def saved_file_path (filename : String) (w : World) : String :=
  if filename = "" then w.user_data_path false ++ "/settings.lua"
  else w.user_data_path false ++ "/" ++ filename

/-- The screen size is one of the four presets of the resolution menu. -/
def is_preset (width height : Int) : Prop :=
  (width = 640 ∧ height = 480) ∨ (width = 800 ∧ height = 600) ∨
  (width = 1024 ∧ height = 768) ∨ (width = 1280 ∧ height = 1024)

/-- The start of `_LoadSettingsFile` on an opened file: the `settings` table is
opened, the language is read and set, and the `key_settings` block is loaded.
What it returns is the state at the first error check. -/
def load_language_and_keys (settings : ScriptDescriptor) (σ : Sys) : ScriptDescriptor × Sys :=
  let settings := settings.OpenTable "settings"
  let r := settings.ReadString "language"
  let σ := SystemManager_SetLanguage r.1 σ
  load_key_settings (r.2, σ)

/-- A run of `Update` calls, one per frame, in order. -/
def Update_many (fs : List Frame) (σ : Sys) : Sys :=
  fs.foldl (fun σ f => Update f σ) σ

/-- The call is a joystick setter of `InputManager`: a binding setter other
than the eight key setters. -/
def Event.isJoystickSetter : Event → Bool
  | .InputSet b _ => decide (b.slot ≠ some .key)
  | _ => false

/-- The call is one of the setters of `VideoManager`, or its `ApplySettings`. -/
def Event.isVideoSetter : Event → Bool
  | .SetResolution _ _ => true
  | .ApplySettings => true
  | .ToggleFullscreen => true
  | .SetPixelArtSmoothed _ => true
  | _ => false

/-- The call is one of the two volume setters of `AudioManager`. -/
def Event.isAudioSetter : Event → Bool
  | .SetMusicVolume _ => true
  | .SetSoundVolume _ => true
  | _ => false

/-- The state of `_LoadSettingsFile` at its second error check: the start of the
load followed by the `joystick_settings` block. -/
def load_through_joystick (settings : ScriptDescriptor) (σ : Sys) : ScriptDescriptor × Sys :=
  load_joystick_settings (load_language_and_keys settings σ)

/-- The state of `_LoadSettingsFile` at its third error check: the load up to
and including the `video_settings` block. -/
def load_through_video (settings : ScriptDescriptor) (σ : Sys) : ScriptDescriptor × Sys :=
  load_video_settings (load_through_joystick settings σ)

/-- The state of `_LoadSettingsFile` at its fourth error check: the load up to
and including the `audio_settings` block. -/
def load_through_audio (settings : ScriptDescriptor) (σ : Sys) : ScriptDescriptor × Sys :=
  load_audio_settings (load_through_video settings σ)

/-- One of the five actions bound to the row is `_OnQuit`. -/
def MenuOption.has_quit (o : MenuOption) : Bool :=
  o.confirm == some .OnQuit || o.up == some .OnQuit || o.down == some .OnQuit ||
    o.left == some .OnQuit || o.right == some .OnQuit

/-- Some row of the menu has `_OnQuit` among its actions. -/
def BootMenu.has_quit (m : BootMenu) : Bool := m.options.any MenuOption.has_quit

/-- Some row of a menu other than the main menu has `_OnQuit` among its actions. -/
def BootMode.submenu_has_quit (b : BootMode) : Bool :=
  b._options_menu.has_quit || b._video_options_menu.has_quit ||
    b._audio_options_menu.has_quit || b._language_options_menu.has_quit ||
    b._key_settings_menu.has_quit || b._joy_settings_menu.has_quit ||
    b._resolution_menu.has_quit

/-- The setup method that fills each menu. -/
def setup_method : MenuId → Sys → Sys
  | .main_menu => _SetupMainMenu
  | .options_menu => _SetupOptionsMenu
  | .video_options_menu => _SetupVideoOptionsMenu
  | .audio_options_menu => _SetupAudioOptionsMenu
  | .language_options_menu => _SetupLanguageOptionsMenu
  | .key_settings_menu => _SetupKeySettingsMenu
  | .joy_settings_menu => _SetupJoySettingsMenu
  | .resolution_menu => _SetupResolutionMenu

/-- The submenu-entry handlers, each with the menu it is registered in. -/
def submenu_entry_handlers : List (Handler × MenuId) :=
  [(.OnOptions, .main_menu), (.OnVideoOptions, .options_menu),
   (.OnAudioOptions, .options_menu), (.OnLanguageOptions, .options_menu),
   (.OnKeySettings, .options_menu), (.OnJoySettings, .options_menu),
   (.OnResolution, .video_options_menu)]

/-- The fourteen rebind options: the `_Redefine*` handler of each option with
the binding the option is for. -/
def rebind_options : List (Handler × Binding) :=
  [(.RedefineUpKey, .UpKey), (.RedefineDownKey, .DownKey), (.RedefineLeftKey, .LeftKey),
   (.RedefineRightKey, .RightKey), (.RedefineConfirmKey, .ConfirmKey),
   (.RedefineCancelKey, .CancelKey), (.RedefineMenuKey, .MenuKey),
   (.RedefinePauseKey, .PauseKey), (.RedefineConfirmJoy, .ConfirmJoy),
   (.RedefineCancelJoy, .CancelJoy), (.RedefineMenuJoy, .MenuJoy),
   (.RedefinePauseJoy, .PauseJoy), (.RedefineXAxisJoy, .XAxisJoy),
   (.RedefineYAxisJoy, .YAxisJoy)]

/-- The frame delivers the raw event that resolves a capture for the binding,
with value `v`: a key press whose most recent event is a key-down with keysym
`v` for a key, a key press whose most recent event is a joystick-button-down
with button `v` for a joystick button, a last moved axis `v` other than -1 for
an axis. -/
def delivers (f : Frame) (bd : Binding) (v : Int) : Prop :=
  match bd.slot with
  | some .key =>
      f.AnyKeyPress = true ∧ f.MostRecentEvent.type = SDL_KEYDOWN ∧
        f.MostRecentEvent.key_keysym_sym = v
  | some .joy_button =>
      f.AnyKeyPress = true ∧ f.MostRecentEvent.type = SDL_JOYBUTTONDOWN ∧
        f.MostRecentEvent.jbutton_button = v
  | some .joy_axis => to_int8 f.LastAxisMoved = v ∧ v ≠ -1
  | none => False

/-- The calls `_SaveSettingsFile` makes before it opens the file: the existence
check and, when the file does not exist, the copy of the template. -/
def save_pre_open_calls (file : String) (w : World) : List Event :=
  .DoesFileExist file ::
    (if (w.files.lookup file).isSome then [] else [.CopyFile "dat/config/settings.lua" file])

/-- The field writes of a save as the specification lists them, each with the
current value of its manager in the world `w`: the cleared first-start marker,
the language, the screen width and height, the fullscreen and smoothing flags,
the music and sound volumes, the eight keys and the six joystick fields. -/
def settings_field_writes (w : World) : List Event :=
  [.Modify "settings.first_start" (.int 0),
   .Modify "settings.language" (.str w.language),
   .Modify "settings.video_settings.screen_resx" (.int w.screen_width),
   .Modify "settings.video_settings.screen_resy" (.int w.screen_height),
   .Modify "settings.video_settings.full_screen" (.bool w.fullscreen),
   .Modify "settings.video_settings.smooth_graphics" (.bool w.smooth_pixel_art),
   .Modify "settings.audio_settings.music_vol" (.float w.music_volume),
   .Modify "settings.audio_settings.sound_vol" (.float w.sound_volume),
   .Modify "settings.key_settings.up" (.int w.keys.up),
   .Modify "settings.key_settings.down" (.int w.keys.down),
   .Modify "settings.key_settings.left" (.int w.keys.left),
   .Modify "settings.key_settings.right" (.int w.keys.right),
   .Modify "settings.key_settings.confirm" (.int w.keys.confirm),
   .Modify "settings.key_settings.cancel" (.int w.keys.cancel),
   .Modify "settings.key_settings.menu" (.int w.keys.menu),
   .Modify "settings.key_settings.pause" (.int w.keys.pause),
   .Modify "settings.joystick_settings.x_axis" (.int w.x_axis_joy),
   .Modify "settings.joystick_settings.y_axis" (.int w.y_axis_joy),
   .Modify "settings.joystick_settings.confirm" (.int w.joy_buttons.confirm),
   .Modify "settings.joystick_settings.cancel" (.int w.joy_buttons.cancel),
   .Modify "settings.joystick_settings.menu" (.int w.joy_buttons.menu),
   .Modify "settings.joystick_settings.pause" (.int w.joy_buttons.pause)]

/-- The actions `Update` can perform on the active menu in one frame. -/
inductive RoutedAction where
  | confirm
  | left
  | right
  | up
  | down
  | cancel
  deriving DecidableEq, Repr

/-- The presses of a frame that lead to an action on the active menu, each with
its action, in the order of priority of the specification: confirm, left,
right, up, down, then cancel or quit. -/
def presses_by_priority (f : Frame) : List (Bool × RoutedAction) :=
  [(f.ConfirmPress, .confirm), (f.LeftPress, .left), (f.RightPress, .right),
   (f.UpPress, .up), (f.DownPress, .down), (f.CancelPress || f.QuitPress, .cancel)]

/-- The action the specification picks for a frame: the one of the first press
reported, in the order of priority; none when none of them is reported. -/
def routed_action (f : Frame) : Option RoutedAction :=
  ((presses_by_priority f).find? (fun p => p.1)).map (fun p => p.2)

/-- What `Update` does for each action: the confirm branch, one of the four
directional calls on the active menu, or the cancel branch. -/
def RoutedAction.perform : RoutedAction → Frame → Sys → Sys
  | .confirm, _, σ => Update_confirm σ
  | .left, f, σ => BootMenu_InputDirection .InputLeft MenuOption.left σ.boot._active_menu f σ
  | .right, f, σ => BootMenu_InputDirection .InputRight MenuOption.right σ.boot._active_menu f σ
  | .up, f, σ => BootMenu_InputDirection .InputUp MenuOption.up σ.boot._active_menu f σ
  | .down, f, σ => BootMenu_InputDirection .InputDown MenuOption.down σ.boot._active_menu f σ
  | .cancel, _, σ => Update_cancel σ

/-- The input method of the active menu an action calls; cancel navigation
calls none. -/
def RoutedAction.menu_call : RoutedAction → Option MenuCall
  | .confirm => some .InputConfirm
  | .left => some .InputLeft
  | .right => some .InputRight
  | .up => some .InputUp
  | .down => some .InputDown
  | .cancel => none

/-- The call is one of the input methods of a menu (`InputConfirm`, `InputLeft`,
`InputRight`, `InputUp`, `InputDown`), not its `Update`. -/
def Event.isMenuInput : Event → Bool
  | .Menu _ .Update => false
  | .Menu _ _ => true
  | _ => false

/-- The four resolution handlers, each with the width and height in its name. -/
def resolution_handlers : List (Handler × Int × Int) :=
  [(.OnResolution640x480, 640, 480), (.OnResolution800x600, 800, 600),
   (.OnResolution1024x768, 1024, 768), (.OnResolution1280x1024, 1280, 1024)]

/-- The value-changing handlers other than the two brightness handlers and the
resolution handlers. -/
def dirtying_handlers : List Handler :=
  [.OnToggleFullscreen, .OnTogglePixelArtSmoothed, .OnSoundLeft, .OnSoundRight,
   .OnMusicLeft, .OnMusicRight, .OnLanguageSelect, .OnRestoreDefaultKeys,
   .OnRestoreDefaultJoyButtons]

/-- A sequence of handlers run one after the other. -/
def run_handlers (hs : List Handler) (σ : Sys) : Sys :=
  hs.foldl (fun σ h => h.body σ) σ

/-- One of the five actions bound to the row is `_OnLanguageSelect`. -/
def MenuOption.selects_language (o : MenuOption) : Bool :=
  o.confirm == some .OnLanguageSelect || o.up == some .OnLanguageSelect ||
    o.down == some .OnLanguageSelect || o.left == some .OnLanguageSelect ||
    o.right == some .OnLanguageSelect

/-- Some row of the menu has `_OnLanguageSelect` among its actions. -/
def BootMenu.selects_language (m : BootMenu) : Bool :=
  m.options.any MenuOption.selects_language

/-- Some row of the menu has `_OnLanguageSelect` bound to a direction. -/
def BootMenu.direction_selects_language (m : BootMenu) : Bool :=
  m.options.any (fun o => o.up == some .OnLanguageSelect || o.down == some .OnLanguageSelect ||
    o.left == some .OnLanguageSelect || o.right == some .OnLanguageSelect)

/-- The language menu has one row per entry of `_po_files`, and
`_OnLanguageSelect` is bound to nothing but the confirm input of rows of the
language menu. -/
def BootMode.language_rows_match (b : BootMode) : Prop :=
  b._language_options_menu.options.length = b._po_files.length ∧
  b._language_options_menu.direction_selects_language = false ∧
  b._main_menu.selects_language = false ∧ b._options_menu.selects_language = false ∧
  b._video_options_menu.selects_language = false ∧
  b._audio_options_menu.selects_language = false ∧
  b._key_settings_menu.selects_language = false ∧
  b._joy_settings_menu.selects_language = false ∧
  b._resolution_menu.selects_language = false

/-! ## Sample inputs -/

/-- A frame in which nothing is pressed. -/
def Frame.idle : Frame :=
  { AnyKeyPress := false, HelpPress := false, ConfirmPress := false, CancelPress := false,
    LeftPress := false, RightPress := false, UpPress := false, DownPress := false,
    QuitPress := false, MostRecentEvent := ⟨0, 0, 0⟩, LastAxisMoved := -1, IsFading := false,
    cursor := 0 }

/-- A settings script with every field `_LoadSettingsFile` reads. -/
def sample_settings : Script :=
  [("settings.first_start", .int 1), ("settings.language", .str "en@quot"),
   ("settings.key_settings.up", .int 273), ("settings.key_settings.down", .int 274),
   ("settings.key_settings.left", .int 276), ("settings.key_settings.right", .int 275),
   ("settings.key_settings.confirm", .int 102), ("settings.key_settings.cancel", .int 100),
   ("settings.key_settings.menu", .int 115), ("settings.key_settings.pause", .int 32),
   ("settings.joystick_settings.index", .int 0),
   ("settings.joystick_settings.confirm", .int 0),
   ("settings.joystick_settings.cancel", .int 1),
   ("settings.joystick_settings.menu", .int 2),
   ("settings.joystick_settings.pause", .int 3),
   ("settings.joystick_settings.quit", .int 4),
   ("settings.video_settings.screen_resx", .int 800),
   ("settings.video_settings.screen_resy", .int 600),
   ("settings.video_settings.full_screen", .bool false),
   ("settings.video_settings.smooth_graphics", .bool false),
   ("settings.audio_settings.music_vol", .float ⟨1061997773⟩),
   ("settings.audio_settings.sound_vol", .float ⟨1065353216⟩)]

/-- A world with a boot script, the settings template, a user settings file
and no saved game; the screen is 640 x 480 in a window. -/
def sample_world : World :=
  { keys := ⟨273, 274, 276, 275, 102, 100, 115, 32⟩
    default_keys := ⟨273, 274, 276, 275, 102, 100, 115, 32⟩
    joy_buttons := ⟨0, 1, 2, 3, 4⟩
    default_joy_buttons := ⟨0, 1, 2, 3, 4⟩
    joy_index := 0
    x_axis_joy := 0
    y_axis_joy := 1
    threshold_joy := 8192
    screen_width := 640
    screen_height := 480
    fullscreen := false
    smooth_pixel_art := false
    gamma := ⟨1065353216⟩
    music_volume := ⟨1061997773⟩
    sound_volume := ⟨1065353216⟩
    f32_sub_tenth := fun x => x
    f32_add_tenth := fun x => x
    language := "en@quot"
    help_window := some false
    user_data_path := fun slash => if slash then "user/" else "user"
    default_max_saves := 6
    AUDIO_ENABLE := true
    files := [("dat/config/boot.lua", [("boot.setup", .int 1)]),
              ("dat/config/settings.lua", sample_settings),
              ("user/settings.lua", sample_settings)]
    unreadable := []
    unwritable := [] }

/-- The boot mode in its menu state, at the main menu, with nothing pending. -/
def sample_boot : BootMode :=
  { BootMode.initial with _boot_state := .BOOT_STATE_MENU }

/-- The sample boot mode in the sample world, with no call recorded. -/
def sample_sys : Sys := { boot := sample_boot, world := sample_world, trace := [] }

/-- The sample boot mode with a key capture for "up" pending. -/
def sample_key_pending : BootMode :=
  { sample_boot with _key_setting_function := some .SetUpKey, _message_window_shown := true }

/-- A frame in which the key bound to cancel (code 100 in the sample world)
goes down: the raw event is a key-down and a cancel press is reported. -/
def Frame.cancel_key_down : Frame :=
  { Frame.idle with AnyKeyPress := true, CancelPress := true,
                    MostRecentEvent := ⟨SDL_KEYDOWN, 100, 0⟩ }

/-- A frame in which the joystick button bound to cancel goes down: a cancel
press is reported and the raw event is not a key-down. -/
def Frame.cancel_button_down : Frame :=
  { Frame.idle with AnyKeyPress := true, CancelPress := true,
                    MostRecentEvent := ⟨SDL_JOYBUTTONDOWN, 0, 1⟩ }

/-- The sample boot mode with the dirty flag set. -/
def sample_dirty : BootMode := { sample_boot with _has_modified_settings := true }

/-- The sample world with the help window showing. -/
def sample_world_help : World := { sample_world with help_window := some true }

/-- The sample world with the help window showing and neither a user settings
file nor the settings template on disk. -/
def sample_world_help_no_file : World :=
  { sample_world with help_window := some true,
                      files := [("dat/config/boot.lua", [("boot.setup", .int 1)])] }

/-- The sample world running full screen at 800 x 600, the resolution stored in
the sample settings file (which asks for a window). -/
def sample_world_fullscreen : World :=
  { sample_world with screen_width := 800, screen_height := 600, fullscreen := true }

/-- The boot mode the constructor builds in the sample world. -/
def sample_constructed : Sys :=
  (BootMode_constructor sample_world).getD
    { boot := BootMode.initial, world := sample_world, trace := [] }

/-- The sample settings script with another stored screen width. -/
def sample_settings_with_resx (resx : Int) : Script :=
  ("settings.video_settings.screen_resx", .int resx) :: sample_settings

/-- The sample world with a 1280 x 768 screen and a user settings file that
stores a screen width of 1024. -/
def sample_world_1280x768 : World :=
  { sample_world with
      screen_width := 1280, screen_height := 768,
      files := [("user/settings.lua", sample_settings_with_resx 1024)] }

/-- The sample world with an 800 x 480 screen and a user settings file that
stores a screen width of 1920, which is none of the four presets. -/
def sample_world_800x480 : World :=
  { sample_world with
      screen_width := 800, screen_height := 480,
      files := [("user/settings.lua", sample_settings_with_resx 1920)] }

/-- The sample world with a 1920 x 1080 screen, which is none of the four
presets of the resolution menu. -/
def sample_world_1920x1080 : World :=
  { sample_world with screen_width := 1920, screen_height := 1080 }

/-- The state in which `_SaveSettingsFile("")` leaves the dirty sample boot mode
in the sample world. -/
def sample_saved : Sys :=
  (_SaveSettingsFile "" { boot := sample_dirty, world := sample_world, trace := [] }).2

/-- A later state of the managers after the save of `sample_saved`: other key
codes, a 1280 x 1024 full screen and other volumes; the files are those the
save left. -/
def sample_later : Sys :=
  { boot := sample_boot
    world := { sample_saved.world with
      keys := ⟨119, 115, 97, 100, 13, 27, 109, 112⟩,
      screen_width := 1280, screen_height := 1024, fullscreen := true,
      music_volume := ⟨0⟩, sound_volume := ⟨1056964608⟩ }
    trace := [] }

/-- The sample world with one saved game, `saved_game_3.lua`, in the user data
path. -/
def sample_world_with_save : World :=
  { sample_world with files := ("user/saved_game_3.lua", []) :: sample_world.files }

/-- A frame in which nothing is pressed and the screen is still fading. -/
def Frame.fading : Frame := { Frame.idle with IsFading := true }

/-- The constructed sample boot mode in its menu state with the cursor of the
main menu on row 1, "Load Game", which is disabled in the sample world (it has
no saved game). -/
def sample_on_load_game : BootMode :=
  { sample_constructed.boot with
      _boot_state := .BOOT_STATE_MENU,
      _main_menu := sample_constructed.boot._main_menu.SetSelection 1 }

/-- The sample settings script with another code for the "up" key and without
the `pause` field of the `key_settings` table. -/
def sample_settings_key_error : Script :=
  ("settings.key_settings.up", .int 119) ::
    sample_settings.filter (fun f => f.1 != "settings.key_settings.pause")

/-- The sample world whose user settings file lacks a key binding. -/
def sample_world_key_error : World :=
  { sample_world with files := [("user/settings.lua", sample_settings_key_error)] }

/-- The constructed sample boot mode after a key press has ended the intro: the
main menu is active. -/
def sample_at_main_menu : BootMode :=
  (run_Update { Frame.idle with AnyKeyPress := true } sample_constructed.boot sample_world).boot

/-- The sample boot mode after a down press has moved the cursor of the main
menu to row 2, "Options", and a confirm press has opened the options menu. -/
def sample_at_options_menu : BootMode :=
  (run_Update { Frame.idle with ConfirmPress := true }
    (run_Update { Frame.idle with DownPress := true, cursor := 2 }
      sample_at_main_menu sample_world).boot sample_world).boot

/-- The sample boot mode in a sample world whose gamma steps are visible: the
step up adds one to the bit pattern and the step down takes one off. -/
def sample_sys_gamma : Sys :=
  { sample_sys with
      world := { sample_world with
        f32_add_tenth := fun x => ⟨x.bits + 1⟩, f32_sub_tenth := fun x => ⟨x.bits - 1⟩ } }

/-- The sample world with a language file that lists two languages. -/
def sample_world_languages : World :=
  { sample_world with
      files := ("dat/config/languages.lua",
        [("languages.1.1", .str "English"), ("languages.1.2", .str "en@quot"),
         ("languages.2.1", .str "French"), ("languages.2.2", .str "fr")]) ::
        sample_world.files }

/-- The boot mode the constructor builds in the sample world with two
languages. -/
def sample_constructed_languages : Sys :=
  (BootMode_constructor sample_world_languages).getD
    { boot := BootMode.initial, world := sample_world_languages, trace := [] }

/-- The boot mode of `sample_constructed_languages` after five frames: a key
press ends the intro, a down press moves the cursor of the main menu to row 2,
"Options", a confirm press opens the options menu, a down press moves its cursor
to row 2, "Language", and a confirm press opens the language menu. -/
def sample_at_language_menu : BootMode :=
  (run_Update { Frame.idle with ConfirmPress := true }
    (run_Update { Frame.idle with DownPress := true, cursor := 2 }
      (run_Update { Frame.idle with ConfirmPress := true }
        (run_Update { Frame.idle with DownPress := true, cursor := 2 }
          (run_Update { Frame.idle with AnyKeyPress := true }
            sample_constructed_languages.boot sample_world_languages).boot
          sample_world_languages).boot
        sample_world_languages).boot
      sample_world_languages).boot
    sample_world_languages).boot

/-- The language menu of the sample with the cursor moved to row 1, "French",
by a down press. -/
def sample_on_french : Sys :=
  { boot := (run_Update { Frame.idle with DownPress := true, cursor := 1 }
      sample_at_language_menu sample_world_languages).boot
    world := sample_world_languages
    trace := [] }

/-- The sample boot mode after a down press has moved the cursor of the options
menu to row 3, "Key Settings", and a confirm press has opened the key settings
menu. -/
def sample_at_key_settings_menu : BootMode :=
  (run_Update { Frame.idle with ConfirmPress := true }
    (run_Update { Frame.idle with DownPress := true, cursor := 3 }
      sample_at_options_menu sample_world).boot sample_world).boot

/-- The sample boot mode after an up press has moved the cursor of the key
settings menu to row 0, "Up", and a confirm press has run `_RedefineUpKey`: a
key capture is armed. -/
def sample_key_armed : BootMode :=
  (run_Update { Frame.idle with ConfirmPress := true }
    (run_Update { Frame.idle with UpPress := true, cursor := 0 }
      sample_at_key_settings_menu sample_world).boot sample_world).boot

/-- The sample boot mode after a down press has moved the cursor of the options
menu to row 4, "Joystick Settings", and a confirm press has opened the joystick
settings menu. -/
def sample_at_joy_settings_menu : BootMode :=
  (run_Update { Frame.idle with ConfirmPress := true }
    (run_Update { Frame.idle with DownPress := true, cursor := 4 }
      sample_at_options_menu sample_world).boot sample_world).boot

/-- The sample boot mode after an up press has moved the cursor of the joystick
settings menu to row 0, "X Axis", and a confirm press has run
`_RedefineXAxisJoy`: an axis capture is armed. -/
def sample_axis_armed : BootMode :=
  (run_Update { Frame.idle with ConfirmPress := true }
    (run_Update { Frame.idle with UpPress := true, cursor := 0 }
      sample_at_joy_settings_menu sample_world).boot sample_world).boot

/-- The sample boot mode after a down press has moved the cursor of the joystick
settings menu to row 2, "Confirm", and a confirm press has run
`_RedefineConfirmJoy`: a joystick button capture is armed. -/
def sample_joy_armed : BootMode :=
  (run_Update { Frame.idle with ConfirmPress := true }
    (run_Update { Frame.idle with DownPress := true, cursor := 2 }
      sample_at_joy_settings_menu sample_world).boot sample_world).boot

/-- A frame in which key 119 goes down: a key press is reported and the raw
event is a key-down. -/
def Frame.key_119_down : Frame :=
  { Frame.idle with AnyKeyPress := true, MostRecentEvent := ⟨SDL_KEYDOWN, 119, 0⟩ }

/-- A frame in which joystick button 5 goes down: a key press is reported and
the raw event is a joystick-button-down. -/
def Frame.button_5_down : Frame :=
  { Frame.idle with AnyKeyPress := true, MostRecentEvent := ⟨SDL_JOYBUTTONDOWN, 0, 5⟩ }

/-- A frame in which axis 3 was the last one moved and nothing is pressed. -/
def Frame.axis_3_moved : Frame := { Frame.idle with LastAxisMoved := 3 }

/-- The sample boot mode with a joystick button capture and a key capture
pending at once, a state no sequence of `Update` calls leads to. -/
def sample_two_pending : BootMode :=
  { sample_boot with _joy_setting_function := some .SetConfirmJoy,
                     _key_setting_function := some .SetUpKey }

/-! ## Properties -/

/-! ### Menu setup leaves the control members alone -/

theorem SavesAvailable_fold_boot (p : String) (l : List Nat) (acc : Nat × Sys) :
    (l.foldl (fun (acc : Nat × Sys) id =>
        let e := DoesFileExist (saved_game_filename p id) acc.2
        (if e.1 then acc.1 + 1 else acc.1, e.2)) acc).2.boot = acc.2.boot ∧
    (l.foldl (fun (acc : Nat × Sys) id =>
        let e := DoesFileExist (saved_game_filename p id) acc.2
        (if e.1 then acc.1 + 1 else acc.1, e.2)) acc).2.world = acc.2.world := by
  induction l generalizing acc with
  | nil => exact ⟨rfl, rfl⟩
  | cons x xs ih =>
      simp only [List.foldl_cons]
      exact ih _

theorem SavesAvailable_boot (n : Int) (σ : Sys) : (_SavesAvailable n σ).2.boot = σ.boot :=
  (SavesAvailable_fold_boot _ _ _).1

theorem SavesAvailable_world (n : Int) (σ : Sys) : (_SavesAvailable n σ).2.world = σ.world :=
  (SavesAvailable_fold_boot _ _ _).2

theorem SetupMainMenu_control (σ : Sys) :
    (_SetupMainMenu σ).boot.control = σ.boot.control := by
  simp [_SetupMainMenu, AudioManager_LoadSound, emit, Sys.modifyBoot, BootMode.control,
    SavesAvailable_boot]

theorem SetupMainMenu_world (σ : Sys) : (_SetupMainMenu σ).world = σ.world := by
  simp [_SetupMainMenu, AudioManager_LoadSound, emit, Sys.modifyBoot, SavesAvailable_world]

theorem ReloadTranslatableMenus_control (σ : Sys) :
    (_ReloadTranslatableMenus σ).boot.control = σ.boot.control := by
  have h := SetupMainMenu_control σ
  simp only [BootMode.control, Prod.mk.injEq] at h
  simp [_ReloadTranslatableMenus, _SetupOptionsMenu, _SetupVideoOptionsMenu,
    _SetupAudioOptionsMenu, _SetupKeySettingsMenu, _SetupJoySettingsMenu, _SetupResolutionMenu,
    AudioManager_LoadSound, emit, Sys.modifyBoot, BootMode.control, h]

theorem SetupLanguageOptionsMenu_control (σ : Sys) :
    (_SetupLanguageOptionsMenu σ).boot.control = σ.boot.control := by
  unfold _SetupLanguageOptionsMenu ScriptDescriptor_OpenFile
  simp only [emit]
  split <;> rename_i heq <;> split at heq <;> (try split at heq) <;>
    simp only [Prod.mk.injEq] at heq <;> obtain ⟨_, rfl⟩ := heq <;>
    simp [ScriptDescriptor_CloseFile, emit, Sys.modifyBoot, BootMode.control]

theorem SetupOtherMenus_control (σ : Sys) :
    (_SetupOptionsMenu σ).boot.control = σ.boot.control ∧
    (_SetupVideoOptionsMenu σ).boot.control = σ.boot.control ∧
    (_SetupAudioOptionsMenu σ).boot.control = σ.boot.control ∧
    (_SetupKeySettingsMenu σ).boot.control = σ.boot.control ∧
    (_SetupJoySettingsMenu σ).boot.control = σ.boot.control ∧
    (_SetupResolutionMenu σ).boot.control = σ.boot.control := by
  simp [_SetupOptionsMenu, _SetupVideoOptionsMenu, _SetupAudioOptionsMenu,
    _SetupKeySettingsMenu, _SetupJoySettingsMenu, _SetupResolutionMenu,
    AudioManager_LoadSound, emit, Sys.modifyBoot, BootMode.control]

theorem constructor_last_step (σ : Sys) (h : σ.boot.control = BootMode.initial.control) :
    (_message_window_Hide
      (σ.modifyBoot (fun b => { b with _active_menu := .main_menu }))).boot.control
      = BootMode.initial.control := by
  simp only [BootMode.control, Prod.mk.injEq] at h
  simp [_message_window_Hide, Sys.modifyBoot, BootMode.control, h]
  simp [BootMode.initial]

theorem constructor_control (w : World) (σ : Sys) (h : BootMode_constructor w = some σ) :
    σ.boot.control = BootMode.initial.control := by
  unfold BootMode_constructor ScriptDescriptor_OpenFile at h
  simp only [emit] at h
  split at h
  · exact absurd h (by simp)
  · rename_i boot_script σ' heq
    split at h
    · exact absurd h (by simp)
    · injection h with h
      subst h
      apply constructor_last_step
      simp only [(SetupOtherMenus_control _).1, (SetupOtherMenus_control _).2.1,
        (SetupOtherMenus_control _).2.2.1, (SetupOtherMenus_control _).2.2.2.1,
        (SetupOtherMenus_control _).2.2.2.2.1, (SetupOtherMenus_control _).2.2.2.2.2,
        SetupLanguageOptionsMenu_control, SetupMainMenu_control]
      split at heq <;> (try split at heq) <;> simp only [Prod.mk.injEq] at heq <;>
        obtain ⟨_, rfl⟩ := heq <;> rfl

/-! ### What the settings file functions do to the boot mode -/

theorem Modify_boot (key : String) (v : Value) (dσ : ScriptDescriptor × Sys) :
    (ScriptDescriptor.Modify key v dσ).2.boot = dσ.2.boot ∧
    (ScriptDescriptor.Modify key v dσ).2.world = dσ.2.world := ⟨rfl, rfl⟩

theorem save_fields_boot (dσ : ScriptDescriptor × Sys) :
    (save_fields dσ).2.boot = dσ.2.boot ∧ (save_fields dσ).2.world = dσ.2.world := by
  simp only [save_fields, ScriptDescriptor.Modify, emit, and_self]

theorem CommitChanges_boot (dσ : ScriptDescriptor × Sys) :
    (ScriptDescriptor.CommitChanges dσ).2.boot = dσ.2.boot := by
  unfold ScriptDescriptor.CommitChanges
  simp only [emit]
  split <;> rfl

theorem OpenFile_boot (filename : String) (σ : Sys) :
    (ScriptDescriptor_OpenFile filename σ).2.boot = σ.boot ∧
    (ScriptDescriptor_OpenFile filename σ).2.world = σ.world := by
  unfold ScriptDescriptor_OpenFile
  simp only [emit]
  split <;> (try split) <;> exact ⟨rfl, rfl⟩

theorem CopyFile_boot (source dest : String) (σ : Sys) : (CopyFile source dest σ).boot = σ.boot := by
  unfold CopyFile
  simp only [emit]
  split <;> rfl

theorem pre_open_boot (file : String) (σ : Sys) :
    (if (!(DoesFileExist file σ).1) = true then
        CopyFile "dat/config/settings.lua" file (DoesFileExist file σ).2
      else (DoesFileExist file σ).2).boot = σ.boot := by
  split <;> simp [CopyFile_boot, DoesFileExist, emit]

theorem SaveSettingsFile_boot (filename : String) (σ : Sys) :
    (_SaveSettingsFile filename σ).2.boot = σ.boot ∨
    (_SaveSettingsFile filename σ).2.boot = { σ.boot with _has_modified_settings := false } := by
  unfold _SaveSettingsFile
  split
  · exact Or.inl rfl
  · simp only
    split
    · rename_i σ' heq
      have ho := congrArg (fun r => r.2.boot) heq
      simp only [(OpenFile_boot _ _).1, pre_open_boot] at ho
      exact Or.inl ho.symm
    · rename_i d σ' heq
      have ho := congrArg (fun r => r.2.boot) heq
      simp only [(OpenFile_boot _ _).1, pre_open_boot] at ho
      right
      simp only [Sys.modifyBoot, ScriptDescriptor_CloseFile, emit, CommitChanges_boot,
        (save_fields_boot _).1, ← ho]

/-! ### What option handlers do to the pending-capture pointers -/

theorem OnLanguageSelect_control (σ σ' : Sys) (h : _OnLanguageSelect σ = some σ') :
    σ'.boot.control =
      ({ σ.boot with _has_modified_settings := true } : BootMode).control := by
  unfold _OnLanguageSelect at h
  cases hread : selected_po_file σ.boot with
  | none => rw [hread] at h; cases h
  | some lang =>
    rw [hread] at h
    simp only [Option.some.injEq] at h
    subst h
    simp only [emit, ReloadTranslatableMenus_control]
    simp [SystemManager_SetLanguage, emit, Sys.modifyBoot, BootMode.control]

theorem handler_slots (h : Handler) (σ : Sys) :
    ((h.body σ).boot._key_setting_function = σ.boot._key_setting_function ∧
      (h.body σ).boot._joy_setting_function = σ.boot._joy_setting_function ∧
      (h.body σ).boot._joy_axis_setting_function = σ.boot._joy_axis_setting_function) ∨
    ((h.body σ).boot._key_setting_function ≠ none ∧
      (h.body σ).boot._joy_setting_function = σ.boot._joy_setting_function ∧
      (h.body σ).boot._joy_axis_setting_function = σ.boot._joy_axis_setting_function) ∨
    ((h.body σ).boot._key_setting_function = σ.boot._key_setting_function ∧
      (h.body σ).boot._joy_setting_function ≠ none ∧
      (h.body σ).boot._joy_axis_setting_function = σ.boot._joy_axis_setting_function) ∨
    ((h.body σ).boot._key_setting_function = σ.boot._key_setting_function ∧
      (h.body σ).boot._joy_setting_function = σ.boot._joy_setting_function ∧
      (h.body σ).boot._joy_axis_setting_function ≠ none) := by
  cases h
  case OnLanguageSelect =>
    simp only [Handler.body]
    cases hsel : _OnLanguageSelect σ with
    | none => simp
    | some σ' =>
      have h := OnLanguageSelect_control σ σ' hsel
      simp only [BootMode.control, Prod.mk.injEq] at h
      simp [h]
  case OnResolution640x480 =>
    simp only [Handler.body, _OnResolution640x480]
    split <;> simp [_ChangeResolution, VideoManager_SetResolution, VideoManager_ApplySettings,
      _RefreshVideoOptions, emit, Sys.modifyBoot]
  case OnResolution800x600 =>
    simp only [Handler.body, _OnResolution800x600]
    split <;> simp [_ChangeResolution, VideoManager_SetResolution, VideoManager_ApplySettings,
      _RefreshVideoOptions, emit, Sys.modifyBoot]
  case OnResolution1024x768 =>
    simp only [Handler.body, _OnResolution1024x768]
    split <;> simp [_ChangeResolution, VideoManager_SetResolution, VideoManager_ApplySettings,
      _RefreshVideoOptions, emit, Sys.modifyBoot]
  case OnResolution1280x1024 =>
    simp only [Handler.body, _OnResolution1280x1024]
    split <;> simp [_ChangeResolution, VideoManager_SetResolution, VideoManager_ApplySettings,
      _RefreshVideoOptions, emit, Sys.modifyBoot]
  all_goals
    simp [Handler.body, _OnNewGame, _OnLoadGame, _OnOptions, _OnQuit, _OnVideoOptions,
      _OnAudioOptions, _OnLanguageOptions, _OnKeySettings, _OnJoySettings, _OnResolution,
      _OnToggleFullscreen, _OnBrightnessLeft, _OnBrightnessRight, _OnTogglePixelArtSmoothed,
      _OnSoundLeft, _OnSoundRight, _OnMusicLeft, _OnMusicRight, _OnRestoreDefaultKeys,
      _OnRestoreDefaultJoyButtons, _RedefineUpKey, _RedefineDownKey, _RedefineLeftKey,
      _RedefineRightKey, _RedefineConfirmKey, _RedefineCancelKey, _RedefineMenuKey,
      _RedefinePauseKey, _RedefineXAxisJoy, _RedefineYAxisJoy, _RedefineConfirmJoy,
      _RedefineCancelJoy, _RedefineMenuJoy, _RedefinePauseJoy, _ShowMessageWindow_bool,
      _ShowMessageWindow, _RefreshVideoOptions, _RefreshAudioOptions, _RefreshKeySettings,
      _RefreshJoySettings, VideoManager_ToggleFullscreen, VideoManager_ApplySettings,
      VideoManager_SetPixelArtSmoothed, VideoManager_SetGamma, AudioManager_SetSoundVolume,
      AudioManager_SetMusicVolume, AudioManager_PlaySound, InputManager_RestoreDefaultKeys,
      InputManager_RestoreDefaultJoyButtons, emit, Sys.modifyBoot]

theorem invoke_pending (h : Option Handler) (σ : Sys) (hp : no_capture_pending σ.boot) :
    at_most_one_pending (invoke h σ).boot := by
  obtain ⟨hk, hj, ha⟩ := hp
  cases h with
  | none => exact Or.inl ⟨hk, hj⟩
  | some h =>
      have hs := handler_slots h (emit (.Invoke h) σ)
      simp only [invoke, at_most_one_pending]
      simp only [emit, hk, hj, ha] at hs
      rcases hs with ⟨h1, h2, h3⟩ | ⟨_, h2, h3⟩ | ⟨h1, _, h3⟩ | ⟨h1, h2, _⟩
      · exact Or.inl ⟨h1, h2⟩
      · exact Or.inr (Or.inr ⟨h2, h3⟩)
      · exact Or.inr (Or.inl ⟨h1, h3⟩)
      · exact Or.inl ⟨h1, h2⟩

theorem invoke_pending_body (h : Handler) (σ : Sys) (hp : no_capture_pending σ.boot) :
    at_most_one_pending (h.body σ).boot := by
  obtain ⟨hk, hj, ha⟩ := hp
  have hs := handler_slots h σ
  simp only [hk, hj, ha] at hs
  rcases hs with ⟨h1, h2, h3⟩ | ⟨_, h2, h3⟩ | ⟨h1, _, h3⟩ | ⟨h1, h2, _⟩
  · exact Or.inl ⟨h1, h2⟩
  · exact Or.inr (Or.inr ⟨h2, h3⟩)
  · exact Or.inr (Or.inl ⟨h1, h3⟩)
  · exact Or.inl ⟨h1, h2⟩

theorem setMenu_control (b : BootMode) (m : MenuId) (x : BootMenu) :
    (b.setMenu m x).control = b.control := by
  cases m <;> rfl

theorem InputConfirm_pending (m : MenuId) (σ : Sys) (hp : no_capture_pending σ.boot) :
    at_most_one_pending (BootMenu_InputConfirm m σ).boot :=
  invoke_pending _ _ hp

theorem InputDirection_pending (c : MenuCall) (pick : MenuOption → Option Handler)
    (m : MenuId) (f : Frame) (σ : Sys) (hp : no_capture_pending σ.boot) :
    at_most_one_pending (BootMenu_InputDirection c pick m f σ).boot := by
  have hc := setMenu_control σ.boot m ((σ.boot.menu m).SetSelection f.cursor)
  simp only [BootMode.control, Prod.mk.injEq] at hc
  have hp' : no_capture_pending ((emit (.Menu m c) σ).modifyBoot
      (fun b => b.setMenu m ((b.menu m).SetSelection f.cursor))).boot := by
    simp only [Sys.modifyBoot, emit, no_capture_pending, hc]
    exact hp
  exact invoke_pending _ _ hp'

theorem joy_capture_slots (fn : JoySetter) (f : Frame) (σ : Sys) :
    (Update_joy_capture fn f σ).boot._key_setting_function = σ.boot._key_setting_function ∧
    (Update_joy_capture fn f σ).boot._joy_axis_setting_function
      = σ.boot._joy_axis_setting_function := by
  unfold Update_joy_capture
  simp only
  split <;> split <;> cases fn <;>
    simp [call_joy_setting_function, _SetConfirmJoy, _SetCancelJoy, _SetMenuJoy, _SetPauseJoy,
      InputManager_Set, emit, Sys.modifyBoot, _RefreshJoySettings, _message_window_Hide]

theorem joy_axis_capture_slots (fn : AxisSetter) (f : Frame) (σ : Sys) :
    (Update_joy_axis_capture fn f σ).boot._key_setting_function
      = σ.boot._key_setting_function ∧
    (Update_joy_axis_capture fn f σ).boot._joy_setting_function
      = σ.boot._joy_setting_function := by
  unfold Update_joy_axis_capture
  simp only
  split <;> split <;> cases fn <;>
    simp [call_joy_axis_setting_function, _SetXAxisJoy, _SetYAxisJoy,
      InputManager_Set, emit, Sys.modifyBoot, _RefreshJoySettings, _message_window_Hide]

theorem key_capture_slots (fn : KeySetter) (f : Frame) (σ : Sys) :
    (Update_key_capture fn f σ).boot._joy_setting_function = σ.boot._joy_setting_function ∧
    (Update_key_capture fn f σ).boot._joy_axis_setting_function
      = σ.boot._joy_axis_setting_function := by
  unfold Update_key_capture
  simp only
  split <;> split <;> cases fn <;>
    simp [call_key_setting_function, _SetUpKey, _SetDownKey, _SetLeftKey, _SetRightKey,
      _SetConfirmKey, _SetCancelKey, _SetMenuKey, _SetPauseKey,
      InputManager_Set, emit, Sys.modifyBoot, _RefreshKeySettings, _message_window_Hide]

theorem help_window_slots (f : Frame) (σ : Sys) :
    (Update_help_window f σ).boot._key_setting_function = σ.boot._key_setting_function ∧
    (Update_help_window f σ).boot._joy_setting_function = σ.boot._joy_setting_function ∧
    (Update_help_window f σ).boot._joy_axis_setting_function
      = σ.boot._joy_axis_setting_function := by
  unfold Update_help_window
  simp only
  rcases SaveSettingsFile_boot "" ((if (!f.HelpPress && f.AnyKeyPress) = true then
      HelpWindow_Hide (AudioManager_PlaySound "snd/confirm.wav" σ) else σ).modifyBoot
      (fun b => { b with _has_modified_settings := true })) with hs | hs <;>
    rw [hs] <;> split <;> exact ⟨rfl, rfl, rfl⟩

theorem cancel_slots (σ : Sys) :
    (Update_cancel σ).boot._key_setting_function = σ.boot._key_setting_function ∧
    (Update_cancel σ).boot._joy_setting_function = σ.boot._joy_setting_function ∧
    (Update_cancel σ).boot._joy_axis_setting_function = σ.boot._joy_axis_setting_function := by
  unfold Update_cancel
  simp only [AudioManager_PlaySound, emit]
  repeat' split
  all_goals exact ⟨rfl, rfl, rfl⟩

theorem menu_input_pending (f : Frame) (σ : Sys) (hp : no_capture_pending σ.boot) :
    at_most_one_pending (Update_menu_input f σ).boot := by
  have hp0 : no_capture_pending (BootMenu_Update σ.boot._active_menu σ).boot := hp
  have hp1 : ∀ name, no_capture_pending
      (AudioManager_PlaySound name (BootMenu_Update σ.boot._active_menu σ)).boot :=
    fun _ => hp
  unfold Update_menu_input
  simp only
  split
  · exact Or.inl ⟨hp.1, hp.2.1⟩
  split
  · unfold Update_confirm
    apply InputConfirm_pending
    split
    · split
      · exact hp1 _
      · exact hp0
    · exact hp1 _
  split
  · exact InputDirection_pending _ _ _ _ _ hp0
  split
  · exact InputDirection_pending _ _ _ _ _ hp0
  split
  · exact InputDirection_pending _ _ _ _ _ hp0
  split
  · exact InputDirection_pending _ _ _ _ _ hp0
  split
  · have hc := cancel_slots (BootMenu_Update σ.boot._active_menu σ)
    refine Or.inl ⟨?_, ?_⟩
    · rw [hc.1]; exact hp.1
    · rw [hc.2.1]; exact hp.2.1
  · exact Or.inl ⟨hp.1, hp.2.1⟩

theorem Update_at_most_one_pending (f : Frame) (σ : Sys) (h : at_most_one_pending σ.boot) :
    at_most_one_pending (Update f σ).boot := by
  unfold Update
  split
  · split <;> exact h
  split
  · split
    · exact h
    · exact h
  split
  · have hs := help_window_slots f σ
    rw [at_most_one_pending, hs.1, hs.2.1, hs.2.2]
    exact h
  split
  · rename_i fn hj
    have hs := joy_capture_slots fn f σ
    refine Or.inr (Or.inl ?_)
    rw [hs.1, hs.2]
    rcases h with ⟨_, h2⟩ | h | ⟨h2, _⟩
    · rw [hj] at h2; cases h2
    · exact h
    · rw [hj] at h2; cases h2
  split
  · rename_i hj fn ha
    have hs := joy_axis_capture_slots fn f σ
    refine Or.inl ?_
    rw [hs.1, hs.2]
    rcases h with h | ⟨_, h2⟩ | ⟨_, h2⟩
    · exact h
    · rw [ha] at h2; cases h2
    · rw [ha] at h2; cases h2
  split
  · rename_i hj ha fn hk
    have hs := key_capture_slots fn f σ
    refine Or.inr (Or.inr ?_)
    rw [hs.1, hs.2]
    exact ⟨by assumption, by assumption⟩
  · exact menu_input_pending f σ ⟨by assumption, by assumption, by assumption⟩

/-! ### The calls made by option handlers -/

theorem emits_only_refl (P : Event → Bool) (σ : Sys) : emits_only P σ σ :=
  ⟨fun _ h => h, fun _ h => Or.inl h⟩

theorem emits_only_trans {P : Event → Bool} {σ₁ σ₂ σ₃ : Sys}
    (h₁ : emits_only P σ₁ σ₂) (h₂ : emits_only P σ₂ σ₃) : emits_only P σ₁ σ₃ :=
  ⟨fun e h => h₂.1 e (h₁.1 e h), fun e h => (h₂.2 e h).elim (h₁.2 e) Or.inr⟩

theorem emits_only_via {P : Event → Bool} {σ₁ σ₃ : Sys} (σ₂ : Sys)
    (h₁ : emits_only P σ₁ σ₂) (h₂ : emits_only P σ₂ σ₃) : emits_only P σ₁ σ₃ :=
  emits_only_trans h₁ h₂

theorem emits_only_mono {P Q : Event → Bool} {σ σ' : Sys} (hPQ : ∀ e, P e = true → Q e = true)
    (h : emits_only P σ σ') : emits_only Q σ σ' :=
  ⟨h.1, fun e he => (h.2 e he).imp id (hPQ e)⟩

theorem emits_only_of_trace_eq {P : Event → Bool} {σ₁ σ₃ : Sys} (σ₂ : Sys)
    (h : emits_only P σ₁ σ₂) (ht : σ₃.trace = σ₂.trace) : emits_only P σ₁ σ₃ := by
  unfold emits_only at *
  rw [ht]
  exact h

theorem emits_only_of_append {P : Event → Bool} {σ σ' : Sys} {l : List Event}
    (h : σ'.trace = σ.trace ++ l) (hl : ∀ e ∈ l, P e = true) : emits_only P σ σ' := by
  unfold emits_only
  rw [h]
  refine ⟨fun e he => List.mem_append_left _ he, fun e he => ?_⟩
  rcases List.mem_append.mp he with he | he
  · exact Or.inl he
  · exact Or.inr (hl e he)

theorem emits_only_emit {P : Event → Bool} {σ σ' : Sys} (e : Event) (hP : P e = true)
    (h : emits_only P σ σ') : emits_only P σ (emit e σ') :=
  emits_only_trans h (emits_only_of_append (l := [e]) rfl (by simpa using hP))

theorem SavesAvailable_fold_trace (p : String) (l : List Nat) (acc : Nat × Sys) :
    emits_only Event.isHandlerEffect acc.2
      (l.foldl (fun (acc : Nat × Sys) id =>
        let e := DoesFileExist (saved_game_filename p id) acc.2
        (if e.1 then acc.1 + 1 else acc.1, e.2)) acc).2 := by
  induction l generalizing acc with
  | nil => exact emits_only_refl _ _
  | cons x xs ih =>
      simp only [List.foldl_cons]
      refine emits_only_trans ?_ (ih _)
      exact emits_only_of_append (l := [Event.DoesFileExist (saved_game_filename p x)]) rfl
        (by simp [Event.isHandlerEffect])

theorem SavesAvailable_trace (n : Int) (σ : Sys) :
    emits_only Event.isHandlerEffect σ (_SavesAvailable n σ).2 := by
  unfold _SavesAvailable
  exact SavesAvailable_fold_trace (σ.world.user_data_path true) (List.range n.toNat) (0, σ)

theorem SetupMainMenu_trace (σ : Sys) : emits_only Event.isHandlerEffect σ (_SetupMainMenu σ) := by
  refine emits_only_trans (SavesAvailable_trace σ.world.default_max_saves σ) ?_
  apply emits_only_of_append
  · simp only [_SetupMainMenu, AudioManager_LoadSound, emit, Sys.modifyBoot, List.append_assoc,
      List.singleton_append]
    rfl
  · simp [Event.isHandlerEffect]

theorem SetupOtherMenus_trace (σ : Sys) :
    emits_only Event.isHandlerEffect σ (_SetupOptionsMenu σ) ∧
    emits_only Event.isHandlerEffect σ (_SetupVideoOptionsMenu σ) ∧
    emits_only Event.isHandlerEffect σ (_SetupAudioOptionsMenu σ) ∧
    emits_only Event.isHandlerEffect σ (_SetupKeySettingsMenu σ) ∧
    emits_only Event.isHandlerEffect σ (_SetupJoySettingsMenu σ) ∧
    emits_only Event.isHandlerEffect σ (_SetupResolutionMenu σ) := by
  refine ⟨emits_only_of_append (l := []) (List.append_nil _).symm (by simp),
    emits_only_of_append (l := []) (List.append_nil _).symm (by simp),
    emits_only_of_append (l := [_]) rfl (by simp [Event.isHandlerEffect]),
    emits_only_of_append (l := []) (List.append_nil _).symm (by simp),
    emits_only_of_append (l := []) (List.append_nil _).symm (by simp),
    emits_only_of_append (l := []) (List.append_nil _).symm (by simp)⟩

theorem ReloadTranslatableMenus_trace (σ : Sys) :
    emits_only Event.isHandlerEffect σ (_ReloadTranslatableMenus σ) := by
  unfold _ReloadTranslatableMenus
  exact emits_only_trans (SetupMainMenu_trace σ)
    (emits_only_trans (SetupOtherMenus_trace _).1
    (emits_only_trans (SetupOtherMenus_trace _).2.1
    (emits_only_trans (SetupOtherMenus_trace _).2.2.1
    (emits_only_trans (SetupOtherMenus_trace _).2.2.2.1
    (emits_only_trans (SetupOtherMenus_trace _).2.2.2.2.1
      (SetupOtherMenus_trace _).2.2.2.2.2)))))

theorem handler_trace (h : Handler) (σ : Sys) :
    emits_only Event.isHandlerEffect σ (h.body σ) := by
  cases h
  case OnLanguageSelect =>
    simp only [Handler.body, _OnLanguageSelect]
    cases selected_po_file σ.boot with
    | none => exact emits_only_refl _ _
    | some lang =>
      simp only [Option.getD_some]
      refine emits_only_emit _ (by simp [Event.isHandlerEffect])
        (emits_only_trans ?_ (ReloadTranslatableMenus_trace _))
      exact emits_only_of_append (l := [_]) rfl (by simp [Event.isHandlerEffect])
  case OnResolution640x480 =>
    simp only [Handler.body, _OnResolution640x480]
    split
    · apply emits_only_of_append
      · simp only [_ChangeResolution, VideoManager_SetResolution, VideoManager_ApplySettings,
          _RefreshVideoOptions, emit, Sys.modifyBoot, List.append_assoc, List.singleton_append]
        rfl
      · simp [Event.isHandlerEffect]
    · exact emits_only_refl _ _
  case OnResolution800x600 =>
    simp only [Handler.body, _OnResolution800x600]
    split
    · apply emits_only_of_append
      · simp only [_ChangeResolution, VideoManager_SetResolution, VideoManager_ApplySettings,
          _RefreshVideoOptions, emit, Sys.modifyBoot, List.append_assoc, List.singleton_append]
        rfl
      · simp [Event.isHandlerEffect]
    · exact emits_only_refl _ _
  case OnResolution1024x768 =>
    simp only [Handler.body, _OnResolution1024x768]
    split
    · apply emits_only_of_append
      · simp only [_ChangeResolution, VideoManager_SetResolution, VideoManager_ApplySettings,
          _RefreshVideoOptions, emit, Sys.modifyBoot, List.append_assoc, List.singleton_append]
        rfl
      · simp [Event.isHandlerEffect]
    · exact emits_only_refl _ _
  case OnResolution1280x1024 =>
    simp only [Handler.body, _OnResolution1280x1024]
    split
    · apply emits_only_of_append
      · simp only [_ChangeResolution, VideoManager_SetResolution, VideoManager_ApplySettings,
          _RefreshVideoOptions, emit, Sys.modifyBoot, List.append_assoc, List.singleton_append]
        rfl
      · simp [Event.isHandlerEffect]
    · exact emits_only_refl _ _
  all_goals
    apply emits_only_of_append
    · simp only [Handler.body, _OnNewGame, _OnLoadGame, _OnOptions, _OnQuit,
      _OnVideoOptions,
      _OnAudioOptions, _OnLanguageOptions, _OnKeySettings, _OnJoySettings, _OnResolution,
      _OnToggleFullscreen, _OnBrightnessLeft, _OnBrightnessRight, _OnTogglePixelArtSmoothed,
      _OnSoundLeft, _OnSoundRight, _OnMusicLeft, _OnMusicRight, _OnRestoreDefaultKeys,
      _OnRestoreDefaultJoyButtons, _RedefineUpKey, _RedefineDownKey, _RedefineLeftKey,
      _RedefineRightKey, _RedefineConfirmKey, _RedefineCancelKey, _RedefineMenuKey,
      _RedefinePauseKey, _RedefineXAxisJoy, _RedefineYAxisJoy, _RedefineConfirmJoy,
      _RedefineCancelJoy, _RedefineMenuJoy, _RedefinePauseJoy, _ShowMessageWindow_bool,
      _ShowMessageWindow, _RefreshVideoOptions, _RefreshAudioOptions, _RefreshKeySettings,
      _RefreshJoySettings, VideoManager_ToggleFullscreen, VideoManager_ApplySettings,
      VideoManager_SetPixelArtSmoothed, VideoManager_SetGamma, AudioManager_SetSoundVolume,
      AudioManager_SetMusicVolume, AudioManager_PlaySound, InputManager_RestoreDefaultKeys,
      InputManager_RestoreDefaultJoyButtons, emit, Sys.modifyBoot, List.append_assoc, List.singleton_append]
      first
        | rfl
        | exact (List.append_nil _).symm
    · simp [Event.isHandlerEffect]

/-! ### The calls made by the blocks of `Update` -/

theorem invoke_trace (h : Option Handler) (σ : Sys) :
    emits_only Event.isMenuInputEffect σ (invoke h σ) := by
  cases h with
  | none => exact emits_only_refl _ _
  | some h =>
      refine emits_only_via (emit (.Invoke h) σ)
        (emits_only_of_append (l := [_]) rfl (by simp [Event.isMenuInputEffect, Event.isMenuCall]))
        (emits_only_mono ?_ (handler_trace h _))
      intro e he
      simp [Event.isMenuInputEffect, he]

theorem InputConfirm_trace (m : MenuId) (σ : Sys) :
    emits_only Event.isMenuInputEffect σ (BootMenu_InputConfirm m σ) :=
  emits_only_via (emit (.Menu m .InputConfirm) σ)
    (emits_only_of_append (l := [_]) rfl (by simp [Event.isMenuInputEffect, Event.isMenuCall]))
    (invoke_trace _ _)

theorem InputDirection_trace (c : MenuCall) (pick : MenuOption → Option Handler)
    (m : MenuId) (f : Frame) (σ : Sys) :
    emits_only Event.isMenuInputEffect σ (BootMenu_InputDirection c pick m f σ) :=
  emits_only_via ((emit (.Menu m c) σ).modifyBoot
      (fun b => b.setMenu m ((b.menu m).SetSelection f.cursor)))
    (emits_only_of_append (l := [_]) rfl (by simp [Event.isMenuInputEffect, Event.isMenuCall]))
    (invoke_trace _ _)

theorem cancel_trace (σ : Sys) : (Update_cancel σ).trace = σ.trace ++ [.PlaySound "snd/cancel.wav"] := by
  unfold Update_cancel
  simp only [AudioManager_PlaySound, emit]
  repeat' split
  all_goals rfl

theorem confirm_trace (σ : Sys) : emits_only Event.isMenuInputEffect σ (Update_confirm σ) := by
  unfold Update_confirm
  simp only
  refine emits_only_trans ?_ (InputConfirm_trace _ _)
  split
  · split
    · exact emits_only_of_append (l := [_]) rfl
        (by simp [Event.isMenuInputEffect, Event.isHandlerEffect])
    · exact emits_only_refl _ _
  · exact emits_only_of_append (l := [_]) rfl
      (by simp [Event.isMenuInputEffect, Event.isHandlerEffect])

theorem menu_input_trace (f : Frame) (σ : Sys) :
    emits_only Event.isMenuInputEffect σ (Update_menu_input f σ) := by
  have h0 : emits_only Event.isMenuInputEffect σ (BootMenu_Update σ.boot._active_menu σ) :=
    emits_only_of_append (l := [_]) rfl (by simp [Event.isMenuInputEffect, Event.isMenuCall])
  unfold Update_menu_input
  simp only
  split
  · exact emits_only_emit _ (by simp [Event.isMenuInputEffect, Event.isHandlerEffect]) h0
  split
  · exact emits_only_trans h0 (confirm_trace _)
  split
  · exact emits_only_trans h0 (InputDirection_trace _ _ _ _ _)
  split
  · exact emits_only_trans h0 (InputDirection_trace _ _ _ _ _)
  split
  · exact emits_only_trans h0 (InputDirection_trace _ _ _ _ _)
  split
  · exact emits_only_trans h0 (InputDirection_trace _ _ _ _ _)
  split
  · exact emits_only_trans h0 (emits_only_of_append (cancel_trace _)
      (by simp [Event.isMenuInputEffect, Event.isHandlerEffect]))
  · exact h0

theorem save_fields_trace (dσ : ScriptDescriptor × Sys) :
    emits_only Event.isHelpWindowEffect dσ.2 (save_fields dσ).2 := by
  apply emits_only_of_append
  · simp only [save_fields, ScriptDescriptor.Modify, emit, List.append_assoc,
      List.singleton_append]
    rfl
  · simp [Event.isHelpWindowEffect, Event.isFileOperation]

theorem pre_open_trace_of (P : Event → Bool) (file : String) (σ : Sys)
    (h1 : P (.DoesFileExist file) = true)
    (h2 : P (.CopyFile "dat/config/settings.lua" file) = true) :
    emits_only P σ
      (if (!(DoesFileExist file σ).1) = true then
        CopyFile "dat/config/settings.lua" file (DoesFileExist file σ).2
      else (DoesFileExist file σ).2) := by
  split
  · unfold CopyFile
    simp only
    split <;>
      exact emits_only_of_append
        (l := [.DoesFileExist file, .CopyFile "dat/config/settings.lua" file])
        (by simp [DoesFileExist, emit])
        (by simp [h1, h2])
  · exact emits_only_of_append (l := [_]) rfl (by simp [h1])

theorem pre_open_trace (file : String) (σ : Sys) :
    emits_only Event.isHelpWindowEffect σ
      (if (!(DoesFileExist file σ).1) = true then
        CopyFile "dat/config/settings.lua" file (DoesFileExist file σ).2
      else (DoesFileExist file σ).2) :=
  pre_open_trace_of _ file σ (by simp [Event.isHelpWindowEffect, Event.isFileOperation])
    (by simp [Event.isHelpWindowEffect, Event.isFileOperation])

theorem OpenFile_trace (file : String) (σ : Sys) :
    (ScriptDescriptor_OpenFile file σ).2.trace = σ.trace ++ [.OpenFile file] := by
  unfold ScriptDescriptor_OpenFile
  simp only
  split <;> (try split) <;> rfl

theorem CommitChanges_trace (dσ : ScriptDescriptor × Sys) :
    (ScriptDescriptor.CommitChanges dσ).2.trace = dσ.2.trace ++ [.CommitChanges] := by
  unfold ScriptDescriptor.CommitChanges
  simp only
  split <;> rfl

theorem save_commit_trace (d : ScriptDescriptor) (σ : Sys) :
    emits_only Event.isHelpWindowEffect σ
      ((ScriptDescriptor_CloseFile (ScriptDescriptor.CommitChanges (save_fields (d, σ))).2).modifyBoot
        (fun b => { b with _has_modified_settings := false })) := by
  refine emits_only_of_trace_eq (ScriptDescriptor_CloseFile
    (ScriptDescriptor.CommitChanges (save_fields (d, σ))).2) ?_ rfl
  refine emits_only_emit _ (by simp [Event.isHelpWindowEffect, Event.isFileOperation])
    (emits_only_trans (save_fields_trace (d, σ)) ?_)
  exact emits_only_of_append (CommitChanges_trace _)
    (by simp [Event.isHelpWindowEffect, Event.isFileOperation])

theorem SaveSettingsFile_trace (filename : String) (σ : Sys) :
    emits_only Event.isHelpWindowEffect σ (_SaveSettingsFile filename σ).2 := by
  unfold _SaveSettingsFile
  split
  · exact emits_only_refl _ _
  · simp only
    generalize (if filename = "" then σ.world.user_data_path false ++ "/settings.lua"
      else σ.world.user_data_path false ++ "/" ++ filename) = file
    have hpre := pre_open_trace file σ
    generalize (if (!(DoesFileExist file σ).1) = true then
        CopyFile "dat/config/settings.lua" file (DoesFileExist file σ).2
      else (DoesFileExist file σ).2) = pre at hpre ⊢
    have hopen : emits_only Event.isHelpWindowEffect pre (ScriptDescriptor_OpenFile file pre).2 :=
      emits_only_of_append (OpenFile_trace file pre)
        (by simp [Event.isHelpWindowEffect, Event.isFileOperation])
    rcases hres : ScriptDescriptor_OpenFile file pre with ⟨o, σ'⟩
    rw [hres] at hopen
    cases o with
    | none => exact emits_only_trans hpre hopen
    | some d => exact emits_only_trans (emits_only_trans hpre hopen) (save_commit_trace d σ')

theorem help_window_trace (f : Frame) (σ : Sys) :
    emits_only Event.isHelpWindowEffect σ (Update_help_window f σ) := by
  unfold Update_help_window
  simp only
  refine emits_only_trans ?_ (SaveSettingsFile_trace _ _)
  split
  · exact emits_only_of_append (l := [.PlaySound "snd/confirm.wav", .HelpWindowHide])
      (by simp [HelpWindow_Hide, AudioManager_PlaySound, emit, Sys.modifyBoot])
      (by simp [Event.isHelpWindowEffect])
  · exact emits_only_refl _ _

/-! ### The blocks of `Update`, case by case -/

theorem Update_exiting (f : Frame) (σ : Sys) (hexit : σ.boot._exiting_to_new_game = true) :
    Update f σ = if !f.IsFading then emit .NewGame σ else σ := by
  simp [Update, hexit]

theorem Update_intro (f : Frame) (σ : Sys) (hexit : σ.boot._exiting_to_new_game = false)
    (hstate : σ.boot._boot_state = .BOOT_STATE_INTRO) :
    Update f σ = if f.AnyKeyPress then ChangeState .BOOT_STATE_MENU σ else σ := by
  simp [Update, hexit, hstate]

theorem Update_help (f : Frame) (σ : Sys) (hexit : σ.boot._exiting_to_new_game = false)
    (hstate : σ.boot._boot_state = .BOOT_STATE_MENU)
    (hhelp : HelpWindow_IsActive σ.world = true) :
    Update f σ = Update_help_window f σ := by
  simp [Update, hexit, hstate, hhelp]

theorem Update_joy (f : Frame) (σ : Sys) (fn : JoySetter)
    (hreach : reaches_capture_check σ.boot σ.world)
    (hj : σ.boot._joy_setting_function = some fn) :
    Update f σ = Update_joy_capture fn f σ := by
  obtain ⟨hexit, hstate, hhelp⟩ := hreach
  simp [Update, hexit, hstate, hhelp, hj]

theorem Update_joy_axis (f : Frame) (σ : Sys) (fn : AxisSetter)
    (hreach : reaches_capture_check σ.boot σ.world)
    (hj : σ.boot._joy_setting_function = none)
    (ha : σ.boot._joy_axis_setting_function = some fn) :
    Update f σ = Update_joy_axis_capture fn f σ := by
  obtain ⟨hexit, hstate, hhelp⟩ := hreach
  simp [Update, hexit, hstate, hhelp, hj, ha]

theorem Update_key (f : Frame) (σ : Sys) (fn : KeySetter)
    (hreach : reaches_capture_check σ.boot σ.world)
    (hj : σ.boot._joy_setting_function = none)
    (ha : σ.boot._joy_axis_setting_function = none)
    (hk : σ.boot._key_setting_function = some fn) :
    Update f σ = Update_key_capture fn f σ := by
  obtain ⟨hexit, hstate, hhelp⟩ := hreach
  simp [Update, hexit, hstate, hhelp, hj, ha, hk]

theorem Update_menu (f : Frame) (σ : Sys)
    (hreach : reaches_capture_check σ.boot σ.world)
    (hpending : no_capture_pending σ.boot) :
    Update f σ = Update_menu_input f σ := by
  obtain ⟨hexit, hstate, hhelp⟩ := hreach
  obtain ⟨hk, hj, ha⟩ := hpending
  simp [Update, hexit, hstate, hhelp, hj, ha, hk]

theorem Update_cases (f : Frame) (σ : Sys) :
    (σ.boot._exiting_to_new_game = true ∧
      Update f σ = if !f.IsFading then emit .NewGame σ else σ) ∨
    (σ.boot._exiting_to_new_game = false ∧ σ.boot._boot_state = .BOOT_STATE_INTRO ∧
      Update f σ = if f.AnyKeyPress then ChangeState .BOOT_STATE_MENU σ else σ) ∨
    (σ.boot._exiting_to_new_game = false ∧ σ.boot._boot_state = .BOOT_STATE_MENU ∧
      HelpWindow_IsActive σ.world = true ∧ Update f σ = Update_help_window f σ) ∨
    (reaches_capture_check σ.boot σ.world ∧
      ∃ fn, σ.boot._joy_setting_function = some fn ∧ Update f σ = Update_joy_capture fn f σ) ∨
    (reaches_capture_check σ.boot σ.world ∧ σ.boot._joy_setting_function = none ∧
      ∃ fn, σ.boot._joy_axis_setting_function = some fn ∧
        Update f σ = Update_joy_axis_capture fn f σ) ∨
    (reaches_capture_check σ.boot σ.world ∧ σ.boot._joy_setting_function = none ∧
      σ.boot._joy_axis_setting_function = none ∧
      ∃ fn, σ.boot._key_setting_function = some fn ∧ Update f σ = Update_key_capture fn f σ) ∨
    (reaches_capture_check σ.boot σ.world ∧ no_capture_pending σ.boot ∧
      Update f σ = Update_menu_input f σ) := by
  cases hexit : σ.boot._exiting_to_new_game
  swap
  · exact Or.inl ⟨rfl, Update_exiting f σ hexit⟩
  cases hstate : σ.boot._boot_state
  · exact Or.inr (Or.inl ⟨rfl, rfl, Update_intro f σ hexit hstate⟩)
  cases hhelp : HelpWindow_IsActive σ.world
  swap
  · exact Or.inr (Or.inr (Or.inl ⟨rfl, rfl, rfl, Update_help f σ hexit hstate hhelp⟩))
  have hreach : reaches_capture_check σ.boot σ.world := ⟨hexit, hstate, hhelp⟩
  right; right; right
  cases hj : σ.boot._joy_setting_function with
  | some fn => exact Or.inl ⟨hreach, fn, rfl, Update_joy f σ fn hreach hj⟩
  | none =>
      right
      cases ha : σ.boot._joy_axis_setting_function with
      | some fn => exact Or.inl ⟨hreach, rfl, fn, rfl, Update_joy_axis f σ fn hreach hj ha⟩
      | none =>
          right
          cases hk : σ.boot._key_setting_function with
          | some fn => exact Or.inl ⟨hreach, rfl, rfl, fn, rfl, Update_key f σ fn hreach hj ha hk⟩
          | none => exact Or.inr ⟨hreach, ⟨hk, hj, ha⟩, Update_menu f σ hreach ⟨hk, hj, ha⟩⟩

/-! ### The capture blocks in closed form -/

theorem joy_capture_eq (fn : JoySetter) (f : Frame) (σ : Sys) :
    Update_joy_capture fn f σ =
      if (f.AnyKeyPress && f.MostRecentEvent.type == SDL_JOYBUTTONDOWN) = true then
        { boot := { σ.boot with _joy_setting_function := none, _has_modified_settings := true,
                                _message_window_shown := false }
          world := σ.world.setBinding fn.binding f.MostRecentEvent.jbutton_button
          trace := σ.trace ++ [.InputSet fn.binding f.MostRecentEvent.jbutton_button] }
      else if f.CancelPress = true then
        { σ with boot := { σ.boot with _joy_setting_function := none,
                                       _message_window_shown := false } }
      else σ := by
  simp only [Update_joy_capture]
  cases h1 : (f.AnyKeyPress && f.MostRecentEvent.type == SDL_JOYBUTTONDOWN) <;>
    cases h2 : f.CancelPress <;> cases fn <;> rfl

theorem joy_axis_capture_eq (fn : AxisSetter) (f : Frame) (σ : Sys) :
    Update_joy_axis_capture fn f σ =
      if to_int8 f.LastAxisMoved ≠ -1 then
        { boot := { σ.boot with _joy_axis_setting_function := none,
                                _has_modified_settings := true,
                                _message_window_shown := false }
          world := σ.world.setBinding fn.binding (to_int8 f.LastAxisMoved)
          trace := σ.trace ++ [.InputSet fn.binding (to_int8 f.LastAxisMoved)] }
      else if f.CancelPress = true then
        { σ with boot := { σ.boot with _joy_axis_setting_function := none,
                                       _message_window_shown := false } }
      else σ := by
  simp only [Update_joy_axis_capture]
  by_cases h1 : to_int8 f.LastAxisMoved = -1 <;>
    cases h2 : f.CancelPress <;> cases fn <;> simp only [h1, ne_eq, not_true_eq_false,
      not_false_eq_true, if_true, if_false] <;> rfl

theorem key_capture_eq (fn : KeySetter) (f : Frame) (σ : Sys) :
    Update_key_capture fn f σ =
      if (f.AnyKeyPress && f.MostRecentEvent.type == SDL_KEYDOWN) = true then
        { boot := { σ.boot with _key_setting_function := none, _has_modified_settings := true,
                                _message_window_shown := false }
          world := σ.world.setBinding fn.binding f.MostRecentEvent.key_keysym_sym
          trace := σ.trace ++ [.InputSet fn.binding f.MostRecentEvent.key_keysym_sym] }
      else if f.CancelPress = true then
        { σ with boot := { σ.boot with _key_setting_function := none,
                                       _message_window_shown := false } }
      else σ := by
  simp only [Update_key_capture]
  cases h1 : (f.AnyKeyPress && f.MostRecentEvent.type == SDL_KEYDOWN) <;>
    cases h2 : f.CancelPress <;> cases fn <;> rfl

/-! ### Binding setters are called from the capture blocks only -/

theorem InputSet_in_Update (f : Frame) (σ : Sys) (h0 : σ.trace = []) (bd : Binding) (v : Int)
    (h : Event.InputSet bd v ∈ (Update f σ).trace) :
    reaches_capture_check σ.boot σ.world ∧
    ((∃ fn, σ.boot._joy_setting_function = some fn ∧ bd = fn.binding ∧
        v = f.MostRecentEvent.jbutton_button ∧
        (f.AnyKeyPress && f.MostRecentEvent.type == SDL_JOYBUTTONDOWN) = true ∧
        Update f σ = Update_joy_capture fn f σ) ∨
     (σ.boot._joy_setting_function = none ∧
      ∃ fn, σ.boot._joy_axis_setting_function = some fn ∧ bd = fn.binding ∧
        v = to_int8 f.LastAxisMoved ∧ to_int8 f.LastAxisMoved ≠ -1 ∧
        Update f σ = Update_joy_axis_capture fn f σ) ∨
     (σ.boot._joy_setting_function = none ∧ σ.boot._joy_axis_setting_function = none ∧
      ∃ fn, σ.boot._key_setting_function = some fn ∧ bd = fn.binding ∧
        v = f.MostRecentEvent.key_keysym_sym ∧
        (f.AnyKeyPress && f.MostRecentEvent.type == SDL_KEYDOWN) = true ∧
        Update f σ = Update_key_capture fn f σ)) := by
  rcases Update_cases f σ with ⟨_, heq⟩ | ⟨_, _, heq⟩ | ⟨_, _, _, heq⟩ | ⟨hreach, fn, hj, heq⟩ |
    ⟨hreach, hj, fn, ha, heq⟩ | ⟨hreach, hj, ha, fn, hk, heq⟩ | ⟨_, _, heq⟩
  · rw [heq] at h
    split at h <;> simp [emit, h0] at h
  · rw [heq] at h
    split at h <;> simp [ChangeState, Sys.modifyBoot, h0] at h
  · rw [heq] at h
    rcases (help_window_trace f σ).2 _ h with h' | h'
    · simp [h0] at h'
    · simp [Event.isHelpWindowEffect, Event.isFileOperation] at h'
  · refine ⟨hreach, Or.inl ⟨fn, hj, ?_⟩⟩
    rw [heq, joy_capture_eq] at h
    split at h
    · rename_i hc
      simp [h0] at h
      exact ⟨h.1, h.2, hc, heq⟩
    · split at h <;> simp [h0] at h
  · refine ⟨hreach, Or.inr (Or.inl ⟨hj, fn, ha, ?_⟩)⟩
    rw [heq, joy_axis_capture_eq] at h
    split at h
    · rename_i hc
      simp [h0] at h
      exact ⟨h.1, h.2, hc, heq⟩
    · split at h <;> simp [h0] at h
  · refine ⟨hreach, Or.inr (Or.inr ⟨hj, ha, fn, hk, ?_⟩)⟩
    rw [heq, key_capture_eq] at h
    split at h
    · rename_i hc
      simp [h0] at h
      exact ⟨h.1, h.2, hc, heq⟩
    · split at h <;> simp [h0] at h
  · rw [heq] at h
    rcases (menu_input_trace f σ).2 _ h with h' | h'
    · simp [h0] at h'
    · simp [Event.isMenuInputEffect, Event.isHandlerEffect, Event.isMenuCall] at h'

/-! ### `_SaveSettingsFile` with the dirty flag set -/

theorem invoke_none_of_no_Invoke (o : Option Handler) (σ : Sys)
    (hno : ∀ h, Event.Invoke h ∉ (invoke o σ).trace) : o = none := by
  cases o with
  | none => rfl
  | some h =>
      exfalso
      apply hno h
      exact (handler_trace h (emit (.Invoke h) σ)).1 _ (by simp [emit])

theorem InputConfirm_without_handler (m : MenuId) (σ : Sys)
    (hno : ∀ h, Event.Invoke h ∉ (BootMenu_InputConfirm m σ).trace) :
    BootMenu_InputConfirm m σ = emit (.Menu m .InputConfirm) σ := by
  unfold BootMenu_InputConfirm at hno ⊢
  simp only at hno ⊢
  rw [invoke_none_of_no_Invoke _ _ hno]
  rfl

theorem InputDirection_without_handler (c : MenuCall) (pick : MenuOption → Option Handler)
    (m : MenuId) (f : Frame) (σ : Sys)
    (hno : ∀ h, Event.Invoke h ∉ (BootMenu_InputDirection c pick m f σ).trace) :
    BootMenu_InputDirection c pick m f σ =
      (emit (.Menu m c) σ).modifyBoot
        (fun b => b.setMenu m ((b.menu m).SetSelection f.cursor)) := by
  unfold BootMenu_InputDirection at hno ⊢
  simp only at hno ⊢
  rw [invoke_none_of_no_Invoke _ _ hno]
  rfl

theorem direction_without_handler (c : MenuCall) (pick : MenuOption → Option Handler)
    (m : MenuId) (f : Frame) (σ : Sys)
    (hno : ∀ h, Event.Invoke h ∉ (BootMenu_InputDirection c pick m f σ).trace) :
    (BootMenu_InputDirection c pick m f σ).boot._has_modified_settings
      = σ.boot._has_modified_settings ∧
    (BootMenu_InputDirection c pick m f σ).trace = σ.trace ++ [.Menu m c] := by
  have hc := setMenu_control σ.boot m ((σ.boot.menu m).SetSelection f.cursor)
  simp only [BootMode.control, Prod.mk.injEq] at hc
  rw [InputDirection_without_handler c pick m f σ hno]
  exact ⟨hc.2.2.1, rfl⟩

theorem confirm_without_handler (σ : Sys)
    (hno : ∀ h, Event.Invoke h ∉ (Update_confirm σ).trace) :
    (Update_confirm σ).boot = σ.boot ∧
    ∀ e ∈ (Update_confirm σ).trace, e ∈ σ.trace ∨ e.isFileOperation = false := by
  unfold Update_confirm at hno ⊢
  simp only at hno ⊢
  rw [InputConfirm_without_handler _ _ hno]
  split
  · split
    · refine ⟨rfl, ?_⟩
      simp only [emit, AudioManager_PlaySound, List.mem_append, List.mem_singleton]
      rintro e ((h | rfl) | rfl)
      · exact Or.inl h
      · exact Or.inr rfl
      · exact Or.inr rfl
    · refine ⟨rfl, ?_⟩
      simp only [emit, List.mem_append, List.mem_singleton]
      rintro e (h | rfl)
      · exact Or.inl h
      · exact Or.inr rfl
  · refine ⟨rfl, ?_⟩
    simp only [emit, AudioManager_PlaySound, List.mem_append, List.mem_singleton]
    rintro e ((h | rfl) | rfl)
    · exact Or.inl h
    · exact Or.inr rfl
    · exact Or.inr rfl

theorem menu_input_without_handler (f : Frame) (σ : Sys) (h0 : σ.trace = [])
    (hno : ∀ h, Event.Invoke h ∉ (Update_menu_input f σ).trace) :
    (Update_menu_input f σ).boot._has_modified_settings = σ.boot._has_modified_settings ∧
    ∀ e ∈ (Update_menu_input f σ).trace, e.isFileOperation = false := by
  have hu : (BootMenu_Update σ.boot._active_menu σ).trace = [.Menu σ.boot._active_menu .Update] := by
    simp [BootMenu_Update, emit, h0]
  have hdir : ∀ (c : MenuCall) (pick : MenuOption → Option Handler),
      (∀ h, Event.Invoke h ∉ (BootMenu_InputDirection c pick σ.boot._active_menu f
        (BootMenu_Update σ.boot._active_menu σ)).trace) →
      (BootMenu_InputDirection c pick σ.boot._active_menu f
        (BootMenu_Update σ.boot._active_menu σ)).boot._has_modified_settings
        = σ.boot._has_modified_settings ∧
      ∀ e ∈ (BootMenu_InputDirection c pick σ.boot._active_menu f
        (BootMenu_Update σ.boot._active_menu σ)).trace, e.isFileOperation = false := by
    intro c pick hno'
    have hd := direction_without_handler c pick _ f _ hno'
    rw [hd.1, hd.2, hu]
    simp [BootMenu_Update, emit, Event.isFileOperation]
  unfold Update_menu_input at hno ⊢
  simp only at hno ⊢
  by_cases hq : (BootMenu_Update σ.boot._active_menu σ).boot._active_menu = .main_menu ∧
      f.QuitPress = true
  · rw [if_pos hq]
    simp [emit, hu, Event.isFileOperation]
    rfl
  rw [if_neg hq] at hno ⊢
  cases hconfirm : f.ConfirmPress
  swap
  · simp only [hconfirm, if_true] at hno ⊢
    have hc := confirm_without_handler _ hno
    refine ⟨by rw [hc.1]; rfl, fun e he => ?_⟩
    rcases hc.2 e he with h' | h'
    · rw [hu] at h'
      simp only [List.mem_singleton] at h'
      rw [h']
      rfl
    · exact h'
  simp only [hconfirm, Bool.false_eq_true, if_false] at hno ⊢
  cases hleft : f.LeftPress
  swap
  · simp only [hleft, if_true] at hno ⊢
    exact hdir _ _ hno
  simp only [hleft, Bool.false_eq_true, if_false] at hno ⊢
  cases hright : f.RightPress
  swap
  · simp only [hright, if_true] at hno ⊢
    exact hdir _ _ hno
  simp only [hright, Bool.false_eq_true, if_false] at hno ⊢
  cases hup : f.UpPress
  swap
  · simp only [hup, if_true] at hno ⊢
    exact hdir _ _ hno
  simp only [hup, Bool.false_eq_true, if_false] at hno ⊢
  cases hdown : f.DownPress
  swap
  · simp only [hdown, if_true] at hno ⊢
    exact hdir _ _ hno
  simp only [hdown, Bool.false_eq_true, if_false] at hno ⊢
  split
  · refine ⟨?_, ?_⟩
    · unfold Update_cancel
      simp only [AudioManager_PlaySound, emit]
      repeat' split
      all_goals rfl
    · rw [cancel_trace, hu]
      simp [Event.isFileOperation]
  · rw [hu]
    simp [Event.isFileOperation]
    rfl

/-- C1: in the menu state, not exiting to a new game, with the help window
inactive, no capture pending and no confirm, left, right, up or down press, a
cancel press leaves the active menu at the declared parent of the menu that
was active: the main menu for the options menu, the options menu for the
video, audio, language, key and joystick menus, the video menu for the
resolution menu, and the main menu stays the main menu. -/
theorem C1_cancel_moves_to_declared_parent (f : Frame) (b : BootMode) (w : World)
    (hstate : b._boot_state = .BOOT_STATE_MENU)
    (hexit : b._exiting_to_new_game = false)
    (hhelp : HelpWindow_IsActive w = false)
    (hpending : no_capture_pending b)
    (hconfirm : f.ConfirmPress = false) (hleft : f.LeftPress = false)
    (hright : f.RightPress = false) (hup : f.UpPress = false) (hdown : f.DownPress = false)
    (hcancel : f.CancelPress = true) :
    (run_Update f b w).boot._active_menu = declared_parent b._active_menu ∧
    (b._active_menu = .options_menu → (run_Update f b w).boot._active_menu = .main_menu) ∧
    (b._active_menu = .video_options_menu →
      (run_Update f b w).boot._active_menu = .options_menu) ∧
    (b._active_menu = .audio_options_menu →
      (run_Update f b w).boot._active_menu = .options_menu) ∧
    (b._active_menu = .language_options_menu →
      (run_Update f b w).boot._active_menu = .options_menu) ∧
    (b._active_menu = .key_settings_menu →
      (run_Update f b w).boot._active_menu = .options_menu) ∧
    (b._active_menu = .joy_settings_menu →
      (run_Update f b w).boot._active_menu = .options_menu) ∧
    (b._active_menu = .resolution_menu →
      (run_Update f b w).boot._active_menu = .video_options_menu) ∧
    (b._active_menu = .main_menu → (run_Update f b w).boot._active_menu = .main_menu) := by
  obtain ⟨hk, hj, ha⟩ := hpending
  have key : (run_Update f b w).boot._active_menu = declared_parent b._active_menu := by
    cases hm : b._active_menu <;> cases hq : f.QuitPress <;>
      simp [run_Update, Update, hstate, hexit, hhelp, hk, hj, ha, hconfirm, hleft, hright, hup,
        hdown, hcancel, hm, hq, Update_menu_input, Update_cancel, BootMenu_Update, emit,
        AudioManager_PlaySound, Sys.modifyBoot, declared_parent]
  refine ⟨key, ?_, ?_, ?_, ?_, ?_, ?_, ?_, ?_⟩ <;> intro hm <;> rw [key, hm] <;> rfl

/-- C1 at a concrete input: the options menu is active and cancel is pressed. -/
theorem C1_cancel_moves_to_declared_parent_witness :
    (run_Update { Frame.idle with CancelPress := true }
      { sample_boot with _active_menu := .options_menu } sample_world).boot._active_menu
      = .main_menu :=
  (C1_cancel_moves_to_declared_parent { Frame.idle with CancelPress := true }
    { sample_boot with _active_menu := .options_menu } sample_world
    rfl rfl rfl ⟨rfl, rfl, rfl⟩ rfl rfl rfl rfl rfl rfl).2.1 rfl

/-- C2: in every state reachable from a freshly constructed boot mode by
`Update` calls, at most one of `_key_setting_function`, `_joy_setting_function`
and `_joy_axis_setting_function` is non-null. -/
theorem C2_reachable_at_most_one_pending (b : BootMode) (h : Reachable b) :
    at_most_one_pending b := by
  induction h with
  | constructed w σ hc =>
      have hcontrol := constructor_control w σ hc
      simp only [BootMode.control, Prod.mk.injEq] at hcontrol
      exact Or.inl ⟨hcontrol.2.2.2.1, hcontrol.2.2.2.2.1⟩
  | update b w t f _ ih => exact Update_at_most_one_pending f _ ih
  | change_state b w t boot_state _ ih => exact ih

/-- C3 fails as stated: with a joystick button capture pending, `_RedefineUpKey`
arms the key capture and leaves the joystick button capture pending. -/
theorem C3_arming_does_not_clear_counterexample :
    (_RedefineUpKey { boot := { sample_boot with _joy_setting_function := some .SetConfirmJoy },
                      world := sample_world, trace := [] }).boot._key_setting_function
      = some .SetUpKey ∧
    (_RedefineUpKey { boot := { sample_boot with _joy_setting_function := some .SetConfirmJoy },
                      world := sample_world, trace := [] }).boot._joy_setting_function
      ≠ none := by
  decide

/-- C3 amended: after an arming handler returns, the pointer it arms is
non-null and the other two pending-capture pointers have the values they had
before the call; so they are null when no capture was pending before. -/
theorem C3_arming_sets_own_slot_only (h : Handler) (σ : Sys) :
    (h ∈ key_arming_handlers →
      (h.body σ).boot._key_setting_function ≠ none ∧
      (h.body σ).boot._joy_setting_function = σ.boot._joy_setting_function ∧
      (h.body σ).boot._joy_axis_setting_function = σ.boot._joy_axis_setting_function) ∧
    (h ∈ axis_arming_handlers →
      (h.body σ).boot._joy_axis_setting_function ≠ none ∧
      (h.body σ).boot._key_setting_function = σ.boot._key_setting_function ∧
      (h.body σ).boot._joy_setting_function = σ.boot._joy_setting_function) ∧
    (h ∈ joy_arming_handlers →
      (h.body σ).boot._joy_setting_function ≠ none ∧
      (h.body σ).boot._key_setting_function = σ.boot._key_setting_function ∧
      (h.body σ).boot._joy_axis_setting_function = σ.boot._joy_axis_setting_function) ∧
    (h ∈ key_arming_handlers ++ axis_arming_handlers ++ joy_arming_handlers →
      no_capture_pending σ.boot → at_most_one_pending (h.body σ).boot) := by
  refine ⟨?_, ?_, ?_, ?_⟩
  · intro hh
    simp only [key_arming_handlers, List.mem_cons, List.mem_singleton, List.not_mem_nil,
      or_false] at hh
    rcases hh with rfl | rfl | rfl | rfl | rfl | rfl | rfl | rfl <;>
      simp [Handler.body, _RedefineUpKey, _RedefineDownKey, _RedefineLeftKey, _RedefineRightKey,
        _RedefineConfirmKey, _RedefineCancelKey, _RedefineMenuKey, _RedefinePauseKey,
        _ShowMessageWindow_bool, _ShowMessageWindow, Sys.modifyBoot]
  · intro hh
    simp only [axis_arming_handlers, List.mem_cons, List.mem_singleton, List.not_mem_nil,
      or_false] at hh
    rcases hh with rfl | rfl <;>
      simp [Handler.body, _RedefineXAxisJoy, _RedefineYAxisJoy, _ShowMessageWindow, emit,
        Sys.modifyBoot]
  · intro hh
    simp only [joy_arming_handlers, List.mem_cons, List.mem_singleton, List.not_mem_nil,
      or_false] at hh
    rcases hh with rfl | rfl | rfl | rfl <;>
      simp [Handler.body, _RedefineConfirmJoy, _RedefineCancelJoy, _RedefineMenuJoy,
        _RedefinePauseJoy, _ShowMessageWindow_bool, _ShowMessageWindow, Sys.modifyBoot]
  · intro _ hp
    exact invoke_pending_body h σ hp

/-- C3 amended at a concrete input: `_RedefineUpKey` run on the sample boot
mode, where nothing is pending. -/
theorem C3_arming_sets_own_slot_only_witness :
    (_RedefineUpKey sample_sys).boot._key_setting_function ≠ none ∧
    (_RedefineUpKey sample_sys).boot._joy_setting_function = none ∧
    (_RedefineUpKey sample_sys).boot._joy_axis_setting_function = none :=
  (C3_arming_sets_own_slot_only .RedefineUpKey sample_sys).1 (by decide)

/-- C4: an `Update` call that gets past the new-game, intro and help-window
returns resolves a pending capture in three cases, tested in this order.  With
a joystick button setter pending, a key press whose raw event is a
joystick-button-down: the call makes exactly one call, that setter with the
button of the event, and afterwards `_joy_setting_function` is null,
`_has_modified_settings` is true and the key and axis pointers are as before.
With no button setter and an axis setter pending, a last-moved axis other than
-1: exactly that setter is called with the axis, `_joy_axis_setting_function`
is null, the flag is true and the other two pointers are as before.  With only
a key setter pending, a key press whose raw event is a key-down: exactly that
setter is called with the key, `_key_setting_function` is null, the flag is
true and the other two pointers are as before.  And in every `Update` call that
calls a binding setter at all, the flag is true afterwards, the pointer of that
binding is null and the other two are as before. -/
theorem C4_resolved_capture (f : Frame) (b : BootMode) (w : World) :
    (∀ fn, reaches_capture_check b w → b._joy_setting_function = some fn →
      f.AnyKeyPress = true → f.MostRecentEvent.type = SDL_JOYBUTTONDOWN →
      (run_Update f b w).trace = [.InputSet fn.binding f.MostRecentEvent.jbutton_button] ∧
      (run_Update f b w).boot._joy_setting_function = none ∧
      (run_Update f b w).boot._has_modified_settings = true ∧
      (run_Update f b w).boot._key_setting_function = b._key_setting_function ∧
      (run_Update f b w).boot._joy_axis_setting_function = b._joy_axis_setting_function) ∧
    (∀ fn, reaches_capture_check b w → b._joy_setting_function = none →
      b._joy_axis_setting_function = some fn → to_int8 f.LastAxisMoved ≠ -1 →
      (run_Update f b w).trace = [.InputSet fn.binding (to_int8 f.LastAxisMoved)] ∧
      (run_Update f b w).boot._joy_axis_setting_function = none ∧
      (run_Update f b w).boot._has_modified_settings = true ∧
      (run_Update f b w).boot._key_setting_function = b._key_setting_function ∧
      (run_Update f b w).boot._joy_setting_function = b._joy_setting_function) ∧
    (∀ fn, reaches_capture_check b w → b._joy_setting_function = none →
      b._joy_axis_setting_function = none → b._key_setting_function = some fn →
      f.AnyKeyPress = true → f.MostRecentEvent.type = SDL_KEYDOWN →
      (run_Update f b w).trace = [.InputSet fn.binding f.MostRecentEvent.key_keysym_sym] ∧
      (run_Update f b w).boot._key_setting_function = none ∧
      (run_Update f b w).boot._has_modified_settings = true ∧
      (run_Update f b w).boot._joy_setting_function = b._joy_setting_function ∧
      (run_Update f b w).boot._joy_axis_setting_function = b._joy_axis_setting_function) ∧
    (∀ bd v, Event.InputSet bd v ∈ (run_Update f b w).trace →
      (run_Update f b w).boot._has_modified_settings = true ∧
      match bd.slot with
      | some .key =>
          (run_Update f b w).boot._key_setting_function = none ∧
          (run_Update f b w).boot._joy_setting_function = b._joy_setting_function ∧
          (run_Update f b w).boot._joy_axis_setting_function = b._joy_axis_setting_function
      | some .joy_button =>
          (run_Update f b w).boot._joy_setting_function = none ∧
          (run_Update f b w).boot._key_setting_function = b._key_setting_function ∧
          (run_Update f b w).boot._joy_axis_setting_function = b._joy_axis_setting_function
      | some .joy_axis =>
          (run_Update f b w).boot._joy_axis_setting_function = none ∧
          (run_Update f b w).boot._key_setting_function = b._key_setting_function ∧
          (run_Update f b w).boot._joy_setting_function = b._joy_setting_function
      | none => False) := by
  unfold run_Update
  refine ⟨fun fn hreach hj hany htype => ?_, fun fn hreach hj ha hne => ?_,
    fun fn hreach hj ha hk hany htype => ?_, fun bd v h => ?_⟩
  · have hc : (f.AnyKeyPress && f.MostRecentEvent.type == SDL_JOYBUTTONDOWN) = true := by
      simp [hany, htype]
    rw [Update_joy f _ fn hreach hj, joy_capture_eq, if_pos hc]
    exact ⟨rfl, rfl, rfl, rfl, rfl⟩
  · rw [Update_joy_axis f _ fn hreach hj ha, joy_axis_capture_eq, if_pos hne]
    exact ⟨rfl, rfl, rfl, rfl, rfl⟩
  · have hc : (f.AnyKeyPress && f.MostRecentEvent.type == SDL_KEYDOWN) = true := by
      simp [hany, htype]
    rw [Update_key f _ fn hreach hj ha hk, key_capture_eq, if_pos hc]
    exact ⟨rfl, rfl, rfl, rfl, rfl⟩
  · obtain ⟨_, ⟨fn, _, hbd, _, hc, heq⟩ | ⟨_, fn, _, hbd, _, hc, heq⟩ |
      ⟨_, _, fn, _, hbd, _, hc, heq⟩⟩ := InputSet_in_Update f _ rfl bd v h
    · rw [heq, joy_capture_eq, if_pos hc, hbd]
      cases fn <;> exact ⟨rfl, rfl, rfl, rfl⟩
    · rw [heq, joy_axis_capture_eq, if_pos hc, hbd]
      cases fn <;> exact ⟨rfl, rfl, rfl, rfl⟩
    · rw [heq, key_capture_eq, if_pos hc, hbd]
      cases fn <;> exact ⟨rfl, rfl, rfl, rfl⟩

/-- C4 at concrete inputs.  In each of the three armed states reached from the
constructor, the matching raw event resolves the capture: joystick button 5
with the "confirm" button capture armed, axis 3 with the "x axis" capture
armed, key 119 with the "up" key capture armed.  With a button capture and a
key capture pending at once, joystick button 5 resolves the button capture and
the key capture stays pending.  The last part reads the same off the setter
call recorded by the first of these frames. -/
theorem C4_resolved_capture_witness :
    ((run_Update Frame.button_5_down sample_joy_armed sample_world).trace
        = [.InputSet .ConfirmJoy 5] ∧
      (run_Update Frame.button_5_down sample_joy_armed sample_world).boot._joy_setting_function
        = none ∧
      (run_Update Frame.button_5_down sample_joy_armed sample_world).boot._has_modified_settings
        = true ∧
      (run_Update Frame.button_5_down sample_joy_armed sample_world).boot._key_setting_function
        = none ∧
      (run_Update Frame.button_5_down sample_joy_armed
        sample_world).boot._joy_axis_setting_function = none) ∧
    ((run_Update Frame.axis_3_moved sample_axis_armed sample_world).trace
        = [.InputSet .XAxisJoy 3] ∧
      (run_Update Frame.axis_3_moved sample_axis_armed
        sample_world).boot._joy_axis_setting_function = none ∧
      (run_Update Frame.axis_3_moved sample_axis_armed sample_world).boot._has_modified_settings
        = true ∧
      (run_Update Frame.axis_3_moved sample_axis_armed sample_world).boot._key_setting_function
        = none ∧
      (run_Update Frame.axis_3_moved sample_axis_armed sample_world).boot._joy_setting_function
        = none) ∧
    ((run_Update Frame.key_119_down sample_key_armed sample_world).trace
        = [.InputSet .UpKey 119] ∧
      (run_Update Frame.key_119_down sample_key_armed sample_world).boot._key_setting_function
        = none ∧
      (run_Update Frame.key_119_down sample_key_armed sample_world).boot._has_modified_settings
        = true ∧
      (run_Update Frame.key_119_down sample_key_armed sample_world).boot._joy_setting_function
        = none ∧
      (run_Update Frame.key_119_down sample_key_armed
        sample_world).boot._joy_axis_setting_function = none) ∧
    ((run_Update Frame.button_5_down sample_two_pending sample_world).trace
        = [.InputSet .ConfirmJoy 5] ∧
      (run_Update Frame.button_5_down sample_two_pending sample_world).boot._joy_setting_function
        = none ∧
      (run_Update Frame.button_5_down sample_two_pending
        sample_world).boot._has_modified_settings = true ∧
      (run_Update Frame.button_5_down sample_two_pending sample_world).boot._key_setting_function
        = some .SetUpKey ∧
      (run_Update Frame.button_5_down sample_two_pending
        sample_world).boot._joy_axis_setting_function = none) ∧
    sample_joy_armed._has_modified_settings = false ∧
    ((run_Update Frame.button_5_down sample_joy_armed sample_world).boot._has_modified_settings
        = true ∧
      (run_Update Frame.button_5_down sample_joy_armed sample_world).boot._joy_setting_function
        = none) :=
  ⟨(C4_resolved_capture Frame.button_5_down sample_joy_armed sample_world).1
      .SetConfirmJoy ⟨rfl, rfl, rfl⟩ rfl rfl rfl,
   (C4_resolved_capture Frame.axis_3_moved sample_axis_armed sample_world).2.1
      .SetXAxisJoy ⟨rfl, rfl, rfl⟩ rfl rfl (by decide),
   (C4_resolved_capture Frame.key_119_down sample_key_armed sample_world).2.2.1
      .SetUpKey ⟨rfl, rfl, rfl⟩ rfl rfl rfl rfl rfl,
   (C4_resolved_capture Frame.button_5_down sample_two_pending sample_world).1
      .SetConfirmJoy ⟨rfl, rfl, rfl⟩ rfl rfl rfl,
   by decide,
   ⟨((C4_resolved_capture Frame.button_5_down sample_joy_armed sample_world).2.2.2
      .ConfirmJoy 5 (by decide)).1,
    ((C4_resolved_capture Frame.button_5_down sample_joy_armed sample_world).2.2.2
      .ConfirmJoy 5 (by decide)).2.1⟩⟩

/-- C5 fails as stated: with a key capture pending, a frame in which the cancel
key goes down (a key-down event together with a cancel press) rebinds "up" to
that key and sets the dirty flag; and with the help window active a cancel
press leaves the capture pending. -/
theorem C5_cancel_does_not_always_abort_counterexample :
    sample_key_pending._key_setting_function ≠ none ∧
    Frame.cancel_key_down.CancelPress = true ∧
    sample_key_pending._has_modified_settings = false ∧
    Event.InputSet .UpKey 100 ∈
      (run_Update Frame.cancel_key_down sample_key_pending sample_world).trace ∧
    (run_Update Frame.cancel_key_down sample_key_pending sample_world).world.keys.up = 100 ∧
    sample_world.keys.up = 273 ∧
    (run_Update Frame.cancel_key_down sample_key_pending sample_world).boot._has_modified_settings
      = true ∧
    (run_Update Frame.cancel_button_down sample_key_pending
      { sample_world with help_window := some true }).boot._key_setting_function
      = some .SetUpKey := by
  decide

/-- C5 amended: for every `Update` call that reaches the capture check (menu
state, not exiting to a new game, help window inactive) with a cancel press
reported and without the event that resolves the capture being serviced (no
key press whose raw event is a joystick-button-down for a pending button, no
moved axis for a pending axis, no key press whose raw event is a key-down for a
pending key), the capture is aborted: no call at all is made, so no binding
setter, the world and the dirty flag are as before, the serviced pointer is
null and the message window is hidden. -/
theorem C5_cancel_aborts_unresolved_capture (f : Frame) (b : BootMode) (w : World)
    (hreach : reaches_capture_check b w) (hcancel : f.CancelPress = true) :
    (∀ fn, b._joy_setting_function = some fn →
      (f.AnyKeyPress && f.MostRecentEvent.type == SDL_JOYBUTTONDOWN) = false →
      (run_Update f b w).trace = [] ∧ (run_Update f b w).world = w ∧
      (run_Update f b w).boot._has_modified_settings = b._has_modified_settings ∧
      (run_Update f b w).boot._joy_setting_function = none ∧
      (run_Update f b w).boot._message_window_shown = false) ∧
    (∀ fn, b._joy_setting_function = none → b._joy_axis_setting_function = some fn →
      to_int8 f.LastAxisMoved = -1 →
      (run_Update f b w).trace = [] ∧ (run_Update f b w).world = w ∧
      (run_Update f b w).boot._has_modified_settings = b._has_modified_settings ∧
      (run_Update f b w).boot._joy_axis_setting_function = none ∧
      (run_Update f b w).boot._message_window_shown = false) ∧
    (∀ fn, b._joy_setting_function = none → b._joy_axis_setting_function = none →
      b._key_setting_function = some fn →
      (f.AnyKeyPress && f.MostRecentEvent.type == SDL_KEYDOWN) = false →
      (run_Update f b w).trace = [] ∧ (run_Update f b w).world = w ∧
      (run_Update f b w).boot._has_modified_settings = b._has_modified_settings ∧
      (run_Update f b w).boot._key_setting_function = none ∧
      (run_Update f b w).boot._message_window_shown = false) := by
  refine ⟨fun fn hj hc => ?_, fun fn hj ha hc => ?_, fun fn hj ha hk hc => ?_⟩
  · unfold run_Update
    rw [Update_joy f _ fn hreach hj, joy_capture_eq, hc, hcancel]
    exact ⟨rfl, rfl, rfl, rfl, rfl⟩
  · unfold run_Update
    rw [Update_joy_axis f _ fn hreach hj ha, joy_axis_capture_eq, if_neg (by simpa using hc),
      if_pos hcancel]
    exact ⟨rfl, rfl, rfl, rfl, rfl⟩
  · unfold run_Update
    rw [Update_key f _ fn hreach hj ha hk, key_capture_eq, hc, hcancel]
    exact ⟨rfl, rfl, rfl, rfl, rfl⟩

/-- C5 amended at a concrete input: a key capture is pending and the joystick
button bound to cancel goes down. -/
theorem C5_cancel_aborts_unresolved_capture_witness :
    (run_Update Frame.cancel_button_down sample_key_pending sample_world).trace = [] ∧
    (run_Update Frame.cancel_button_down sample_key_pending
      sample_world).boot._key_setting_function = none :=
  have h := (C5_cancel_aborts_unresolved_capture Frame.cancel_button_down sample_key_pending
    sample_world ⟨rfl, rfl, rfl⟩ rfl).2.2 .SetUpKey rfl rfl rfl (by decide)
  ⟨h.1, h.2.2.2.1⟩

/-- C6: an `Update` call that starts in the menu state with the help window
inactive and some pending-capture pointer non-null leaves `_active_menu` as it
was, calls none of `Update`, `InputConfirm`, `InputLeft`, `InputRight`,
`InputUp`, `InputDown` on any menu, invokes no option handler and does not call
`SystemManager->ExitGame`, whatever the frame reports. -/
theorem C6_pending_capture_suspends_menu_input (f : Frame) (b : BootMode) (w : World)
    (hstate : b._boot_state = .BOOT_STATE_MENU) (hhelp : HelpWindow_IsActive w = false)
    (hpending : ¬ no_capture_pending b) :
    (run_Update f b w).boot._active_menu = b._active_menu ∧
    (∀ m c, Event.Menu m c ∉ (run_Update f b w).trace) ∧
    (∀ h, Event.Invoke h ∉ (run_Update f b w).trace) ∧
    Event.ExitGame ∉ (run_Update f b w).trace := by
  unfold run_Update
  rcases Update_cases f { boot := b, world := w, trace := [] } with
    ⟨_, heq⟩ | ⟨_, hs, _⟩ | ⟨_, _, hh, _⟩ | ⟨_, fn, _, heq⟩ |
    ⟨_, _, fn, _, heq⟩ | ⟨_, _, _, fn, _, heq⟩ | ⟨_, hp, _⟩
  · rw [heq]
    split <;> simp [emit]
  · simp only at hs
    rw [hstate] at hs
    cases hs
  · simp only at hh
    rw [hhelp] at hh
    cases hh
  · rw [heq, joy_capture_eq]
    split
    · simp
    · split <;> simp
  · rw [heq, joy_axis_capture_eq]
    split
    · simp
    · split <;> simp
  · rw [heq, key_capture_eq]
    split
    · simp
    · split <;> simp
  · exact absurd hp hpending

/-- C6 at a concrete input: a key capture is pending in the options menu and the
frame reports confirm, cancel and quit presses. -/
theorem C6_pending_capture_suspends_menu_input_witness :
    (run_Update { Frame.idle with ConfirmPress := true, CancelPress := true, QuitPress := true }
      { sample_key_pending with _active_menu := .options_menu } sample_world).boot._active_menu
      = .options_menu :=
  (C6_pending_capture_suspends_menu_input
    { Frame.idle with ConfirmPress := true, CancelPress := true, QuitPress := true }
    { sample_key_pending with _active_menu := .options_menu } sample_world rfl rfl
    (fun hp => absurd hp.1 (by decide))).1

/-- C7: `_SaveSettingsFile` called with `_has_modified_settings == false`
returns false and does nothing at all, for every file name: no call is made (no
existence check, copy, open, field write or commit), the world is as before and
the boot mode, its dirty flag included, is unchanged. -/
theorem C7_save_when_clean_does_nothing (filename : String) (b : BootMode) (w : World)
    (hclean : b._has_modified_settings = false) :
    (_SaveSettingsFile filename { boot := b, world := w, trace := [] }).1 = false ∧
    (_SaveSettingsFile filename { boot := b, world := w, trace := [] }).2.trace = [] ∧
    (_SaveSettingsFile filename { boot := b, world := w, trace := [] }).2.world = w ∧
    (_SaveSettingsFile filename { boot := b, world := w, trace := [] }).2.boot = b ∧
    (_SaveSettingsFile filename
      { boot := b, world := w, trace := [] }).2.boot._has_modified_settings = false := by
  simp [_SaveSettingsFile, hclean]

/-- C7 at a concrete input: the clean sample boot mode saving to "settings.lua". -/
theorem C7_save_when_clean_does_nothing_witness :
    (_SaveSettingsFile "settings.lua" sample_sys).1 = false ∧
    (_SaveSettingsFile "settings.lua" sample_sys).2.trace = [] :=
  ⟨(C7_save_when_clean_does_nothing "settings.lua" sample_boot sample_world rfl).1,
   (C7_save_when_clean_does_nothing "settings.lua" sample_boot sample_world rfl).2.1⟩

/-- C9, the code at a failing input: the dirty flag is false, the screen is
640 x 480 and the settings file stores a width of 800; `_LoadSettingsFile`
returns true and leaves `_has_modified_settings` true.  The same happens when
only the full-screen flag differs from the stored one. -/
theorem C9_load_marks_settings_dirty :
    sample_sys.boot._has_modified_settings = false ∧
    (_LoadSettingsFile "user/settings.lua" sample_sys).1 = true ∧
    (_LoadSettingsFile "user/settings.lua" sample_sys).2.boot._has_modified_settings = true ∧
    Event.SetResolution 800 600 ∈ (_LoadSettingsFile "user/settings.lua" sample_sys).2.trace ∧
    (_LoadSettingsFile "user/settings.lua"
      { boot := sample_boot, world := sample_world_fullscreen, trace := [] }).1 = true ∧
    (_LoadSettingsFile "user/settings.lua"
      { boot := sample_boot, world := sample_world_fullscreen,
        trace := [] }).2.boot._has_modified_settings = true := by
  decide

/-- C10 fails as stated: with the help window active, an `Update` call in an
idle frame invokes no handler and resolves no capture, yet starting from a
clean flag it runs the file operations of `_SaveSettingsFile` (here up to the
commit); and when the settings file cannot be opened the dirty flag is true
after the call. -/
theorem C10_help_window_branch_saves_counterexample :
    sample_boot._has_modified_settings = false ∧
    (∀ h, Event.Invoke h ∉ (run_Update Frame.idle sample_boot sample_world_help).trace) ∧
    (∀ bd v, Event.InputSet bd v ∉ (run_Update Frame.idle sample_boot sample_world_help).trace) ∧
    Event.OpenFile "user/settings.lua" ∈
      (run_Update Frame.idle sample_boot sample_world_help).trace ∧
    Event.Modify "settings.first_start" (.int 0) ∈
      (run_Update Frame.idle sample_boot sample_world_help).trace ∧
    Event.CommitChanges ∈ (run_Update Frame.idle sample_boot sample_world_help).trace ∧
    (run_Update Frame.idle sample_boot
      sample_world_help_no_file).boot._has_modified_settings = true := by
  refine ⟨by decide, ?_, ?_, by decide, by decide, by decide, by decide⟩
  · intro h hmem
    have heq := Update_help Frame.idle
      { boot := sample_boot, world := sample_world_help, trace := [] } rfl rfl rfl
    unfold run_Update at hmem
    rw [heq] at hmem
    have := (help_window_trace Frame.idle _).2 _ hmem
    simp [Event.isHelpWindowEffect, Event.isFileOperation] at this
  · intro bd v hmem
    have heq := Update_help Frame.idle
      { boot := sample_boot, world := sample_world_help, trace := [] } rfl rfl rfl
    unfold run_Update at hmem
    rw [heq] at hmem
    have := (help_window_trace Frame.idle _).2 _ hmem
    simp [Event.isHelpWindowEffect, Event.isFileOperation] at this

/-! ### Reading a settings file -/

theorem lookup_filter_ne {α : Type} (k p : String) (l : List (String × α)) (h : k ≠ p) :
    List.lookup k (l.filter (fun f => f.1 != p)) = List.lookup k l := by
  induction l with
  | nil => rfl
  | cons x xs ih =>
      obtain ⟨a, v⟩ := x
      by_cases hap : a = p
      · subst hap
        have hka : (k == a) = false := by simpa using h
        simp [List.filter, List.lookup, hka, ih]
      · have hap' : (a != p) = true := by simpa using hap
        simp only [List.filter, hap', List.lookup]
        cases hk : (k == a) <;> simp [ih]

theorem lookup_modified_eq {α : Type} (p : String) (v : α) (l : List (String × α)) :
    List.lookup p ((p, v) :: l.filter (fun f => f.1 != p)) = some v := by
  simp [List.lookup]

theorem lookup_modified_ne {α : Type} (k p : String) (v : α) (l : List (String × α))
    (h : k ≠ p) :
    List.lookup k ((p, v) :: l.filter (fun f => f.1 != p)) = List.lookup k l := by
  have hk : (k == p) = false := by simpa using h
  simp [List.lookup, hk, lookup_filter_ne k p l h]

theorem ReadInt_of_lookup (d : ScriptDescriptor) (key : String) (v : Int)
    (h : d.script.lookup (d.path key) = some (.int v)) : d.ReadInt key = (v, d) := by
  simp [ScriptDescriptor.ReadInt, h]

theorem ReadBool_of_lookup (d : ScriptDescriptor) (key : String) (v : Bool)
    (h : d.script.lookup (d.path key) = some (.bool v)) : d.ReadBool key = (v, d) := by
  simp [ScriptDescriptor.ReadBool, h]

theorem ReadFloat_of_lookup (d : ScriptDescriptor) (key : String) (v : F32)
    (h : d.script.lookup (d.path key) = some (.float v)) : d.ReadFloat key = (v, d) := by
  simp [ScriptDescriptor.ReadFloat, h]

theorem ReadString_of_lookup (d : ScriptDescriptor) (key : String) (v : String)
    (h : d.script.lookup (d.path key) = some (.str v)) : d.ReadString key = (v, d) := by
  simp [ScriptDescriptor.ReadString, h]

theorem ReadInt_file (d : ScriptDescriptor) (key : String) :
    (d.ReadInt key).2.script = d.script ∧ (d.ReadInt key).2.open_tables = d.open_tables ∧
    (d.ReadInt key).2.filename = d.filename ∧
    (d.error = true → (d.ReadInt key).2.error = true) := by
  unfold ScriptDescriptor.ReadInt
  split <;> simp

theorem ReadBool_file (d : ScriptDescriptor) (key : String) :
    (d.ReadBool key).2.script = d.script ∧ (d.ReadBool key).2.open_tables = d.open_tables ∧
    (d.ReadBool key).2.filename = d.filename ∧
    (d.error = true → (d.ReadBool key).2.error = true) := by
  unfold ScriptDescriptor.ReadBool
  split <;> simp

theorem ReadFloat_file (d : ScriptDescriptor) (key : String) :
    (d.ReadFloat key).2.script = d.script ∧ (d.ReadFloat key).2.open_tables = d.open_tables ∧
    (d.ReadFloat key).2.filename = d.filename ∧
    (d.error = true → (d.ReadFloat key).2.error = true) := by
  unfold ScriptDescriptor.ReadFloat
  split <;> simp

theorem ReadString_file (d : ScriptDescriptor) (key : String) :
    (d.ReadString key).2.script = d.script ∧
    (d.ReadString key).2.open_tables = d.open_tables ∧
    (d.ReadString key).2.filename = d.filename ∧
    (d.error = true → (d.ReadString key).2.error = true) := by
  unfold ScriptDescriptor.ReadString
  split <;> simp

theorem setBinding_joystick (w : World) (b : Binding) (v : Int) (hb : b.slot ≠ some .key) :
    (w.setBinding b v).key_video_audio = w.key_video_audio := by
  cases b <;> first | rfl | exact absurd rfl hb

theorem load_binding_joystick (b : Binding) (key : String) (cast : Int → Int)
    (dσ : ScriptDescriptor × Sys) (hb : b.slot ≠ some .key) :
    (load_binding b key cast dσ).1.script = dσ.1.script ∧
    (load_binding b key cast dσ).1.open_tables = dσ.1.open_tables ∧
    (load_binding b key cast dσ).2.boot = dσ.2.boot ∧
    (load_binding b key cast dσ).2.world.key_video_audio = dσ.2.world.key_video_audio :=
  ⟨(ReadInt_file _ _).1, (ReadInt_file _ _).2.1, rfl, setBinding_joystick _ _ _ hb⟩

theorem load_binding_script (b : Binding) (key : String) (cast : Int → Int)
    (dσ : ScriptDescriptor × Sys) :
    (load_binding b key cast dσ).1.script = dσ.1.script := (ReadInt_file _ _).1

theorem load_binding_open_tables (b : Binding) (key : String) (cast : Int → Int)
    (dσ : ScriptDescriptor × Sys) :
    (load_binding b key cast dσ).1.open_tables = dσ.1.open_tables := (ReadInt_file _ _).2.1

theorem load_binding_boot (b : Binding) (key : String) (cast : Int → Int)
    (dσ : ScriptDescriptor × Sys) :
    (load_binding b key cast dσ).2.boot = dσ.2.boot := rfl

theorem load_binding_key_video_audio (b : Binding) (key : String) (cast : Int → Int)
    (dσ : ScriptDescriptor × Sys) (hb : b.slot ≠ some .key) :
    (load_binding b key cast dσ).2.world.key_video_audio = dσ.2.world.key_video_audio :=
  setBinding_joystick _ _ _ hb

/-- The joystick block leaves the script, the open tables, the boot mode and the
keys, video and audio state as they are. -/
theorem load_joystick_settings_frame (dσ : ScriptDescriptor × Sys) :
    (load_joystick_settings dσ).1.script = dσ.1.script ∧
    (load_joystick_settings dσ).1.open_tables = dσ.1.open_tables ∧
    (load_joystick_settings dσ).2.boot = dσ.2.boot ∧
    (load_joystick_settings dσ).2.world.key_video_audio = dσ.2.world.key_video_audio := by
  simp only [load_joystick_settings]
  split_ifs <;>
    simp [load_binding_script, load_binding_open_tables, load_binding_boot,
      load_binding_key_video_audio, Binding.slot, ScriptDescriptor.CloseTable,
      ScriptDescriptor.OpenTable, (ReadBool_file _ _).1, (ReadBool_file _ _).2.1, emit]

/-! ### The content of a saved settings file -/

theorem save_fields_script (d : ScriptDescriptor) (σ : Sys) (h : d.open_tables = []) :
    (save_fields (d, σ)).1.script = saved_script σ.world d.script := by
  simp only [save_fields, saved_script, ScriptDescriptor.Modify, ScriptDescriptor.path,
    ScriptDescriptor.OpenTable, h]

theorem saved_script_lookup (w : World) (old : Script) :
    (saved_script w old).lookup "settings.first_start" = some (.int 0) ∧
    (saved_script w old).lookup "settings.language" = some (.str w.language) ∧
    (saved_script w old).lookup "settings.video_settings.screen_resx"
      = some (.int w.screen_width) ∧
    (saved_script w old).lookup "settings.video_settings.screen_resy"
      = some (.int w.screen_height) ∧
    (saved_script w old).lookup "settings.video_settings.full_screen"
      = some (.bool w.fullscreen) ∧
    (saved_script w old).lookup "settings.video_settings.smooth_graphics"
      = some (.bool w.smooth_pixel_art) ∧
    (saved_script w old).lookup "settings.audio_settings.music_vol"
      = some (.float w.music_volume) ∧
    (saved_script w old).lookup "settings.audio_settings.sound_vol"
      = some (.float w.sound_volume) := by
  simp only [saved_script, save_fields, ScriptDescriptor.Modify, ScriptDescriptor.path,
    ScriptDescriptor.OpenTable, List.nil_append, List.cons_append, String.intercalate,
    String.intercalate.go, String.reduceAppend, lookup_modified_eq, lookup_modified_ne, ne_eq,
    String.reduceEq, not_false_eq_true, and_self]

theorem saved_script_lookup_keys (w : World) (old : Script) :
    (saved_script w old).lookup "settings.key_settings.up" = some (.int w.keys.up) ∧
    (saved_script w old).lookup "settings.key_settings.down" = some (.int w.keys.down) ∧
    (saved_script w old).lookup "settings.key_settings.left" = some (.int w.keys.left) ∧
    (saved_script w old).lookup "settings.key_settings.right" = some (.int w.keys.right) ∧
    (saved_script w old).lookup "settings.key_settings.confirm"
      = some (.int w.keys.confirm) ∧
    (saved_script w old).lookup "settings.key_settings.cancel" = some (.int w.keys.cancel) ∧
    (saved_script w old).lookup "settings.key_settings.menu" = some (.int w.keys.menu) ∧
    (saved_script w old).lookup "settings.key_settings.pause" = some (.int w.keys.pause) := by
  simp only [saved_script, save_fields, ScriptDescriptor.Modify, ScriptDescriptor.path,
    ScriptDescriptor.OpenTable, List.nil_append, List.cons_append, String.intercalate,
    String.intercalate.go, String.reduceAppend, lookup_modified_eq, lookup_modified_ne, ne_eq,
    String.reduceEq, not_false_eq_true, and_self, InputManager_Get]

theorem saved_script_lookup_joystick (w : World) (old : Script) :
    (saved_script w old).lookup "settings.joystick_settings.x_axis"
      = some (.int w.x_axis_joy) ∧
    (saved_script w old).lookup "settings.joystick_settings.y_axis"
      = some (.int w.y_axis_joy) ∧
    (saved_script w old).lookup "settings.joystick_settings.confirm"
      = some (.int w.joy_buttons.confirm) ∧
    (saved_script w old).lookup "settings.joystick_settings.cancel"
      = some (.int w.joy_buttons.cancel) ∧
    (saved_script w old).lookup "settings.joystick_settings.menu"
      = some (.int w.joy_buttons.menu) ∧
    (saved_script w old).lookup "settings.joystick_settings.pause"
      = some (.int w.joy_buttons.pause) := by
  simp only [saved_script, save_fields, ScriptDescriptor.Modify, ScriptDescriptor.path,
    ScriptDescriptor.OpenTable, List.nil_append, List.cons_append, String.intercalate,
    String.intercalate.go, String.reduceAppend, lookup_modified_eq, lookup_modified_ne, ne_eq,
    String.reduceEq, not_false_eq_true, and_self, InputManager_Get]

/-! ### Loading a file that `_SaveSettingsFile` wrote -/

theorem load_key_settings_saved (w : World) (old : Script) (d : ScriptDescriptor) (σ : Sys)
    (hs : d.script = saved_script w old) (ht : d.open_tables = ["settings"]) :
    (load_key_settings (d, σ)).1 = d ∧
    (load_key_settings (d, σ)).2.boot = σ.boot ∧
    (load_key_settings (d, σ)).2.world = { σ.world with keys := w.keys } := by
  have hl := saved_script_lookup_keys w old
  have hpath : ∀ key, (d.OpenTable "key_settings").path key = "settings.key_settings." ++ key := by
    intro key
    simp [ScriptDescriptor.path, ScriptDescriptor.OpenTable, ht, String.intercalate,
      String.intercalate.go]
  have hread : ∀ key v, (saved_script w old).lookup ("settings.key_settings." ++ key)
      = some (.int v) →
      (d.OpenTable "key_settings").ReadInt key = (v, d.OpenTable "key_settings") := by
    intro key v h
    apply ReadInt_of_lookup
    rw [hpath]
    simpa [ScriptDescriptor.OpenTable, hs] using h
  have hclose : (d.OpenTable "key_settings").CloseTable = d := by
    cases d
    simp only [ScriptDescriptor.OpenTable, ScriptDescriptor.CloseTable] at ht ⊢
    simp [ht]
  simp only [load_key_settings, load_binding, hread "up" _ hl.1, hread "down" _ hl.2.1,
    hread "left" _ hl.2.2.1, hread "right" _ hl.2.2.2.1, hread "confirm" _ hl.2.2.2.2.1,
    hread "cancel" _ hl.2.2.2.2.2.1, hread "menu" _ hl.2.2.2.2.2.2.1,
    hread "pause" _ hl.2.2.2.2.2.2.2, hclose]
  refine ⟨trivial, rfl, ?_⟩
  simp [InputManager_Set, emit, World.setBinding]

theorem load_video_settings_saved (w : World) (old : Script) (d : ScriptDescriptor) (σ : Sys)
    (hs : d.script = saved_script w old) (ht : d.open_tables = ["settings"])
    (hw : is_preset w.screen_width w.screen_height)
    (hσ : is_preset σ.world.screen_width σ.world.screen_height) :
    (load_video_settings (d, σ)).1 = d ∧
    (load_video_settings (d, σ)).2.world.keys = σ.world.keys ∧
    (load_video_settings (d, σ)).2.world.screen_width = w.screen_width ∧
    (load_video_settings (d, σ)).2.world.screen_height = w.screen_height ∧
    (load_video_settings (d, σ)).2.world.fullscreen = w.fullscreen ∧
    (load_video_settings (d, σ)).2.world.music_volume = σ.world.music_volume ∧
    (load_video_settings (d, σ)).2.world.sound_volume = σ.world.sound_volume ∧
    (load_video_settings (d, σ)).2.world.AUDIO_ENABLE = σ.world.AUDIO_ENABLE := by
  have hl := saved_script_lookup w old
  have hpath : ∀ key,
      (d.OpenTable "video_settings").path key = "settings.video_settings." ++ key := by
    intro key
    simp [ScriptDescriptor.path, ScriptDescriptor.OpenTable, ht, String.intercalate,
      String.intercalate.go]
  have hfs : (d.OpenTable "video_settings").ReadBool "full_screen"
      = (w.fullscreen, d.OpenTable "video_settings") := by
    apply ReadBool_of_lookup
    rw [hpath]
    simpa [ScriptDescriptor.OpenTable, hs] using hl.2.2.2.2.1
  have hsm : (d.OpenTable "video_settings").ReadBool "smooth_graphics"
      = (w.smooth_pixel_art, d.OpenTable "video_settings") := by
    apply ReadBool_of_lookup
    rw [hpath]
    simpa [ScriptDescriptor.OpenTable, hs] using hl.2.2.2.2.2.1
  have hrx : (d.OpenTable "video_settings").ReadInt "screen_resx"
      = (w.screen_width, d.OpenTable "video_settings") := by
    apply ReadInt_of_lookup
    rw [hpath]
    simpa [ScriptDescriptor.OpenTable, hs] using hl.2.2.1
  have hclose : (d.OpenTable "video_settings").CloseTable = d := by
    cases d
    simp only [ScriptDescriptor.OpenTable, ScriptDescriptor.CloseTable] at ht ⊢
    simp [ht]
  simp only [load_video_settings, hfs, hsm, hrx, hclose]
  rcases hw with ⟨h1, h2⟩ | ⟨h1, h2⟩ | ⟨h1, h2⟩ | ⟨h1, h2⟩ <;>
    rcases hσ with ⟨h3, h4⟩ | ⟨h3, h4⟩ | ⟨h3, h4⟩ | ⟨h3, h4⟩ <;>
    cases hf : w.fullscreen <;> cases hg : σ.world.fullscreen <;>
    simp [h1, h2, h3, h4, hf, hg, _OnResolution640x480, _OnResolution800x600,
      _OnResolution1024x768, _OnResolution1280x1024, _ChangeResolution, _OnToggleFullscreen,
      VideoManager_SetResolution, VideoManager_ApplySettings, VideoManager_ToggleFullscreen,
      VideoManager_SetPixelArtSmoothed, _RefreshVideoOptions, emit, Sys.modifyBoot]

theorem load_audio_settings_saved (w : World) (old : Script) (d : ScriptDescriptor) (σ : Sys)
    (hs : d.script = saved_script w old) (ht : d.open_tables = ["settings"])
    (ha : σ.world.AUDIO_ENABLE = true) :
    (load_audio_settings (d, σ)).1.error = d.error ∧
    (load_audio_settings (d, σ)).2.world.keys = σ.world.keys ∧
    (load_audio_settings (d, σ)).2.world.screen_width = σ.world.screen_width ∧
    (load_audio_settings (d, σ)).2.world.screen_height = σ.world.screen_height ∧
    (load_audio_settings (d, σ)).2.world.fullscreen = σ.world.fullscreen ∧
    (load_audio_settings (d, σ)).2.world.music_volume = w.music_volume ∧
    (load_audio_settings (d, σ)).2.world.sound_volume = w.sound_volume := by
  have hl := saved_script_lookup w old
  have hpath : ∀ key,
      (d.OpenTable "audio_settings").path key = "settings.audio_settings." ++ key := by
    intro key
    simp [ScriptDescriptor.path, ScriptDescriptor.OpenTable, ht, String.intercalate,
      String.intercalate.go]
  have hmusic : (d.OpenTable "audio_settings").ReadFloat "music_vol"
      = (w.music_volume, d.OpenTable "audio_settings") := by
    apply ReadFloat_of_lookup
    rw [hpath]
    simpa [ScriptDescriptor.OpenTable, hs] using hl.2.2.2.2.2.2.1
  have hsound : (d.OpenTable "audio_settings").ReadFloat "sound_vol"
      = (w.sound_volume, d.OpenTable "audio_settings") := by
    apply ReadFloat_of_lookup
    rw [hpath]
    simpa [ScriptDescriptor.OpenTable, hs] using hl.2.2.2.2.2.2.2
  simp only [load_audio_settings, ha, if_true, hmusic, hsound]
  simp [AudioManager_SetMusicVolume, AudioManager_SetSoundVolume, emit,
    ScriptDescriptor.CloseAllTables, ScriptDescriptor.OpenTable]

theorem LoadSettingsFile_of_open (filename : String) (σ σ₁ : Sys) (d : ScriptDescriptor)
    (hopen : ScriptDescriptor_OpenFile filename σ = (some d, σ₁)) :
    _LoadSettingsFile filename σ =
      if (load_language_and_keys d σ₁).1.error = true then
        (false, ScriptDescriptor_CloseFile (load_language_and_keys d σ₁).2)
      else if (load_joystick_settings (load_language_and_keys d σ₁)).1.error = true then
        (false, ScriptDescriptor_CloseFile
          (load_joystick_settings (load_language_and_keys d σ₁)).2)
      else if (load_video_settings
          (load_joystick_settings (load_language_and_keys d σ₁))).1.error = true then
        (false, ScriptDescriptor_CloseFile (load_video_settings
          (load_joystick_settings (load_language_and_keys d σ₁))).2)
      else if (load_audio_settings (load_video_settings
          (load_joystick_settings (load_language_and_keys d σ₁)))).1.error = true then
        (false, ScriptDescriptor_CloseFile (load_audio_settings (load_video_settings
          (load_joystick_settings (load_language_and_keys d σ₁)))).2)
      else
        (true, ScriptDescriptor_CloseFile (load_audio_settings (load_video_settings
          (load_joystick_settings (load_language_and_keys d σ₁)))).2) := by
  unfold _LoadSettingsFile
  rw [hopen]
  unfold load_language_and_keys ScriptDescriptor.IsErrorDetected
  dsimp only

theorem LoadSettingsFile_of_not_open (filename : String) (σ σ₁ : Sys)
    (hopen : ScriptDescriptor_OpenFile filename σ = (none, σ₁)) :
    _LoadSettingsFile filename σ = (false, σ₁) := by
  unfold _LoadSettingsFile
  rw [hopen]

/-! ### What `_SaveSettingsFile` writes -/

theorem saved_script_files (w : World) (fs : List (String × Script)) (old : Script) :
    saved_script { w with files := fs } old = saved_script w old := by
  simp only [saved_script, save_fields, ScriptDescriptor.Modify, InputManager_Get]

theorem save_fields_filename (dσ : ScriptDescriptor × Sys) :
    (save_fields dσ).1.filename = dσ.1.filename := by
  simp only [save_fields, ScriptDescriptor.Modify, ScriptDescriptor.OpenTable]

theorem pre_open_world (file : String) (σ : Sys) :
    ∃ fs, (if (!(DoesFileExist file σ).1) = true then
        CopyFile "dat/config/settings.lua" file (DoesFileExist file σ).2
      else (DoesFileExist file σ).2).world = { σ.world with files := fs } := by
  split
  · unfold CopyFile
    simp only [DoesFileExist, emit]
    split
    · exact ⟨_, rfl⟩
    · exact ⟨σ.world.files, rfl⟩
  · exact ⟨σ.world.files, rfl⟩

theorem OpenFile_some (filename : String) (σ σ' : Sys) (d : ScriptDescriptor)
    (h : ScriptDescriptor_OpenFile filename σ = (some d, σ')) :
    ∃ content, σ.world.files.lookup filename = some content ∧
      filename ∉ σ.world.unreadable ∧
      d = { filename := filename, script := content, open_tables := [], error := false } ∧
      σ' = emit (.OpenFile filename) σ := by
  unfold ScriptDescriptor_OpenFile at h
  simp only [emit] at h
  split at h
  · rename_i content hl
    split at h
    · simp at h
    · rename_i hr
      simp only [Prod.mk.injEq, Option.some.injEq] at h
      exact ⟨content, hl, hr, h.1.symm, h.2.symm⟩
  · simp at h

theorem OpenFile_of_lookup (filename : String) (σ : Sys) (content : Script)
    (hl : σ.world.files.lookup filename = some content) (hr : filename ∉ σ.world.unreadable) :
    ScriptDescriptor_OpenFile filename σ =
      (some { filename := filename, script := content, open_tables := [], error := false },
       emit (.OpenFile filename) σ) := by
  unfold ScriptDescriptor_OpenFile
  simp only [emit] at hl hr ⊢
  simp [hl, hr]

theorem OpenFile_none_of_unreadable (filename : String) (σ : Sys)
    (hr : filename ∈ σ.world.unreadable) : (ScriptDescriptor_OpenFile filename σ).1 = none := by
  unfold ScriptDescriptor_OpenFile
  simp only [emit]
  split
  · simp [hr]
  · rfl

theorem SaveSettingsFile_written (filename : String) (b : BootMode) (w : World)
    (hdirty : b._has_modified_settings = true)
    (hsave : (_SaveSettingsFile filename { boot := b, world := w, trace := [] }).1 = true)
    (hwritable : saved_file_path filename w ∉ w.unwritable) :
    ∃ old, (_SaveSettingsFile filename { boot := b, world := w, trace := [] }).2.world.files.lookup
      (saved_file_path filename w) = some (saved_script w old) := by
  unfold _SaveSettingsFile at hsave ⊢
  simp only [hdirty, Bool.not_true, Bool.false_eq_true, if_false] at hsave ⊢
  have hfile : (if filename = "" then w.user_data_path false ++ "/settings.lua"
    else w.user_data_path false ++ "/" ++ filename) = saved_file_path filename w := rfl
  rw [hfile] at hsave ⊢
  generalize saved_file_path filename w = file at hsave hwritable ⊢
  obtain ⟨fs, hpre_world⟩ := pre_open_world file { boot := b, world := w, trace := [] }
  generalize (if (!(DoesFileExist file { boot := b, world := w, trace := [] }).1) = true then
      CopyFile "dat/config/settings.lua" file
        (DoesFileExist file { boot := b, world := w, trace := [] }).2
    else (DoesFileExist file { boot := b, world := w, trace := [] }).2) = pre
    at hpre_world hsave ⊢
  rcases hres : ScriptDescriptor_OpenFile file pre with ⟨o, σ'⟩
  rw [hres] at hsave
  cases o with
  | none => simp at hsave
  | some d =>
      obtain ⟨content, _, _, hd, hσ'⟩ := OpenFile_some file pre σ' d hres
      refine ⟨content, ?_⟩
      have hscript : (save_fields (d, σ')).1.script = saved_script w content := by
        rw [save_fields_script d σ' (by rw [hd]), hσ', hd]
        simp only [emit, hpre_world]
        exact saved_script_files w fs content
      have hname : (save_fields (d, σ')).1.filename = file := by
        rw [save_fields_filename, hd]
      have hworld : (save_fields (d, σ')).2.world = { w with files := fs } := by
        rw [(save_fields_boot _).2, hσ']
        simpa [emit] using hpre_world
      simp only [Sys.modifyBoot, ScriptDescriptor_CloseFile, emit,
        ScriptDescriptor.CommitChanges, hname, hworld, hwritable, if_false, hscript]
      exact lookup_modified_eq _ _ _

/-- C11, the code at failing inputs.  The screen is 1280 x 768 and the file
stores a width of 1024: `_LoadSettingsFile` returns true, selects row 2 of the
resolution menu and leaves the screen at 1280 x 768, because
`_OnResolution1024x768` only acts when the width and the height both differ.
The screen is 800 x 480 and the file stores a width of 1920, none of the
presets: the load selects row 0 and leaves the screen at 800 x 480. -/
theorem C11_load_keeps_resolution_sharing_a_dimension :
    (_LoadSettingsFile "user/settings.lua"
      { boot := sample_boot, world := sample_world_1280x768, trace := [] }).1 = true ∧
    (_LoadSettingsFile "user/settings.lua"
      { boot := sample_boot, world := sample_world_1280x768,
        trace := [] }).2.boot._resolution_menu.GetSelection = 2 ∧
    (_LoadSettingsFile "user/settings.lua"
      { boot := sample_boot, world := sample_world_1280x768,
        trace := [] }).2.world.screen_width = 1280 ∧
    (_LoadSettingsFile "user/settings.lua"
      { boot := sample_boot, world := sample_world_1280x768,
        trace := [] }).2.world.screen_height = 768 ∧
    (_LoadSettingsFile "user/settings.lua"
      { boot := sample_boot, world := sample_world_800x480, trace := [] }).1 = true ∧
    (_LoadSettingsFile "user/settings.lua"
      { boot := sample_boot, world := sample_world_800x480,
        trace := [] }).2.boot._resolution_menu.GetSelection = 0 ∧
    (_LoadSettingsFile "user/settings.lua"
      { boot := sample_boot, world := sample_world_800x480,
        trace := [] }).2.world.screen_width = 800 ∧
    (_LoadSettingsFile "user/settings.lua"
      { boot := sample_boot, world := sample_world_800x480,
        trace := [] }).2.world.screen_height = 480 := by
  decide

/-! ### Loading the file that was saved -/

theorem load_language_and_keys_saved (w : World) (old : Script) (d : ScriptDescriptor) (σ : Sys)
    (hs : d.script = saved_script w old) (ht : d.open_tables = []) :
    (load_language_and_keys d σ).1 = d.OpenTable "settings" ∧
    (load_language_and_keys d σ).2.boot = σ.boot ∧
    (load_language_and_keys d σ).2.world =
      { σ.world with language := w.language, keys := w.keys } := by
  have hread : (d.OpenTable "settings").ReadString "language"
      = (w.language, d.OpenTable "settings") := by
    apply ReadString_of_lookup
    have hpath : (d.OpenTable "settings").path "language" = "settings.language" := by
      simp [ScriptDescriptor.path, ScriptDescriptor.OpenTable, ht, String.intercalate,
        String.intercalate.go]
    rw [hpath]
    simpa [ScriptDescriptor.OpenTable, hs] using (saved_script_lookup w old).2.1
  have hk := load_key_settings_saved w old (d.OpenTable "settings")
    (SystemManager_SetLanguage w.language σ) (by simpa [ScriptDescriptor.OpenTable] using hs)
    (by simp [ScriptDescriptor.OpenTable, ht])
  simp only [load_language_and_keys, hread]
  exact ⟨hk.1, hk.2.1, hk.2.2⟩

theorem LoadSettingsFile_saved (path : String) (w : World) (old : Script) (σ : Sys)
    (hfile : σ.world.files.lookup path = some (saved_script w old))
    (hw : is_preset w.screen_width w.screen_height)
    (hσ : is_preset σ.world.screen_width σ.world.screen_height)
    (ha : σ.world.AUDIO_ENABLE = true)
    (hload : (_LoadSettingsFile path σ).1 = true) :
    (_LoadSettingsFile path σ).2.world.keys = w.keys ∧
    (_LoadSettingsFile path σ).2.world.screen_width = w.screen_width ∧
    (_LoadSettingsFile path σ).2.world.screen_height = w.screen_height ∧
    (_LoadSettingsFile path σ).2.world.fullscreen = w.fullscreen ∧
    (_LoadSettingsFile path σ).2.world.music_volume = w.music_volume ∧
    (_LoadSettingsFile path σ).2.world.sound_volume = w.sound_volume := by
  by_cases hr : path ∈ σ.world.unreadable
  · exfalso
    have hnone := OpenFile_none_of_unreadable path σ hr
    rcases hres : ScriptDescriptor_OpenFile path σ with ⟨o, σ'⟩
    rw [hres] at hnone
    simp only at hnone
    subst hnone
    rw [LoadSettingsFile_of_not_open path σ σ' hres] at hload
    simp at hload
  · have hopen := OpenFile_of_lookup path σ _ hfile hr
    rw [LoadSettingsFile_of_open path σ _ _ hopen] at hload ⊢
    obtain ⟨hlk1, -, hlk3⟩ := load_language_and_keys_saved w old
      { filename := path, script := saved_script w old, open_tables := [], error := false }
      (emit (.OpenFile path) σ) rfl rfl
    generalize load_language_and_keys
      { filename := path, script := saved_script w old, open_tables := [], error := false }
      (emit (.OpenFile path) σ) = lk at hload hlk1 hlk3 ⊢
    obtain ⟨hj1, hj2, -, hj4⟩ := load_joystick_settings_frame lk
    generalize load_joystick_settings lk = jy at hload hj1 hj2 hj4 ⊢
    have hjs : jy.1.script = saved_script w old := by rw [hj1, hlk1]; rfl
    have hjt : jy.1.open_tables = ["settings"] := by rw [hj2, hlk1]; rfl
    simp only [World.key_video_audio, hlk3, emit, Prod.mk.injEq] at hj4
    obtain ⟨hjk, hjw, hjh, -, -, -, -, hja⟩ := hj4
    obtain ⟨hv1, hvk, hvw, hvh, hvf, -, -, hva⟩ := load_video_settings_saved w old jy.1 jy.2
      hjs hjt hw (by rw [hjw, hjh]; exact hσ)
    generalize hvd : load_video_settings jy = vd at hload ⊢
    have hvd' : load_video_settings (jy.1, jy.2) = vd := hvd
    rw [hvd'] at hv1 hvk hvw hvh hvf hva
    obtain ⟨-, hak, haw, hah, haf, ham, has⟩ := load_audio_settings_saved w old vd.1 vd.2
      (by rw [hv1]; exact hjs) (by rw [hv1]; exact hjt) (by rw [hva, hja]; exact ha)
    generalize had : load_audio_settings vd = ad at hload ⊢
    have had' : load_audio_settings (vd.1, vd.2) = ad := had
    rw [had'] at hak haw hah haf ham has
    split_ifs at hload ⊢
    simp only [ScriptDescriptor_CloseFile, emit]
    exact ⟨by rw [hak, hvk, hjk], by rw [haw, hvw], by rw [hah, hvh], by rw [haf, hvf], ham, has⟩

/-! ### C12: saving and loading again -/

/-- C12 fails as stated: the dirty sample boot mode on a 1920 x 1080 screen
saves with success (the file is written and stores the width 1920), and the
load of that file, run right after the save, returns true and leaves the screen
at 640 x 480: a stored width outside the four presets selects 640 x 480, and the
stored height is never read. -/
theorem C12_round_trip_changes_resolution_counterexample :
    sample_dirty._has_modified_settings = true ∧
    (_SaveSettingsFile ""
      { boot := sample_dirty, world := sample_world_1920x1080, trace := [] }).1 = true ∧
    ((_SaveSettingsFile ""
      { boot := sample_dirty, world := sample_world_1920x1080,
        trace := [] }).2.world.files.lookup "user/settings.lua").bind
      (fun s => s.lookup "settings.video_settings.screen_resx") = some (.int 1920) ∧
    (_LoadSettingsFile "user/settings.lua"
      (_SaveSettingsFile ""
        { boot := sample_dirty, world := sample_world_1920x1080, trace := [] }).2).1 = true ∧
    (_LoadSettingsFile "user/settings.lua"
      (_SaveSettingsFile ""
        { boot := sample_dirty, world := sample_world_1920x1080,
          trace := [] }).2).2.world.screen_width = 640 ∧
    (_LoadSettingsFile "user/settings.lua"
      (_SaveSettingsFile ""
        { boot := sample_dirty, world := sample_world_1920x1080,
          trace := [] }).2).2.world.screen_height = 480 := by
  decide

/-- C12 amended: let the dirty flag be set and the screen size of the state `w`
be one of the four presets, and let `_SaveSettingsFile(f)` return true with its
commit written (the file is writable).  If `_LoadSettingsFile` is then run on
that file, holding what the save wrote, from any later state whose screen size
is one of the four presets and whose audio engine is enabled, and returns true,
then the eight key bindings, the screen width and height, the fullscreen flag
and the music and sound volumes after the load are those of `w`; and the
`first_start` field of the written file is 0. -/
theorem C12_round_trip_between_presets (filename : String) (b : BootMode) (w : World) (σ : Sys)
    (hdirty : b._has_modified_settings = true)
    (hsave : (_SaveSettingsFile filename { boot := b, world := w, trace := [] }).1 = true)
    (hwritable : saved_file_path filename w ∉ w.unwritable)
    (hfile : σ.world.files.lookup (saved_file_path filename w) =
      (_SaveSettingsFile filename { boot := b, world := w, trace := [] }).2.world.files.lookup
        (saved_file_path filename w))
    (hw : is_preset w.screen_width w.screen_height)
    (hσ : is_preset σ.world.screen_width σ.world.screen_height)
    (haudio : σ.world.AUDIO_ENABLE = true)
    (hload : (_LoadSettingsFile (saved_file_path filename w) σ).1 = true) :
    (_LoadSettingsFile (saved_file_path filename w) σ).2.world.keys = w.keys ∧
    (_LoadSettingsFile (saved_file_path filename w) σ).2.world.screen_width = w.screen_width ∧
    (_LoadSettingsFile (saved_file_path filename w) σ).2.world.screen_height = w.screen_height ∧
    (_LoadSettingsFile (saved_file_path filename w) σ).2.world.fullscreen = w.fullscreen ∧
    (_LoadSettingsFile (saved_file_path filename w) σ).2.world.music_volume = w.music_volume ∧
    (_LoadSettingsFile (saved_file_path filename w) σ).2.world.sound_volume = w.sound_volume ∧
    ((_SaveSettingsFile filename { boot := b, world := w, trace := [] }).2.world.files.lookup
      (saved_file_path filename w)).bind (fun s => s.lookup "settings.first_start")
        = some (.int 0) := by
  obtain ⟨old, hwritten⟩ := SaveSettingsFile_written filename b w hdirty hsave hwritable
  rw [hwritten] at hfile
  obtain ⟨h1, h2, h3, h4, h5, h6⟩ :=
    LoadSettingsFile_saved (saved_file_path filename w) w old σ hfile hw hσ haudio hload
  refine ⟨h1, h2, h3, h4, h5, h6, ?_⟩
  rw [hwritten, Option.some_bind]
  exact (saved_script_lookup w old).1

/-- C12 amended at a concrete input: the dirty sample boot mode saves at
640 x 480 in a window; the managers are then given other keys, a 1280 x 1024
full screen and other volumes, and the load of the written file brings back the
values of the save. -/
theorem C12_round_trip_between_presets_witness :
    (_LoadSettingsFile "user/settings.lua" sample_later).2.world.keys = sample_world.keys ∧
    (_LoadSettingsFile "user/settings.lua" sample_later).2.world.screen_width = 640 ∧
    (_LoadSettingsFile "user/settings.lua" sample_later).2.world.screen_height = 480 ∧
    (_LoadSettingsFile "user/settings.lua" sample_later).2.world.fullscreen = false ∧
    (_LoadSettingsFile "user/settings.lua" sample_later).2.world.music_volume
      = sample_world.music_volume ∧
    (_LoadSettingsFile "user/settings.lua" sample_later).2.world.sound_volume
      = sample_world.sound_volume ∧
    ((_SaveSettingsFile ""
      { boot := sample_dirty, world := sample_world, trace := [] }).2.world.files.lookup
      "user/settings.lua").bind (fun s => s.lookup "settings.first_start") = some (.int 0) :=
  C12_round_trip_between_presets "" sample_dirty sample_world sample_later
    (by decide) (by decide) (by decide) (by decide) (Or.inl ⟨rfl, rfl⟩)
    (Or.inr (Or.inr (Or.inr ⟨rfl, rfl⟩))) (by decide) (by decide)

/-! ### C13: saved games and the main menu -/

theorem SavesAvailable_fold_count (p : String) (l : List Nat) (acc : Nat × Sys) :
    (l.foldl (fun (acc : Nat × Sys) id =>
        let e := DoesFileExist (saved_game_filename p id) acc.2
        (if e.1 then acc.1 + 1 else acc.1, e.2)) acc).1 =
      acc.1 + l.countP
        (fun id => (acc.2.world.files.lookup (saved_game_filename p id)).isSome) := by
  induction l generalizing acc with
  | nil => simp
  | cons x xs ih =>
      simp only [List.foldl_cons]
      rw [ih]
      simp only [DoesFileExist, emit, List.countP_cons]
      split
      · simp_all
        omega
      · simp_all

theorem SavesAvailable_iff (n : Int) (σ : Sys) :
    (_SavesAvailable n σ).1 = true ↔
      ∃ id : Nat, (id : Int) < n ∧
        (σ.world.files.lookup
          (saved_game_filename (σ.world.user_data_path true) id)).isSome = true := by
  unfold _SavesAvailable
  simp only [SavesAvailable_fold_count, Nat.zero_add, decide_eq_true_eq, gt_iff_lt,
    List.countP_pos_iff, List.mem_range]
  constructor
  · rintro ⟨id, hlt, hex⟩
    exact ⟨id, Int.lt_toNat.mp hlt, hex⟩
  · rintro ⟨id, hlt, hex⟩
    exact ⟨id, Int.lt_toNat.mpr hlt, hex⟩

theorem SetupMainMenu_load_game (σ : Sys) (r : Bool)
    (hr : (_SavesAvailable σ.world.default_max_saves σ).1 = r) :
    (_SetupMainMenu σ).boot._main_menu.IsOptionEnabled 1 = r ∧
    (_SetupMainMenu σ).boot._main_menu.GetSelection = if r = true then 1 else 0 := by
  simp only [_SetupMainMenu, hr, AudioManager_LoadSound, emit, Sys.modifyBoot]
  cases r <;> exact ⟨rfl, rfl⟩

/-- C13: with the default `maxId` positive, as `_SavesAvailable` asserts,
`_SavesAvailable` returns true exactly when a file `saved_game_<id>.lua` exists
in the user data path for some id with `0 <= id < maxId`; after
`_SetupMainMenu`, row 1 ("Load Game") is enabled and selected exactly when
`_SavesAvailable` returns true, and row 1 is disabled with row 0 ("New Game")
selected exactly when it returns false. -/
theorem C13_load_game_follows_saves_available (σ : Sys)
    (_hmax : 0 < σ.world.default_max_saves) :
    ((_SavesAvailable σ.world.default_max_saves σ).1 = true ↔
      ∃ id : Nat, (id : Int) < σ.world.default_max_saves ∧
        (σ.world.files.lookup
          (saved_game_filename (σ.world.user_data_path true) id)).isSome = true) ∧
    (((_SetupMainMenu σ).boot._main_menu.IsOptionEnabled 1 = true ∧
      (_SetupMainMenu σ).boot._main_menu.GetSelection = 1) ↔
      (_SavesAvailable σ.world.default_max_saves σ).1 = true) ∧
    (((_SetupMainMenu σ).boot._main_menu.IsOptionEnabled 1 = false ∧
      (_SetupMainMenu σ).boot._main_menu.GetSelection = 0) ↔
      (_SavesAvailable σ.world.default_max_saves σ).1 = false) := by
  refine ⟨SavesAvailable_iff _ σ, ?_, ?_⟩
  · cases hr : (_SavesAvailable σ.world.default_max_saves σ).1
    · have h := SetupMainMenu_load_game σ false hr
      simp [h.1]
    · have h := SetupMainMenu_load_game σ true hr
      simpa using h
  · cases hr : (_SavesAvailable σ.world.default_max_saves σ).1
    · have h := SetupMainMenu_load_game σ false hr
      simpa using h
    · have h := SetupMainMenu_load_game σ true hr
      simp [h.1]

/-- C13 at two concrete inputs: in the sample world, which has no saved game,
"New Game" is selected; with `saved_game_3.lua` in the user data path
"Load Game" is enabled and selected. -/
theorem C13_load_game_follows_saves_available_witness :
    (_SetupMainMenu sample_sys).boot._main_menu.IsOptionEnabled 1 = false ∧
    (_SetupMainMenu sample_sys).boot._main_menu.GetSelection = 0 ∧
    (_SetupMainMenu { sample_sys with world := sample_world_with_save }).boot._main_menu.IsOptionEnabled
      1 = true ∧
    (_SetupMainMenu { sample_sys with world := sample_world_with_save }).boot._main_menu.GetSelection
      = 1 :=
  ⟨((C13_load_game_follows_saves_available sample_sys (by decide)).2.2.mpr (by decide)).1,
   ((C13_load_game_follows_saves_available sample_sys (by decide)).2.2.mpr (by decide)).2,
   ((C13_load_game_follows_saves_available { sample_sys with world := sample_world_with_save }
      (by decide)).2.1.mpr
      ((C13_load_game_follows_saves_available { sample_sys with world := sample_world_with_save }
        (by decide)).1.mpr ⟨3, by decide, by decide⟩)).1,
   ((C13_load_game_follows_saves_available { sample_sys with world := sample_world_with_save }
      (by decide)).2.1.mpr
      ((C13_load_game_follows_saves_available { sample_sys with world := sample_world_with_save }
        (by decide)).1.mpr ⟨3, by decide, by decide⟩)).2⟩

/-! ### C14: after `_OnNewGame` -/

theorem Update_many_exiting (fs : List Frame) (σ : Sys)
    (hexit : σ.boot._exiting_to_new_game = true) :
    (Update_many fs σ).boot = σ.boot ∧ (Update_many fs σ).world = σ.world ∧
    (Update_many fs σ).trace =
      σ.trace ++ List.replicate (fs.countP (fun f => !f.IsFading)) Event.NewGame := by
  induction fs generalizing σ with
  | nil => simp [Update_many]
  | cons f fs ih =>
      have hstep : Update_many (f :: fs) σ = Update_many fs (Update f σ) := rfl
      rw [hstep, Update_exiting f σ hexit]
      cases hf : f.IsFading
      · obtain ⟨h1, h2, h3⟩ := ih (emit .NewGame σ) hexit
        simp only [Bool.not_false, if_true]
        refine ⟨h1, h2, ?_⟩
        rw [h3]
        simp [emit, List.countP_cons, hf, List.replicate_succ]
      · obtain ⟨h1, h2, h3⟩ := ih σ hexit
        simp only [Bool.not_true, Bool.false_eq_true, if_false]
        refine ⟨h1, h2, ?_⟩
        rw [h3]
        simp [List.countP_cons, hf]

/-- C14 fails as stated: after `_OnNewGame`, a run of three `Update` calls, the
first with the screen still fading and the other two with the fade complete,
calls `GlobalManager->NewGame()` twice. -/
theorem C14_new_game_called_twice_counterexample :
    [Frame.fading, Frame.idle, Frame.idle].map Frame.IsFading = [true, false, false] ∧
    (Update_many [Frame.fading, Frame.idle, Frame.idle]
      (_OnNewGame sample_sys)).trace.count Event.NewGame = 2 := by
  decide

/-- C14 amended: `_OnNewGame` stops the music, starts the fade, plays its sound
and sets `_exiting_to_new_game`; every run of subsequent `Update` calls leaves
the boot mode (so the active menu, the boot state, the three pending-capture
pointers and the dirty flag) and the managers as they are, and the only calls
it makes are `GlobalManager->NewGame()`, one for each `Update` during which the
screen is not fading and none for an `Update` during which it still is. -/
theorem C14_new_game_at_every_unfaded_update (fs : List Frame) (σ : Sys) :
    (_OnNewGame σ).boot._exiting_to_new_game = true ∧
    (_OnNewGame σ).trace =
      σ.trace ++ [.StopAllMusic, .FadeScreen 2000, .PlaySound "snd/new_game.wav"] ∧
    (Update_many fs (_OnNewGame σ)).boot = (_OnNewGame σ).boot ∧
    (Update_many fs (_OnNewGame σ)).world = (_OnNewGame σ).world ∧
    (Update_many fs (_OnNewGame σ)).trace =
      (_OnNewGame σ).trace ++
        List.replicate (fs.countP (fun f => !f.IsFading)) Event.NewGame := by
  have h := Update_many_exiting fs (_OnNewGame σ) rfl
  refine ⟨rfl, ?_, h.1, h.2.1, h.2.2⟩
  simp [_OnNewGame, AudioManager_PlaySound, emit, Sys.modifyBoot]

/-! ### C15: confirm on a disabled option -/

theorem confirm_handler_of_disabled (m : BootMenu)
    (h : m.IsOptionEnabled m.GetSelection = false) : m.confirm_handler = none := by
  unfold BootMenu.confirm_handler
  unfold BootMenu.IsOptionEnabled at h
  cases hrow : m.row m.GetSelection with
  | none => rfl
  | some o =>
      rw [hrow] at h
      simp only at h
      simp [h]

/-- C15: in an `Update` call that routes a confirm press to the active menu
(menu state, not exiting, help window inactive, nothing pending, not a quit
press at the main menu) while `IsOptionEnabled(GetSelection())` is false, the
active menu pointer and the dirty flag keep their values, no option handler is
invoked, and the calls made are `_active_menu->Update()`, the sound
"snd/bump.wav" and `_active_menu->InputConfirm()`: "snd/confirm.wav" is not
played. -/
theorem C15_confirm_on_disabled_option (f : Frame) (b : BootMode) (w : World)
    (hreach : reaches_capture_check b w) (hpending : no_capture_pending b)
    (hquit : ¬ (b._active_menu = .main_menu ∧ f.QuitPress = true))
    (hconfirm : f.ConfirmPress = true)
    (hdisabled : (b.menu b._active_menu).IsOptionEnabled
      (b.menu b._active_menu).GetSelection = false) :
    (run_Update f b w).boot._active_menu = b._active_menu ∧
    (run_Update f b w).boot._has_modified_settings = b._has_modified_settings ∧
    (∀ h, Event.Invoke h ∉ (run_Update f b w).trace) ∧
    Event.PlaySound "snd/confirm.wav" ∉ (run_Update f b w).trace ∧
    (run_Update f b w).trace =
      [.Menu b._active_menu .Update, .PlaySound "snd/bump.wav",
       .Menu b._active_menu .InputConfirm] := by
  have hnone := confirm_handler_of_disabled _ hdisabled
  have heq : run_Update f b w =
      { boot := b, world := w,
        trace := [.Menu b._active_menu .Update, .PlaySound "snd/bump.wav",
                  .Menu b._active_menu .InputConfirm] } := by
    unfold run_Update
    rw [Update_menu f _ hreach hpending]
    simp only [Update_menu_input, BootMenu_Update, emit, hquit, if_false, hconfirm, if_true,
      Update_confirm, hdisabled, Bool.false_eq_true, AudioManager_PlaySound,
      BootMenu_InputConfirm, hnone, invoke, List.nil_append, List.cons_append]
  rw [heq]
  refine ⟨rfl, rfl, ?_, ?_, rfl⟩
  · intro h
    simp
  · simp

/-- C15 at a concrete input: the constructed sample boot mode with the cursor
on the disabled "Load Game" row and a confirm press. -/
theorem C15_confirm_on_disabled_option_witness :
    (run_Update { Frame.idle with ConfirmPress := true } sample_on_load_game
      sample_world).boot._active_menu = .main_menu ∧
    (run_Update { Frame.idle with ConfirmPress := true } sample_on_load_game
      sample_world).trace =
      [.Menu .main_menu .Update, .PlaySound "snd/bump.wav", .Menu .main_menu .InputConfirm] :=
  ⟨(C15_confirm_on_disabled_option { Frame.idle with ConfirmPress := true } sample_on_load_game
      sample_world ⟨rfl, rfl, rfl⟩ ⟨rfl, rfl, rfl⟩ (fun h => absurd h.2 (by decide)) rfl
      (by decide)).1,
   (C15_confirm_on_disabled_option { Frame.idle with ConfirmPress := true } sample_on_load_game
      sample_world ⟨rfl, rfl, rfl⟩ ⟨rfl, rfl, rfl⟩ (fun h => absurd h.2 (by decide)) rfl
      (by decide)).2.2.2.2⟩

/-! ### C17: the intro state -/

/-- C17: an `Update` call that starts in the intro state with
`_exiting_to_new_game` false ends in the menu state exactly when the input
manager reports any key press; either way it makes no call at all (none on a
menu, no `ExitGame`) and leaves the active menu, the three pending-capture
pointers, the dirty flag and the managers as they are, whatever else the frame
reports. -/
theorem C17_intro_waits_for_any_key (f : Frame) (b : BootMode) (w : World)
    (hexit : b._exiting_to_new_game = false) (hstate : b._boot_state = .BOOT_STATE_INTRO) :
    ((run_Update f b w).boot._boot_state = .BOOT_STATE_MENU ↔ f.AnyKeyPress = true) ∧
    (run_Update f b w).trace = [] ∧
    (run_Update f b w).boot._active_menu = b._active_menu ∧
    (run_Update f b w).boot._key_setting_function = b._key_setting_function ∧
    (run_Update f b w).boot._joy_setting_function = b._joy_setting_function ∧
    (run_Update f b w).boot._joy_axis_setting_function = b._joy_axis_setting_function ∧
    (run_Update f b w).boot._has_modified_settings = b._has_modified_settings ∧
    (run_Update f b w).world = w := by
  unfold run_Update
  rw [Update_intro f _ hexit hstate]
  cases hf : f.AnyKeyPress <;> simp [ChangeState, Sys.modifyBoot, hstate]

/-- C17 at a concrete input: the freshly initialised boot mode and a frame
that reports a key press together with confirm, cancel and quit presses. -/
theorem C17_intro_waits_for_any_key_witness :
    (run_Update { Frame.idle with AnyKeyPress := true, ConfirmPress := true,
                                  CancelPress := true, QuitPress := true }
      BootMode.initial sample_world).boot._boot_state = .BOOT_STATE_MENU ∧
    (run_Update { Frame.idle with AnyKeyPress := true, ConfirmPress := true,
                                  CancelPress := true, QuitPress := true }
      BootMode.initial sample_world).trace = [] :=
  ⟨(C17_intro_waits_for_any_key
      { Frame.idle with AnyKeyPress := true, ConfirmPress := true,
                        CancelPress := true, QuitPress := true }
      BootMode.initial sample_world rfl rfl).1.mpr rfl,
   (C17_intro_waits_for_any_key
      { Frame.idle with AnyKeyPress := true, ConfirmPress := true,
                        CancelPress := true, QuitPress := true }
      BootMode.initial sample_world rfl rfl).2.1⟩

/-! ### The calls made by the blocks of `_LoadSettingsFile` -/

theorem load_binding_emits (P : Event → Bool) (b : Binding) (key : String) (cast : Int → Int)
    (dσ : ScriptDescriptor × Sys) (hP : ∀ v, P (.InputSet b v) = true) :
    emits_only P dσ.2 (load_binding b key cast dσ).2 :=
  emits_only_of_append (l := [.InputSet b (cast (dσ.1.ReadInt key).1)]) rfl
    (by simpa using hP _)

theorem load_binding_if_emits (P : Event → Bool) (c : Prop) [Decidable c] (b : Binding)
    (key : String) (cast : Int → Int) (dσ : ScriptDescriptor × Sys)
    (hP : ∀ v, P (.InputSet b v) = true) :
    emits_only P dσ.2 (if c then load_binding b key cast dσ else dσ).2 := by
  split
  · exact load_binding_emits P b key cast dσ hP
  · exact emits_only_refl _ _

theorem load_key_settings_emits (P : Event → Bool) (dσ : ScriptDescriptor × Sys)
    (hP : ∀ b v, b.slot = some .key → P (.InputSet b v) = true) :
    emits_only P dσ.2 (load_key_settings dσ).2 := by
  simp only [load_key_settings]
  iterate 8 refine emits_only_trans ?_ (load_binding_emits P _ _ _ _ (fun v => hP _ v rfl))
  exact emits_only_refl _ _

theorem load_language_and_keys_emits (P : Event → Bool) (d : ScriptDescriptor) (σ : Sys)
    (hlang : ∀ s, P (.SetLanguage s) = true)
    (hP : ∀ b v, b.slot = some .key → P (.InputSet b v) = true) :
    emits_only P σ (load_language_and_keys d σ).2 := by
  simp only [load_language_and_keys]
  refine emits_only_trans ?_ (load_key_settings_emits P _ hP)
  exact emits_only_of_append (l := [_]) rfl (by simpa using hlang _)

theorem load_joystick_settings_emits (P : Event → Bool) (dσ : ScriptDescriptor × Sys)
    (hP : ∀ b v, P (.InputSet b v) = true)
    (hignore : P .SDL_JoystickEventState_IGNORE = true)
    (hquit : P .SDL_QuitSubSystem_JOYSTICK = true) :
    emits_only P dσ.2 (load_joystick_settings dσ).2 := by
  simp only [load_joystick_settings]
  iterate 3 refine emits_only_trans ?_ (load_binding_if_emits P _ _ _ _ _ (hP _))
  iterate 6 refine emits_only_trans ?_ (load_binding_emits P _ _ _ _ (hP _))
  split
  · split
    · exact emits_only_of_append
        (l := [.SDL_JoystickEventState_IGNORE, .SDL_QuitSubSystem_JOYSTICK])
        (by simp [emit]) (by simp [hignore, hquit])
    · exact emits_only_refl _ _
  · exact emits_only_refl _ _

theorem ChangeResolution_emits (width height : Int) (σ : Sys) :
    emits_only Event.isVideoSetter σ (_ChangeResolution width height σ) :=
  emits_only_of_append (l := [.SetResolution width height, .ApplySettings])
    (by simp [_ChangeResolution, VideoManager_SetResolution, VideoManager_ApplySettings,
      _RefreshVideoOptions, emit, Sys.modifyBoot])
    (by simp [Event.isVideoSetter])

theorem OnToggleFullscreen_emits (σ : Sys) :
    emits_only Event.isVideoSetter σ (_OnToggleFullscreen σ) :=
  emits_only_of_append (l := [.ToggleFullscreen, .ApplySettings])
    (by simp [_OnToggleFullscreen, VideoManager_ToggleFullscreen, VideoManager_ApplySettings,
      _RefreshVideoOptions, emit, Sys.modifyBoot])
    (by simp [Event.isVideoSetter])

theorem load_resolution_emits (resx : Int) (f₁ f₂ f₃ f₄ : BootMode → BootMode) (σ : Sys) :
    emits_only Event.isVideoSetter σ
      (if resx = 800 then (_OnResolution800x600 σ).modifyBoot f₁
       else if resx = 1024 then (_OnResolution1024x768 σ).modifyBoot f₂
       else if resx = 1280 then (_OnResolution1280x1024 σ).modifyBoot f₃
       else (_OnResolution640x480 σ).modifyBoot f₄) := by
  simp only [_OnResolution640x480, _OnResolution800x600, _OnResolution1024x768,
    _OnResolution1280x1024]
  split_ifs <;>
    first
      | exact emits_only_of_trace_eq _ (ChangeResolution_emits _ _ σ) rfl
      | exact emits_only_of_trace_eq σ (emits_only_refl _ _) rfl

theorem load_fullscreen_emits (c₁ c₂ : Prop) [Decidable c₁] [Decidable c₂] (σ : Sys) :
    emits_only Event.isVideoSetter σ
      (if c₁ then _OnToggleFullscreen σ else if c₂ then _OnToggleFullscreen σ else σ) := by
  split_ifs
  · exact OnToggleFullscreen_emits σ
  · exact OnToggleFullscreen_emits σ
  · exact emits_only_refl _ _

theorem load_video_settings_emits (dσ : ScriptDescriptor × Sys) :
    emits_only Event.isVideoSetter dσ.2 (load_video_settings dσ).2 := by
  simp only [load_video_settings]
  refine emits_only_trans ?_ (load_fullscreen_emits _ _ _)
  refine emits_only_trans ?_ (load_resolution_emits _ _ _ _ _ _)
  exact emits_only_of_append (l := [_]) rfl (by simp [Event.isVideoSetter])

/-! ### C16: the error checks of `_LoadSettingsFile` -/

theorem LoadSettingsFile_stages (filename : String) (σ σ₁ : Sys) (d : ScriptDescriptor)
    (hopen : ScriptDescriptor_OpenFile filename σ = (some d, σ₁)) :
    _LoadSettingsFile filename σ =
      if (load_language_and_keys d σ₁).1.IsErrorDetected = true then
        (false, ScriptDescriptor_CloseFile (load_language_and_keys d σ₁).2)
      else if (load_through_joystick d σ₁).1.IsErrorDetected = true then
        (false, ScriptDescriptor_CloseFile (load_through_joystick d σ₁).2)
      else if (load_through_video d σ₁).1.IsErrorDetected = true then
        (false, ScriptDescriptor_CloseFile (load_through_video d σ₁).2)
      else if (load_through_audio d σ₁).1.IsErrorDetected = true then
        (false, ScriptDescriptor_CloseFile (load_through_audio d σ₁).2)
      else (true, ScriptDescriptor_CloseFile (load_through_audio d σ₁).2) := by
  unfold load_through_audio load_through_video load_through_joystick
    ScriptDescriptor.IsErrorDetected
  exact LoadSettingsFile_of_open filename σ σ₁ d hopen

/-- C16: `_LoadSettingsFile` returns true exactly when the file opens and no
error is detected at any of its four checks (after the key, joystick, video and
audio tables).  With the file open, an error at a check makes it return false
in the state of that check with the file closed, so what was applied before the
check stays applied and nothing of the later blocks is done: after an error at
the first check no joystick, video or audio setter has been called, after one
at the second no video or audio setter, after one at the third no volume
setter. -/
theorem C16_load_stops_at_first_error (filename : String) (σ : Sys) :
    ((_LoadSettingsFile filename σ).1 = true ↔
      ∃ d σ₁, ScriptDescriptor_OpenFile filename σ = (some d, σ₁) ∧
        (load_language_and_keys d σ₁).1.IsErrorDetected = false ∧
        (load_through_joystick d σ₁).1.IsErrorDetected = false ∧
        (load_through_video d σ₁).1.IsErrorDetected = false ∧
        (load_through_audio d σ₁).1.IsErrorDetected = false) ∧
    (∀ d σ₁, ScriptDescriptor_OpenFile filename σ = (some d, σ₁) →
      ((load_language_and_keys d σ₁).1.IsErrorDetected = true →
        _LoadSettingsFile filename σ =
          (false, ScriptDescriptor_CloseFile (load_language_and_keys d σ₁).2) ∧
        emits_only (fun e => !e.isJoystickSetter && !e.isVideoSetter && !e.isAudioSetter)
          σ (_LoadSettingsFile filename σ).2) ∧
      ((load_language_and_keys d σ₁).1.IsErrorDetected = false →
        (load_through_joystick d σ₁).1.IsErrorDetected = true →
        _LoadSettingsFile filename σ =
          (false, ScriptDescriptor_CloseFile (load_through_joystick d σ₁).2) ∧
        emits_only (fun e => !e.isVideoSetter && !e.isAudioSetter)
          σ (_LoadSettingsFile filename σ).2) ∧
      ((load_language_and_keys d σ₁).1.IsErrorDetected = false →
        (load_through_joystick d σ₁).1.IsErrorDetected = false →
        (load_through_video d σ₁).1.IsErrorDetected = true →
        _LoadSettingsFile filename σ =
          (false, ScriptDescriptor_CloseFile (load_through_video d σ₁).2) ∧
        emits_only (fun e => !e.isAudioSetter) σ (_LoadSettingsFile filename σ).2) ∧
      ((load_language_and_keys d σ₁).1.IsErrorDetected = false →
        (load_through_joystick d σ₁).1.IsErrorDetected = false →
        (load_through_video d σ₁).1.IsErrorDetected = false →
        (load_through_audio d σ₁).1.IsErrorDetected = true →
        _LoadSettingsFile filename σ =
          (false, ScriptDescriptor_CloseFile (load_through_audio d σ₁).2))) := by
  constructor
  · rcases hres : ScriptDescriptor_OpenFile filename σ with ⟨o, σ₁⟩
    cases o with
    | none =>
        rw [LoadSettingsFile_of_not_open filename σ σ₁ hres]
        simp
    | some d =>
        rw [LoadSettingsFile_stages filename σ σ₁ d hres]
        simp only [Prod.mk.injEq, Option.some.injEq]
        constructor
        · intro h
          refine ⟨d, σ₁, ⟨rfl, rfl⟩, ?_⟩
          generalize (load_language_and_keys d σ₁).1.IsErrorDetected = e1 at h ⊢
          generalize (load_through_joystick d σ₁).1.IsErrorDetected = e2 at h ⊢
          generalize (load_through_video d σ₁).1.IsErrorDetected = e3 at h ⊢
          generalize (load_through_audio d σ₁).1.IsErrorDetected = e4 at h ⊢
          cases e1 <;> cases e2 <;> cases e3 <;> cases e4 <;> simp at h ⊢
        · rintro ⟨d', σ₁', ⟨rfl, rfl⟩, h1, h2, h3, h4⟩
          rw [h1, h2, h3, h4]
          rfl
  · intro d σ₁ hopen
    obtain ⟨content, -, -, -, hσ₁⟩ := OpenFile_some filename σ σ₁ d hopen
    have hopened : ∀ P : Event → Bool, P (.OpenFile filename) = true → emits_only P σ σ₁ := by
      intro P hP
      rw [hσ₁]
      exact emits_only_of_append (l := [.OpenFile filename]) rfl (by simpa using hP)
    have hkeys : ∀ P : Event → Bool, P (.OpenFile filename) = true →
        (∀ s, P (.SetLanguage s) = true) →
        (∀ b v, b.slot = some .key → P (.InputSet b v) = true) →
        emits_only P σ (load_language_and_keys d σ₁).2 :=
      fun P h1 h2 h3 => emits_only_trans (hopened P h1) (load_language_and_keys_emits P d σ₁ h2 h3)
    have hjoy : ∀ P : Event → Bool, P (.OpenFile filename) = true →
        (∀ s, P (.SetLanguage s) = true) → (∀ b v, P (.InputSet b v) = true) →
        P .SDL_JoystickEventState_IGNORE = true → P .SDL_QuitSubSystem_JOYSTICK = true →
        emits_only P σ (load_through_joystick d σ₁).2 :=
      fun P h1 h2 h3 h4 h5 => emits_only_trans (hkeys P h1 h2 (fun b v _ => h3 b v))
        (load_joystick_settings_emits P _ h3 h4 h5)
    have e1 : emits_only (fun e => !e.isJoystickSetter && !e.isVideoSetter && !e.isAudioSetter)
        σ (ScriptDescriptor_CloseFile (load_language_and_keys d σ₁).2) := by
      refine emits_only_emit .CloseFile rfl (hkeys _ rfl (fun _ => rfl) ?_)
      intro b v hb
      simp [Event.isJoystickSetter, Event.isVideoSetter, Event.isAudioSetter, hb]
    have e2 : emits_only (fun e => !e.isVideoSetter && !e.isAudioSetter)
        σ (ScriptDescriptor_CloseFile (load_through_joystick d σ₁).2) :=
      emits_only_emit .CloseFile rfl (hjoy _ rfl (fun _ => rfl) (fun _ _ => rfl) rfl rfl)
    have e3 : emits_only (fun e => !e.isAudioSetter)
        σ (ScriptDescriptor_CloseFile (load_through_video d σ₁).2) := by
      refine emits_only_emit .CloseFile rfl (emits_only_trans
        (hjoy _ rfl (fun _ => rfl) (fun _ _ => rfl) rfl rfl)
        (emits_only_mono ?_ (load_video_settings_emits _)))
      intro e he
      cases e <;> first | rfl | cases he
    rw [LoadSettingsFile_stages filename σ σ₁ d hopen]
    generalize (load_language_and_keys d σ₁).1.IsErrorDetected = c1
    generalize (load_through_joystick d σ₁).1.IsErrorDetected = c2
    generalize (load_through_video d σ₁).1.IsErrorDetected = c3
    generalize (load_through_audio d σ₁).1.IsErrorDetected = c4
    refine ⟨fun h1 => ?_, fun h1 h2 => ?_, fun h1 h2 h3 => ?_, fun h1 h2 h3 h4 => ?_⟩
    · subst h1
      exact ⟨rfl, e1⟩
    · subst h1 h2
      exact ⟨rfl, e2⟩
    · subst h1 h2 h3
      exact ⟨rfl, e3⟩
    · subst h1 h2 h3 h4
      rfl

/-- C16 at a concrete input: the user settings file stores another "up" key and
lacks the `pause` key binding, so the first check fails: the load returns false
in the state the key block left, with the new "up" key set. -/
theorem C16_load_stops_at_first_error_witness :
    _LoadSettingsFile "user/settings.lua"
        { boot := sample_boot, world := sample_world_key_error, trace := [] } =
      (false, ScriptDescriptor_CloseFile (load_language_and_keys
        { filename := "user/settings.lua", script := sample_settings_key_error,
          open_tables := [], error := false }
        (emit (.OpenFile "user/settings.lua")
          { boot := sample_boot, world := sample_world_key_error, trace := [] })).2) ∧
    (ScriptDescriptor_CloseFile (load_language_and_keys
        { filename := "user/settings.lua", script := sample_settings_key_error,
          open_tables := [], error := false }
        (emit (.OpenFile "user/settings.lua")
          { boot := sample_boot, world := sample_world_key_error,
            trace := [] })).2).world.keys.up = 119 :=
  ⟨(((C16_load_stops_at_first_error "user/settings.lua"
      { boot := sample_boot, world := sample_world_key_error, trace := [] }).2
      _ _ rfl).1 (by decide)).1, by decide⟩

/-! ### `_OnQuit` is bound in the main menu only -/

theorem has_quit_AddOption (m : BootMenu) (c u d l r : Option Handler) :
    (m.AddOption c u d l r).has_quit =
      (m.has_quit || MenuOption.has_quit ⟨true, c, u, d, l, r⟩) := by
  simp [BootMenu.has_quit, BootMenu.AddOption, List.any_append]

theorem has_quit_SetSelection (m : BootMenu) (i : Int) :
    (m.SetSelection i).has_quit = m.has_quit := rfl

theorem has_quit_ClearOptions (m : BootMenu) : m.ClearOptions.has_quit = false := rfl

theorem SetupMainMenu_submenus (σ : Sys) :
    (_SetupMainMenu σ).boot.submenu_has_quit = σ.boot.submenu_has_quit := by
  have h := SavesAvailable_boot σ.world.default_max_saves σ
  simp only [_SetupMainMenu, AudioManager_LoadSound, emit, Sys.modifyBoot,
    BootMode.submenu_has_quit, h]

theorem SetupOtherMenus_submenus (σ : Sys) (h : σ.boot.submenu_has_quit = false) :
    (_SetupOptionsMenu σ).boot.submenu_has_quit = false ∧
    (_SetupVideoOptionsMenu σ).boot.submenu_has_quit = false ∧
    (_SetupAudioOptionsMenu σ).boot.submenu_has_quit = false ∧
    (_SetupKeySettingsMenu σ).boot.submenu_has_quit = false ∧
    (_SetupJoySettingsMenu σ).boot.submenu_has_quit = false ∧
    (_SetupResolutionMenu σ).boot.submenu_has_quit = false := by
  simp only [BootMode.submenu_has_quit, Bool.or_eq_false_iff] at h
  obtain ⟨⟨⟨⟨⟨⟨h1, h2⟩, h3⟩, h4⟩, h5⟩, h6⟩, h7⟩ := h
  refine ⟨?_, ?_, ?_, ?_, ?_, ?_⟩
  · simp [_SetupOptionsMenu, Sys.modifyBoot, BootMode.submenu_has_quit, has_quit_AddOption,
      has_quit_SetSelection, has_quit_ClearOptions, MenuOption.has_quit, h2, h3, h4, h5, h6, h7]
  · simp [_SetupVideoOptionsMenu, Sys.modifyBoot, BootMode.submenu_has_quit,
      has_quit_AddOption, has_quit_SetSelection, has_quit_ClearOptions, MenuOption.has_quit,
      h1, h3, h4, h5, h6, h7]
  · simp [_SetupAudioOptionsMenu, AudioManager_LoadSound, emit, Sys.modifyBoot,
      BootMode.submenu_has_quit, has_quit_AddOption, has_quit_SetSelection,
      has_quit_ClearOptions, MenuOption.has_quit, h1, h2, h4, h5, h6, h7]
  · simp [_SetupKeySettingsMenu, Sys.modifyBoot, BootMode.submenu_has_quit,
      has_quit_AddOption, has_quit_SetSelection, has_quit_ClearOptions, MenuOption.has_quit,
      h1, h2, h3, h4, h6, h7]
  · simp [_SetupJoySettingsMenu, Sys.modifyBoot, BootMode.submenu_has_quit,
      has_quit_AddOption, has_quit_SetSelection, has_quit_ClearOptions, MenuOption.has_quit,
      h1, h2, h3, h4, h5, h7]
  · simp only [_SetupResolutionMenu, Sys.modifyBoot, BootMode.submenu_has_quit, h1, h2, h3,
      h4, h5, h6, Bool.or_false, Bool.false_or]
    split_ifs <;>
      simp [has_quit_AddOption, has_quit_SetSelection, MenuOption.has_quit, h7]

theorem ReloadTranslatableMenus_submenus (σ : Sys) (h : σ.boot.submenu_has_quit = false) :
    (_ReloadTranslatableMenus σ).boot.submenu_has_quit = false := by
  unfold _ReloadTranslatableMenus
  have h0 : (_SetupMainMenu σ).boot.submenu_has_quit = false := by
    rw [SetupMainMenu_submenus, h]
  have h1 := (SetupOtherMenus_submenus _ h0).1
  have h2 := (SetupOtherMenus_submenus _ h1).2.1
  have h3 := (SetupOtherMenus_submenus _ h2).2.2.1
  have h4 := (SetupOtherMenus_submenus _ h3).2.2.2.1
  have h5 := (SetupOtherMenus_submenus _ h4).2.2.2.2.1
  exact (SetupOtherMenus_submenus _ h5).2.2.2.2.2

theorem language_rows_fold (read_data : ScriptDescriptor) (l : List Nat)
    (acc : List String × BootMenu) (h : acc.2.has_quit = false) :
    (l.foldl (fun (acc : List String × BootMenu) i =>
        let d := read_data.OpenTable (toString (i + 1))
        (acc.1 ++ [(d.ReadString "2").1],
         acc.2.AddOption (some .OnLanguageSelect) none none none none)) acc).2.has_quit
      = false := by
  induction l generalizing acc with
  | nil => exact h
  | cons x xs ih =>
      simp only [List.foldl_cons]
      apply ih
      simp [has_quit_AddOption, h, MenuOption.has_quit]

theorem SetupLanguageOptionsMenu_submenus (σ : Sys) (h : σ.boot.submenu_has_quit = false) :
    (_SetupLanguageOptionsMenu σ).boot.submenu_has_quit = false := by
  have hb := (OpenFile_boot _LANGUAGE_FILE σ).1
  unfold _SetupLanguageOptionsMenu
  rcases hres : ScriptDescriptor_OpenFile _LANGUAGE_FILE σ with ⟨o, σ'⟩
  rw [hres] at hb
  simp only at hb
  cases o with
  | none =>
      simp only [hb]
      exact h
  | some d =>
      simp only [BootMode.submenu_has_quit, Bool.or_eq_false_iff] at h
      obtain ⟨⟨⟨⟨⟨⟨h1, h2⟩, h3⟩, h4⟩, h5⟩, h6⟩, h7⟩ := h
      simp only [ScriptDescriptor_CloseFile, emit, Sys.modifyBoot, BootMode.submenu_has_quit,
        hb, h1, h2, h3, h5, h6, h7, Bool.or_false, Bool.false_or]
      exact language_rows_fold _ _ _ h4

theorem constructor_submenus (w : World) (σ : Sys) (h : BootMode_constructor w = some σ) :
    σ.boot.submenu_has_quit = false := by
  unfold BootMode_constructor at h
  dsimp only at h
  rcases hres : ScriptDescriptor_OpenFile "dat/config/boot.lua"
    { boot := BootMode.initial, world := w, trace := [] } with ⟨o, σ'⟩
  have hb := (OpenFile_boot "dat/config/boot.lua"
    { boot := BootMode.initial, world := w, trace := [] }).1
  rw [hres] at h hb
  simp only at hb
  cases o with
  | none => simp at h
  | some boot_script =>
      simp only at h
      split at h
      · simp at h
      · injection h with h
        subst h
        have h0 : ((ScriptDescriptor_CloseFile σ').modifyBoot
            (fun b => { b with _options_window_shown := false })).boot.submenu_has_quit
            = false := by
          simp only [ScriptDescriptor_CloseFile, emit, Sys.modifyBoot,
            BootMode.submenu_has_quit, hb]
          rfl
        have h1 : (_SetupMainMenu ((ScriptDescriptor_CloseFile σ').modifyBoot
            (fun b => { b with _options_window_shown := false }))).boot.submenu_has_quit
            = false := by
          rw [SetupMainMenu_submenus]
          exact h0
        have h2 := (SetupOtherMenus_submenus _ h1).1
        have h3 := (SetupOtherMenus_submenus _ h2).2.1
        have h4 := (SetupOtherMenus_submenus _ h3).2.2.1
        have h5 := SetupLanguageOptionsMenu_submenus _ h4
        have h6 := (SetupOtherMenus_submenus _ h5).2.2.2.1
        have h7 := (SetupOtherMenus_submenus _ h6).2.2.2.2.1
        have h8 := (SetupOtherMenus_submenus _ h7).2.2.2.2.2
        simpa [_message_window_Hide, Sys.modifyBoot, BootMode.submenu_has_quit] using h8

theorem handler_submenus (h : Handler) (σ : Sys) (hinv : σ.boot.submenu_has_quit = false) :
    (h.body σ).boot.submenu_has_quit = false := by
  cases h
  case OnLanguageSelect =>
    simp only [Handler.body, _OnLanguageSelect]
    cases selected_po_file σ.boot with
    | none => exact hinv
    | some lang =>
      simp only [Option.getD_some, emit]
      apply ReloadTranslatableMenus_submenus
      simpa [SystemManager_SetLanguage, emit, Sys.modifyBoot, BootMode.submenu_has_quit]
        using hinv
  case OnResolution640x480 =>
    simp only [Handler.body, _OnResolution640x480]
    split <;> simpa [_ChangeResolution, VideoManager_SetResolution, VideoManager_ApplySettings,
      _RefreshVideoOptions, emit, Sys.modifyBoot, BootMode.submenu_has_quit] using hinv
  case OnResolution800x600 =>
    simp only [Handler.body, _OnResolution800x600]
    split <;> simpa [_ChangeResolution, VideoManager_SetResolution, VideoManager_ApplySettings,
      _RefreshVideoOptions, emit, Sys.modifyBoot, BootMode.submenu_has_quit] using hinv
  case OnResolution1024x768 =>
    simp only [Handler.body, _OnResolution1024x768]
    split <;> simpa [_ChangeResolution, VideoManager_SetResolution, VideoManager_ApplySettings,
      _RefreshVideoOptions, emit, Sys.modifyBoot, BootMode.submenu_has_quit] using hinv
  case OnResolution1280x1024 =>
    simp only [Handler.body, _OnResolution1280x1024]
    split <;> simpa [_ChangeResolution, VideoManager_SetResolution, VideoManager_ApplySettings,
      _RefreshVideoOptions, emit, Sys.modifyBoot, BootMode.submenu_has_quit] using hinv
  all_goals
    simpa [Handler.body, _OnNewGame, _OnLoadGame, _OnOptions, _OnQuit, _OnVideoOptions,
      _OnAudioOptions, _OnLanguageOptions, _OnKeySettings, _OnJoySettings, _OnResolution,
      _OnToggleFullscreen, _OnBrightnessLeft, _OnBrightnessRight, _OnTogglePixelArtSmoothed,
      _OnSoundLeft, _OnSoundRight, _OnMusicLeft, _OnMusicRight, _OnRestoreDefaultKeys,
      _OnRestoreDefaultJoyButtons, _RedefineUpKey, _RedefineDownKey, _RedefineLeftKey,
      _RedefineRightKey, _RedefineConfirmKey, _RedefineCancelKey, _RedefineMenuKey,
      _RedefinePauseKey, _RedefineXAxisJoy, _RedefineYAxisJoy, _RedefineConfirmJoy,
      _RedefineCancelJoy, _RedefineMenuJoy, _RedefinePauseJoy, _ShowMessageWindow_bool,
      _ShowMessageWindow, _RefreshVideoOptions, _RefreshAudioOptions, _RefreshKeySettings,
      _RefreshJoySettings, VideoManager_ToggleFullscreen, VideoManager_ApplySettings,
      VideoManager_SetPixelArtSmoothed, VideoManager_SetGamma, AudioManager_SetSoundVolume,
      AudioManager_SetMusicVolume, AudioManager_PlaySound, InputManager_RestoreDefaultKeys,
      InputManager_RestoreDefaultJoyButtons, emit, Sys.modifyBoot, BootMode.submenu_has_quit]
      using hinv

theorem invoke_submenus (o : Option Handler) (σ : Sys)
    (hinv : σ.boot.submenu_has_quit = false) : (invoke o σ).boot.submenu_has_quit = false := by
  cases o with
  | none => exact hinv
  | some h => exact handler_submenus h (emit (.Invoke h) σ) hinv

theorem setMenu_SetSelection_submenus (b : BootMode) (m : MenuId) (i : Int) :
    (b.setMenu m ((b.menu m).SetSelection i)).submenu_has_quit = b.submenu_has_quit := by
  cases m <;> rfl

theorem menu_input_submenus (f : Frame) (σ : Sys) (hinv : σ.boot.submenu_has_quit = false) :
    (Update_menu_input f σ).boot.submenu_has_quit = false := by
  have hdir : ∀ c pick m, (BootMenu_InputDirection c pick m f
      (BootMenu_Update σ.boot._active_menu σ)).boot.submenu_has_quit = false := by
    intro c pick m
    apply invoke_submenus
    simp only [Sys.modifyBoot, emit, BootMenu_Update, setMenu_SetSelection_submenus]
    exact hinv
  unfold Update_menu_input
  simp only
  split_ifs
  · exact hinv
  · unfold Update_confirm
    apply invoke_submenus
    simp only [BootMenu_Update, emit, AudioManager_PlaySound]
    split_ifs <;> exact hinv
  · exact hdir _ _ _
  · exact hdir _ _ _
  · exact hdir _ _ _
  · exact hdir _ _ _
  · simp only [Update_cancel, BootMenu_Update, AudioManager_PlaySound, emit, Sys.modifyBoot]
    split_ifs <;> exact hinv
  · exact hinv

theorem Update_submenus (f : Frame) (σ : Sys) (hinv : σ.boot.submenu_has_quit = false) :
    (Update f σ).boot.submenu_has_quit = false := by
  rcases Update_cases f σ with ⟨_, heq⟩ | ⟨_, _, heq⟩ | ⟨_, _, _, heq⟩ | ⟨_, fn, _, heq⟩ |
    ⟨_, _, fn, _, heq⟩ | ⟨_, _, _, fn, _, heq⟩ | ⟨_, _, heq⟩
  · rw [heq]
    split <;> exact hinv
  · rw [heq]
    split <;> exact hinv
  · rw [heq]
    unfold Update_help_window
    rcases SaveSettingsFile_boot "" ((if (!f.HelpPress && f.AnyKeyPress) = true then
        HelpWindow_Hide (AudioManager_PlaySound "snd/confirm.wav" σ) else σ).modifyBoot
        (fun b => { b with _has_modified_settings := true })) with h | h <;>
      rw [h] <;> split <;> exact hinv
  · rw [heq, joy_capture_eq]
    split_ifs <;> exact hinv
  · rw [heq, joy_axis_capture_eq]
    split_ifs <;> exact hinv
  · rw [heq, key_capture_eq]
    split_ifs <;> exact hinv
  · rw [heq]
    exact menu_input_submenus f σ hinv

theorem reachable_submenus (b : BootMode) (h : Reachable b) : b.submenu_has_quit = false := by
  induction h with
  | constructed w σ h => exact constructor_submenus w σ h
  | update b w t f _ ih => exact Update_submenus f _ ih
  | change_state b w t s _ ih => exact ih

/-! ### `ExitGame` is called from the main menu only -/

theorem SavesAvailable_fold_emits (P : Event → Bool) (hP : ∀ p, P (.DoesFileExist p) = true)
    (p : String) (l : List Nat) (acc : Nat × Sys) :
    emits_only P acc.2
      (l.foldl (fun (acc : Nat × Sys) id =>
        let e := DoesFileExist (saved_game_filename p id) acc.2
        (if e.1 then acc.1 + 1 else acc.1, e.2)) acc).2 := by
  induction l generalizing acc with
  | nil => exact emits_only_refl _ _
  | cons x xs ih =>
      simp only [List.foldl_cons]
      refine emits_only_trans ?_ (ih _)
      exact emits_only_of_append (l := [Event.DoesFileExist (saved_game_filename p x)]) rfl
        (by simpa using hP _)

theorem ReloadTranslatableMenus_emits (P : Event → Bool)
    (hfile : ∀ p, P (.DoesFileExist p) = true) (hsound : ∀ s, P (.LoadSound s) = true)
    (σ : Sys) : emits_only P σ (_ReloadTranslatableMenus σ) := by
  have hsaves : emits_only P σ (_SavesAvailable σ.world.default_max_saves σ).2 := by
    unfold _SavesAvailable
    exact SavesAvailable_fold_emits P hfile _ _ (0, σ)
  refine emits_only_trans hsaves ?_
  apply emits_only_of_append
  · simp only [_ReloadTranslatableMenus, _SetupMainMenu, _SetupOptionsMenu,
      _SetupVideoOptionsMenu, _SetupAudioOptionsMenu, _SetupKeySettingsMenu,
      _SetupJoySettingsMenu, _SetupResolutionMenu, AudioManager_LoadSound, emit,
      Sys.modifyBoot, List.append_assoc, List.singleton_append]
    rfl
  · simp [hsound]

theorem handler_no_exit (h : Handler) (hne : h ≠ .OnQuit) (σ : Sys) :
    emits_only (fun e => e != Event.ExitGame) σ (h.body σ) := by
  cases h
  case OnQuit => exact absurd rfl hne
  case OnLanguageSelect =>
    simp only [Handler.body, _OnLanguageSelect]
    cases selected_po_file σ.boot with
    | none => exact emits_only_refl _ _
    | some lang =>
      simp only [Option.getD_some]
      refine emits_only_emit _ (by decide)
        (emits_only_trans ?_ (ReloadTranslatableMenus_emits _ (fun _ => rfl) (fun _ => rfl) _))
      exact emits_only_of_append (l := [_]) rfl (by simp)
  case OnResolution640x480 =>
    exact emits_only_mono (fun e he => by cases e <;> first | rfl | cases he)
      (load_resolution_emits 0 id id id id σ)
  case OnResolution800x600 =>
    exact emits_only_mono (fun e he => by cases e <;> first | rfl | cases he)
      (load_resolution_emits 800 id id id id σ)
  case OnResolution1024x768 =>
    exact emits_only_mono (fun e he => by cases e <;> first | rfl | cases he)
      (load_resolution_emits 1024 id id id id σ)
  case OnResolution1280x1024 =>
    exact emits_only_mono (fun e he => by cases e <;> first | rfl | cases he)
      (load_resolution_emits 1280 id id id id σ)
  all_goals
    apply emits_only_of_append
    · simp only [Handler.body, _OnNewGame, _OnLoadGame, _OnOptions,
      _OnVideoOptions,
      _OnAudioOptions, _OnLanguageOptions, _OnKeySettings, _OnJoySettings, _OnResolution,
      _OnToggleFullscreen, _OnBrightnessLeft, _OnBrightnessRight, _OnTogglePixelArtSmoothed,
      _OnSoundLeft, _OnSoundRight, _OnMusicLeft, _OnMusicRight, _OnRestoreDefaultKeys,
      _OnRestoreDefaultJoyButtons, _RedefineUpKey, _RedefineDownKey, _RedefineLeftKey,
      _RedefineRightKey, _RedefineConfirmKey, _RedefineCancelKey, _RedefineMenuKey,
      _RedefinePauseKey, _RedefineXAxisJoy, _RedefineYAxisJoy, _RedefineConfirmJoy,
      _RedefineCancelJoy, _RedefineMenuJoy, _RedefinePauseJoy, _ShowMessageWindow_bool,
      _ShowMessageWindow, _RefreshVideoOptions, _RefreshAudioOptions, _RefreshKeySettings,
      _RefreshJoySettings, VideoManager_ToggleFullscreen, VideoManager_ApplySettings,
      VideoManager_SetPixelArtSmoothed, VideoManager_SetGamma, AudioManager_SetSoundVolume,
      AudioManager_SetMusicVolume, AudioManager_PlaySound, InputManager_RestoreDefaultKeys,
      InputManager_RestoreDefaultJoyButtons, emit, Sys.modifyBoot, List.append_assoc,
      List.singleton_append]
      first
        | rfl
        | exact (List.append_nil _).symm
    · simp

theorem invoke_no_exit (o : Option Handler) (hne : o ≠ some .OnQuit) (σ : Sys) :
    emits_only (fun e => e != Event.ExitGame) σ (invoke o σ) := by
  cases o with
  | none => exact emits_only_refl _ _
  | some h =>
      refine emits_only_trans ?_ (handler_no_exit h (fun hq => hne (by rw [hq])) _)
      exact emits_only_of_append (l := [.Invoke h]) rfl (by simp)

theorem row_has_quit (m : BootMenu) (i : Int) (o : MenuOption) (hrow : m.row i = some o)
    (h : m.has_quit = false) : o.has_quit = false := by
  unfold BootMenu.row at hrow
  split at hrow
  · simp at hrow
  · have hmem : o ∈ m.options := List.getElem?_mem hrow
    simp only [BootMenu.has_quit, List.any_eq_false] at h
    simpa using h o hmem

theorem confirm_handler_ne_quit (m : BootMenu) (h : m.has_quit = false) :
    m.confirm_handler ≠ some .OnQuit := by
  unfold BootMenu.confirm_handler
  cases hrow : m.row m.GetSelection with
  | none => simp
  | some o =>
      have ho := row_has_quit m _ o hrow h
      simp only [MenuOption.has_quit, Bool.or_eq_false_iff, beq_eq_false_iff_ne, ne_eq] at ho
      simp only
      split
      · exact ho.1.1.1.1
      · simp

theorem direction_handler_ne_quit (pick : MenuOption → Option Handler) (m : BootMenu)
    (hpick : ∀ o : MenuOption, o.has_quit = false → pick o ≠ some .OnQuit)
    (h : m.has_quit = false) : m.direction_handler pick ≠ some .OnQuit := by
  unfold BootMenu.direction_handler
  cases hrow : m.row m.GetSelection with
  | none => simp
  | some o => exact hpick o (row_has_quit m _ o hrow h)

theorem pick_ne_quit (o : MenuOption) (h : o.has_quit = false) :
    o.left ≠ some .OnQuit ∧ o.right ≠ some .OnQuit ∧ o.up ≠ some .OnQuit ∧
    o.down ≠ some .OnQuit := by
  simp only [MenuOption.has_quit, Bool.or_eq_false_iff, beq_eq_false_iff_ne, ne_eq] at h
  exact ⟨h.1.2, h.2, h.1.1.1.2, h.1.1.2⟩

theorem submenu_no_quit (b : BootMode) (m : MenuId) (hm : m ≠ .main_menu)
    (hinv : b.submenu_has_quit = false) : (b.menu m).has_quit = false := by
  simp only [BootMode.submenu_has_quit, Bool.or_eq_false_iff] at hinv
  obtain ⟨⟨⟨⟨⟨⟨h1, h2⟩, h3⟩, h4⟩, h5⟩, h6⟩, h7⟩ := hinv
  cases m
  · exact absurd rfl hm
  all_goals assumption

theorem menu_setMenu (b : BootMode) (m : MenuId) (x : BootMenu) : (b.setMenu m x).menu m = x := by
  cases m <;> rfl

theorem InputDirection_no_exit (c : MenuCall) (pick : MenuOption → Option Handler)
    (m : MenuId) (f : Frame) (σ : Sys)
    (hpick : ∀ o : MenuOption, o.has_quit = false → pick o ≠ some .OnQuit)
    (hmenu : (σ.boot.menu m).has_quit = false) :
    emits_only (fun e => e != Event.ExitGame) σ (BootMenu_InputDirection c pick m f σ) := by
  unfold BootMenu_InputDirection
  refine emits_only_trans ?_ (invoke_no_exit _ ?_ _)
  · exact emits_only_of_append (l := [.Menu m c]) rfl (by simp)
  · apply direction_handler_ne_quit pick _ hpick
    simp only [Sys.modifyBoot, emit, menu_setMenu]
    exact hmenu

theorem InputConfirm_no_exit (m : MenuId) (σ : Sys) (hmenu : (σ.boot.menu m).has_quit = false) :
    emits_only (fun e => e != Event.ExitGame) σ (BootMenu_InputConfirm m σ) := by
  unfold BootMenu_InputConfirm
  refine emits_only_trans ?_ (invoke_no_exit _ (confirm_handler_ne_quit _ hmenu) _)
  exact emits_only_of_append (l := [.Menu m .InputConfirm]) rfl (by simp)

theorem confirm_no_exit (σ : Sys) (hmenu : (σ.boot.menu σ.boot._active_menu).has_quit = false) :
    emits_only (fun e => e != Event.ExitGame) σ (Update_confirm σ) := by
  have hsound : ∀ s, emits_only (fun e => e != Event.ExitGame) σ (AudioManager_PlaySound s σ) :=
    fun s => emits_only_of_append (l := [.PlaySound s]) rfl (by simp)
  unfold Update_confirm
  simp only
  split_ifs
  · exact emits_only_trans (hsound _) (InputConfirm_no_exit _ _ hmenu)
  · exact InputConfirm_no_exit _ _ hmenu
  · exact emits_only_trans (hsound _) (InputConfirm_no_exit _ _ hmenu)

theorem menu_input_no_exit (f : Frame) (σ : Sys) (hm : σ.boot._active_menu ≠ .main_menu)
    (hinv : σ.boot.submenu_has_quit = false) :
    emits_only (fun e => e != Event.ExitGame) σ (Update_menu_input f σ) := by
  have hmenu := submenu_no_quit σ.boot _ hm hinv
  have h0 : emits_only (fun e => e != Event.ExitGame) σ
      (BootMenu_Update σ.boot._active_menu σ) :=
    emits_only_of_append (l := [.Menu σ.boot._active_menu .Update]) rfl (by simp)
  unfold Update_menu_input
  simp only
  split_ifs with h1
  · exact absurd h1.1 hm
  · exact emits_only_trans h0 (confirm_no_exit _ hmenu)
  · exact emits_only_trans h0
      (InputDirection_no_exit _ _ _ f _ (fun o ho => (pick_ne_quit o ho).1) hmenu)
  · exact emits_only_trans h0
      (InputDirection_no_exit _ _ _ f _ (fun o ho => (pick_ne_quit o ho).2.1) hmenu)
  · exact emits_only_trans h0
      (InputDirection_no_exit _ _ _ f _ (fun o ho => (pick_ne_quit o ho).2.2.1) hmenu)
  · exact emits_only_trans h0
      (InputDirection_no_exit _ _ _ f _ (fun o ho => (pick_ne_quit o ho).2.2.2) hmenu)
  · exact emits_only_trans h0
      (emits_only_of_append (l := [.PlaySound "snd/cancel.wav"]) (cancel_trace _) (by simp))
  · exact h0

theorem Update_no_exit (f : Frame) (σ : Sys) (hm : σ.boot._active_menu ≠ .main_menu)
    (hinv : σ.boot.submenu_has_quit = false) :
    emits_only (fun e => e != Event.ExitGame) σ (Update f σ) := by
  rcases Update_cases f σ with ⟨_, heq⟩ | ⟨_, _, heq⟩ | ⟨_, _, _, heq⟩ | ⟨_, fn, _, heq⟩ |
    ⟨_, _, fn, _, heq⟩ | ⟨_, _, _, fn, _, heq⟩ | ⟨_, _, heq⟩
  · rw [heq]
    split
    · exact emits_only_of_append (l := [.NewGame]) rfl (by simp)
    · exact emits_only_refl _ _
  · rw [heq]
    split
    · exact emits_only_of_trace_eq σ (emits_only_refl _ _) rfl
    · exact emits_only_refl _ _
  · rw [heq]
    exact emits_only_mono (fun e he => by cases e <;> first | rfl | cases he)
      (help_window_trace f σ)
  · rw [heq, joy_capture_eq]
    split_ifs
    · exact emits_only_of_append (l := [_]) rfl (by simp)
    · exact emits_only_of_trace_eq σ (emits_only_refl _ _) rfl
    · exact emits_only_refl _ _
  · rw [heq, joy_axis_capture_eq]
    split_ifs
    · exact emits_only_of_append (l := [_]) rfl (by simp)
    · exact emits_only_of_trace_eq σ (emits_only_refl _ _) rfl
    · exact emits_only_refl _ _
  · rw [heq, key_capture_eq]
    split_ifs
    · exact emits_only_of_append (l := [_]) rfl (by simp)
    · exact emits_only_of_trace_eq σ (emits_only_refl _ _) rfl
    · exact emits_only_refl _ _
  · rw [heq]
    exact menu_input_no_exit f σ hm hinv

/-- C18: in every state reachable from the constructor, an `Update` call that
starts with a submenu active never calls `SystemManager->ExitGame()`, whatever
the frame reports; when it routes input to that submenu and a quit press is
reported without a confirm or direction press, all it does is play the cancel
sound and move the active menu to its parent; and an `Update` call that routes
input to the main menu with a quit press calls `ExitGame` and nothing else but
the menu's own `Update`. -/
theorem C18_quit_only_at_main_menu (f : Frame) (b : BootMode) (w : World) (hr : Reachable b) :
    (b._active_menu ≠ .main_menu → Event.ExitGame ∉ (run_Update f b w).trace) ∧
    (b._active_menu ≠ .main_menu → reaches_capture_check b w → no_capture_pending b →
      f.QuitPress = true → f.ConfirmPress = false → f.LeftPress = false →
      f.RightPress = false → f.UpPress = false → f.DownPress = false →
      (run_Update f b w).boot._active_menu = declared_parent b._active_menu ∧
      (run_Update f b w).trace =
        [.Menu b._active_menu .Update, .PlaySound "snd/cancel.wav"]) ∧
    (b._active_menu = .main_menu → reaches_capture_check b w → no_capture_pending b →
      f.QuitPress = true →
      (run_Update f b w).trace = [.Menu .main_menu .Update, .ExitGame]) := by
  refine ⟨fun hm hmem => ?_, fun hm hreach hpending hq hc hl hrt hu hd => ?_,
    fun hm hreach hpending hq => ?_⟩
  · have h := Update_no_exit f { boot := b, world := w, trace := [] } hm
      (reachable_submenus b hr)
    rcases h.2 _ hmem with h' | h'
    · simp at h'
    · simp at h'
  · unfold run_Update
    rw [Update_menu f _ hreach hpending]
    cases hmenu : b._active_menu <;> cases hcp : f.CancelPress <;>
      simp [Update_menu_input, Update_cancel, BootMenu_Update, emit, AudioManager_PlaySound,
        Sys.modifyBoot, declared_parent, hmenu, hq, hc, hl, hrt, hu, hd, hcp] at hm ⊢
  · unfold run_Update
    rw [Update_menu f _ hreach hpending]
    simp [Update_menu_input, BootMenu_Update, emit, hm, hq]

theorem sample_at_main_menu_reachable : Reachable sample_at_main_menu :=
  Reachable.update sample_constructed.boot sample_world [] { Frame.idle with AnyKeyPress := true }
    (Reachable.constructed sample_world sample_constructed rfl)

theorem sample_at_options_menu_reachable : Reachable sample_at_options_menu :=
  Reachable.update _ sample_world [] { Frame.idle with ConfirmPress := true }
    (Reachable.update sample_at_main_menu sample_world []
      { Frame.idle with DownPress := true, cursor := 2 } sample_at_main_menu_reachable)

/-- C18 at concrete inputs, both reached from the constructor by `Update` calls:
with the options menu active, a frame that reports quit and cancel moves the
active menu to the main menu and `ExitGame` is not called; with the main menu
active the same frame calls `ExitGame`. -/
theorem C18_quit_only_at_main_menu_witness :
    Event.ExitGame ∉ (run_Update { Frame.idle with QuitPress := true, CancelPress := true }
      sample_at_options_menu sample_world).trace ∧
    (run_Update { Frame.idle with QuitPress := true, CancelPress := true }
      sample_at_options_menu sample_world).boot._active_menu = .main_menu ∧
    (run_Update { Frame.idle with QuitPress := true, CancelPress := true }
      sample_at_main_menu sample_world).trace = [.Menu .main_menu .Update, .ExitGame] :=
  ⟨(C18_quit_only_at_main_menu { Frame.idle with QuitPress := true, CancelPress := true }
      sample_at_options_menu sample_world sample_at_options_menu_reachable).1 (by decide),
   ((C18_quit_only_at_main_menu { Frame.idle with QuitPress := true, CancelPress := true }
      sample_at_options_menu sample_world sample_at_options_menu_reachable).2.1 (by decide)
      ⟨by decide, by decide, by decide⟩ ⟨by decide, by decide, by decide⟩
      rfl rfl rfl rfl rfl rfl).1,
   (C18_quit_only_at_main_menu { Frame.idle with QuitPress := true, CancelPress := true }
      sample_at_main_menu sample_world sample_at_main_menu_reachable).2.2 (by decide)
      ⟨by decide, by decide, by decide⟩ ⟨by decide, by decide, by decide⟩ rfl⟩

/-! ### C19: entering a submenu and cancelling -/

/-- C19: each submenu-entry handler is bound as the confirm action of a row by
the setup method of the menu `m` it is listed with (`_OnOptions` in the main
menu; `_OnVideoOptions`, `_OnAudioOptions`, `_OnLanguageOptions`,
`_OnKeySettings`, `_OnJoySettings` in the options menu; `_OnResolution` in the
video menu); it sets the active menu to a menu other than `m` whose declared
parent is `m`, and an `Update` call that then handles a cancel press (menu
state, not exiting, help window inactive, nothing pending, no confirm or
direction press) leaves the active menu at exactly `m`. -/
theorem C19_enter_submenu_then_cancel (h : Handler) (m : MenuId)
    (hmem : (h, m) ∈ submenu_entry_handlers) (f : Frame) (b : BootMode) (w : World)
    (hreach : reaches_capture_check b w) (hpending : no_capture_pending b)
    (hconfirm : f.ConfirmPress = false) (hleft : f.LeftPress = false)
    (hright : f.RightPress = false) (hup : f.UpPress = false) (hdown : f.DownPress = false)
    (hcancel : f.CancelPress = true) :
    (∀ σ, ∃ o ∈ ((setup_method m σ).boot.menu m).options, o.confirm = some h) ∧
    (h.body { boot := b, world := w, trace := [] }).boot._active_menu ≠ m ∧
    declared_parent (h.body { boot := b, world := w, trace := [] }).boot._active_menu = m ∧
    (Update f (h.body { boot := b, world := w, trace := [] })).boot._active_menu = m := by
  obtain ⟨hexit, hstate, hhelp⟩ := hreach
  obtain ⟨hk, hj, ha⟩ := hpending
  simp only [submenu_entry_handlers, List.mem_cons, Prod.mk.injEq, List.not_mem_nil] at hmem
  iterate 7
    rcases hmem with hfirst | hmem
    · obtain ⟨rfl, rfl⟩ := hfirst
      refine ⟨fun σ => ?_, by simp [Handler.body, _OnOptions, _OnVideoOptions,
        _OnAudioOptions, _OnLanguageOptions, _OnKeySettings, _OnJoySettings, _OnResolution,
        _RefreshVideoOptions, _RefreshAudioOptions, _RefreshKeySettings, _RefreshJoySettings,
        Sys.modifyBoot], rfl, ?_⟩
      · solve
          | (cases hr : (_SavesAvailable σ.world.default_max_saves σ).1 <;>
              simp [setup_method, _SetupMainMenu, hr, AudioManager_LoadSound, emit,
                Sys.modifyBoot, BootMode.menu, BootMenu.AddOption, BootMenu.ClearOptions,
                BootMenu.SetSelection, BootMenu.EnableOption, List.modify])
          | simp [setup_method, _SetupOptionsMenu, _SetupVideoOptionsMenu, Sys.modifyBoot,
              BootMode.menu, BootMenu.AddOption, BootMenu.ClearOptions, BootMenu.SetSelection]
      · cases hq : f.QuitPress <;>
          simp [Handler.body, _OnOptions, _OnVideoOptions, _OnAudioOptions,
            _OnLanguageOptions, _OnKeySettings, _OnJoySettings, _OnResolution,
            _RefreshVideoOptions, _RefreshAudioOptions, _RefreshKeySettings,
            _RefreshJoySettings, Update, hstate, hexit, hhelp, hk, hj, ha, hconfirm, hleft,
            hright, hup, hdown, hcancel, hq, Update_menu_input, Update_cancel, BootMenu_Update,
            emit, AudioManager_PlaySound, Sys.modifyBoot]
  exact hmem.elim

/-- C19 at a concrete input: `_OnOptions` run from the main menu, then a cancel
press. -/
theorem C19_enter_submenu_then_cancel_witness :
    (_OnOptions sample_sys).boot._active_menu ≠ .main_menu ∧
    (Update { Frame.idle with CancelPress := true } (_OnOptions sample_sys)).boot._active_menu
      = .main_menu :=
  ⟨(C19_enter_submenu_then_cancel .OnOptions .main_menu (by decide)
      { Frame.idle with CancelPress := true } sample_boot sample_world ⟨rfl, rfl, rfl⟩
      ⟨rfl, rfl, rfl⟩ rfl rfl rfl rfl rfl rfl).2.1,
   (C19_enter_submenu_then_cancel .OnOptions .main_menu (by decide)
      { Frame.idle with CancelPress := true } sample_boot sample_world ⟨rfl, rfl, rfl⟩
      ⟨rfl, rfl, rfl⟩ rfl rfl rfl rfl rfl rfl).2.2.2⟩

/-! ### C20: a capture resolved right after arming -/

theorem Get_setBinding (w : World) (bd : Binding) (v : Int) :
    InputManager_Get (w.setBinding bd v) bd = v := by
  cases bd <;> rfl

theorem Update_key_resolves (f : Frame) (σ : Sys) (fn : KeySetter) (v : Int) (bd : Binding)
    (hreach : reaches_capture_check σ.boot σ.world)
    (hj : σ.boot._joy_setting_function = none)
    (ha : σ.boot._joy_axis_setting_function = none)
    (hk : σ.boot._key_setting_function = some fn) (hbd : fn.binding = bd)
    (hany : f.AnyKeyPress = true) (htype : f.MostRecentEvent.type = SDL_KEYDOWN)
    (hv : f.MostRecentEvent.key_keysym_sym = v)
    (htrace : σ.trace.filter Event.isInputSet = []) :
    (Update f σ).trace.filter Event.isInputSet = [.InputSet bd v] ∧
    InputManager_Get (Update f σ).world bd = v := by
  rw [Update_key f σ fn hreach hj ha hk, key_capture_eq]
  subst hbd hv
  simp [hany, htype, htrace, Event.isInputSet, Get_setBinding]

theorem Update_joy_resolves (f : Frame) (σ : Sys) (fn : JoySetter) (v : Int) (bd : Binding)
    (hreach : reaches_capture_check σ.boot σ.world)
    (hj : σ.boot._joy_setting_function = some fn) (hbd : fn.binding = bd)
    (hany : f.AnyKeyPress = true) (htype : f.MostRecentEvent.type = SDL_JOYBUTTONDOWN)
    (hv : f.MostRecentEvent.jbutton_button = v)
    (htrace : σ.trace.filter Event.isInputSet = []) :
    (Update f σ).trace.filter Event.isInputSet = [.InputSet bd v] ∧
    InputManager_Get (Update f σ).world bd = v := by
  rw [Update_joy f σ fn hreach hj, joy_capture_eq]
  subst hbd hv
  simp [hany, htype, htrace, Event.isInputSet, Get_setBinding]

theorem Update_joy_axis_resolves (f : Frame) (σ : Sys) (fn : AxisSetter) (v : Int)
    (bd : Binding)
    (hreach : reaches_capture_check σ.boot σ.world)
    (hj : σ.boot._joy_setting_function = none)
    (ha : σ.boot._joy_axis_setting_function = some fn) (hbd : fn.binding = bd)
    (hv : to_int8 f.LastAxisMoved = v) (hne : v ≠ -1)
    (htrace : σ.trace.filter Event.isInputSet = []) :
    (Update f σ).trace.filter Event.isInputSet = [.InputSet bd v] ∧
    InputManager_Get (Update f σ).world bd = v := by
  rw [Update_joy_axis f σ fn hreach hj ha, joy_axis_capture_eq]
  subst hbd hv
  simp [hne, htrace, Event.isInputSet, Get_setBinding]

/-- C20: for each of the fourteen rebind options (eight keys, four joystick
buttons, two axes), with `Update` past its early returns (menu state, not
exiting, help window inactive) and nothing pending, running the option's
`_Redefine*` handler and then one `Update` whose frame delivers the matching raw
event with value `v` calls exactly one `InputManager` setter, the one of that
option's binding, with argument `v`, and the binding then reads `v`; this holds
in particular when the frame reports no cancel press. -/
theorem C20_rebind_wiring (h : Handler) (bd : Binding) (hmem : (h, bd) ∈ rebind_options)
    (f : Frame) (b : BootMode) (w : World) (v : Int)
    (hreach : reaches_capture_check b w) (hpending : no_capture_pending b)
    (hdel : delivers f bd v) :
    (Update f (h.body { boot := b, world := w, trace := [] })).trace.filter Event.isInputSet
      = [.InputSet bd v] ∧
    InputManager_Get (Update f (h.body { boot := b, world := w, trace := [] })).world bd
      = v := by
  obtain ⟨hk, hj, ha⟩ := hpending
  simp only [rebind_options, List.mem_cons, Prod.mk.injEq, List.not_mem_nil] at hmem
  iterate 14
    rcases hmem with hfirst | hmem
    · obtain ⟨rfl, rfl⟩ := hfirst
      simp only [delivers, Binding.slot] at hdel
      first
        | exact Update_key_resolves f _ _ v _ hreach hj ha rfl rfl hdel.1 hdel.2.1 hdel.2.2 rfl
        | exact Update_joy_resolves f _ _ v _ hreach rfl rfl hdel.1 hdel.2.1 hdel.2.2 rfl
        | exact Update_joy_axis_resolves f _ _ v _ hreach hj rfl rfl hdel.1 hdel.2 rfl
  exact hmem.elim

/-- C20 at two concrete inputs: `_RedefineUpKey` followed by a key-down with
keysym 119, and `_RedefineXAxisJoy` followed by a move of axis 2. -/
theorem C20_rebind_wiring_witness :
    (Update { Frame.idle with AnyKeyPress := true, MostRecentEvent := ⟨SDL_KEYDOWN, 119, 0⟩ }
      (_RedefineUpKey sample_sys)).trace.filter Event.isInputSet = [.InputSet .UpKey 119] ∧
    (Update { Frame.idle with LastAxisMoved := 2 }
      (_RedefineXAxisJoy sample_sys)).trace.filter Event.isInputSet
      = [.InputSet .XAxisJoy 2] :=
  ⟨(C20_rebind_wiring .RedefineUpKey .UpKey (by decide)
      { Frame.idle with AnyKeyPress := true, MostRecentEvent := ⟨SDL_KEYDOWN, 119, 0⟩ }
      sample_boot sample_world 119 ⟨rfl, rfl, rfl⟩ ⟨rfl, rfl, rfl⟩ ⟨rfl, rfl, rfl⟩).1,
   (C20_rebind_wiring .RedefineXAxisJoy .XAxisJoy (by decide)
      { Frame.idle with LastAxisMoved := 2 }
      sample_boot sample_world 2 ⟨rfl, rfl, rfl⟩ ⟨rfl, rfl, rfl⟩ ⟨by decide, by decide⟩).1⟩

/-! ### The calls of `_SaveSettingsFile`, in order -/

theorem save_fields_writes (d : ScriptDescriptor) (σ : Sys) (h : d.open_tables = []) :
    (save_fields (d, σ)).2.trace = σ.trace ++ settings_field_writes σ.world := by
  simp only [save_fields, ScriptDescriptor.Modify, ScriptDescriptor.path,
    ScriptDescriptor.OpenTable, h, emit, settings_field_writes, InputManager_Get,
    List.nil_append, List.cons_append, String.intercalate, String.intercalate.go,
    String.reduceAppend, List.append_assoc, List.singleton_append]

theorem pre_open_calls (file : String) (σ : Sys) :
    (if (!(DoesFileExist file σ).1) = true then
        CopyFile "dat/config/settings.lua" file (DoesFileExist file σ).2
      else (DoesFileExist file σ).2).trace = σ.trace ++ save_pre_open_calls file σ.world := by
  unfold save_pre_open_calls
  cases hex : (σ.world.files.lookup file).isSome
  · simp only [DoesFileExist, hex, Bool.not_false, if_true, CopyFile, emit]
    split <;> simp
  · simp [DoesFileExist, hex, emit]

theorem SaveSettingsFile_calls (filename : String) (σ : Sys)
    (hsave : (_SaveSettingsFile filename σ).1 = true) :
    (_SaveSettingsFile filename σ).2.trace =
      σ.trace ++ save_pre_open_calls (saved_file_path filename σ.world) σ.world ++
        [.OpenFile (saved_file_path filename σ.world)] ++ settings_field_writes σ.world ++
        [.CommitChanges, .CloseFile] := by
  have hdirty : σ.boot._has_modified_settings = true := by
    cases hd : σ.boot._has_modified_settings
    · simp [_SaveSettingsFile, hd] at hsave
    · rfl
  unfold _SaveSettingsFile at hsave ⊢
  simp only [hdirty, Bool.not_true, Bool.false_eq_true, if_false] at hsave ⊢
  have hfile : (if filename = "" then σ.world.user_data_path false ++ "/settings.lua"
    else σ.world.user_data_path false ++ "/" ++ filename)
      = saved_file_path filename σ.world := rfl
  rw [hfile] at hsave ⊢
  generalize saved_file_path filename σ.world = file at hsave ⊢
  have hpre := pre_open_calls file σ
  obtain ⟨fs, hpre_world⟩ := pre_open_world file σ
  generalize (if (!(DoesFileExist file σ).1) = true then
      CopyFile "dat/config/settings.lua" file (DoesFileExist file σ).2
    else (DoesFileExist file σ).2) = pre at hpre hpre_world hsave ⊢
  rcases hres : ScriptDescriptor_OpenFile file pre with ⟨o, σ'⟩
  rw [hres] at hsave
  cases o with
  | none => simp at hsave
  | some d =>
      obtain ⟨content, _, _, hd, hσ'⟩ := OpenFile_some file pre σ' d hres
      have hw : settings_field_writes σ'.world = settings_field_writes σ.world := by
        rw [hσ']
        simp only [emit, hpre_world]
        rfl
      simp only [Sys.modifyBoot, ScriptDescriptor_CloseFile, emit, CommitChanges_trace,
        save_fields_writes d σ' (by rw [hd]), hw]
      rw [hσ']
      simp only [emit, hpre, List.append_assoc, List.singleton_append, List.cons_append,
        List.nil_append]

theorem field_writes_in_saved_script (w : World) (old : Script) (p : String) (v : Value)
    (h : Event.Modify p v ∈ settings_field_writes w) :
    (saved_script w old).lookup p = some v := by
  have h1 := saved_script_lookup w old
  have h2 := saved_script_lookup_keys w old
  have h3 := saved_script_lookup_joystick w old
  simp only [InputManager_Get] at h2 h3
  simp only [settings_field_writes, List.mem_cons, Event.Modify.injEq, List.not_mem_nil] at h
  iterate 22
    rcases h with hfirst | h
    · obtain ⟨rfl, rfl⟩ := hfirst
      simp only [h1, h2, h3]
  exact h.elim

/-- C21: a `_SaveSettingsFile` call that returns true has made, in this order,
the existence check (with the copy of the template when the file was missing),
the open, the field writes of `settings_field_writes` (first_start 0, then the
language, screen width and height, fullscreen, smoothing, music and sound
volume, the eight keys and the six joystick fields, each with the value its
manager holds at the call), one commit and the close: the commit is the only
one and comes after every field write.  When the file can be written, it then
holds each of these fields with that value. -/
theorem C21_save_writes_every_field_then_commits (filename : String) (b : BootMode) (w : World)
    (hsave : (_SaveSettingsFile filename { boot := b, world := w, trace := [] }).1 = true) :
    (_SaveSettingsFile filename { boot := b, world := w, trace := [] }).2.trace =
      save_pre_open_calls (saved_file_path filename w) w ++
        [.OpenFile (saved_file_path filename w)] ++ settings_field_writes w ++
        [.CommitChanges, .CloseFile] ∧
    (_SaveSettingsFile filename
      { boot := b, world := w, trace := [] }).2.trace.count Event.CommitChanges = 1 ∧
    (saved_file_path filename w ∉ w.unwritable →
      ∀ p v, Event.Modify p v ∈ settings_field_writes w →
        ((_SaveSettingsFile filename
          { boot := b, world := w, trace := [] }).2.world.files.lookup
            (saved_file_path filename w)).bind (fun s => s.lookup p) = some v) := by
  have hcalls := SaveSettingsFile_calls filename { boot := b, world := w, trace := [] } hsave
  simp only [List.nil_append] at hcalls
  have hdirty : b._has_modified_settings = true := by
    cases hd : b._has_modified_settings
    · simp [_SaveSettingsFile, hd] at hsave
    · rfl
  refine ⟨hcalls, ?_, fun hwritable p v hmem => ?_⟩
  · rw [hcalls]
    simp only [save_pre_open_calls, settings_field_writes]
    split <;> simp
  · obtain ⟨old, hwritten⟩ := SaveSettingsFile_written filename b w hdirty hsave hwritable
    rw [hwritten, Option.some_bind]
    exact field_writes_in_saved_script w old p v hmem

/-- C21 at a concrete input: the dirty sample boot mode saves to the user
settings file of the sample world, which exists and can be written. -/
theorem C21_save_writes_every_field_then_commits_witness :
    (_SaveSettingsFile "" { boot := sample_dirty, world := sample_world, trace := [] }).2.trace =
      [.DoesFileExist "user/settings.lua", .OpenFile "user/settings.lua"] ++
        settings_field_writes sample_world ++ [.CommitChanges, .CloseFile] ∧
    ((_SaveSettingsFile ""
      { boot := sample_dirty, world := sample_world, trace := [] }).2.world.files.lookup
        "user/settings.lua").bind (fun s => s.lookup "settings.key_settings.up")
      = some (.int 273) :=
  ⟨(C21_save_writes_every_field_then_commits "" sample_dirty sample_world (by decide)).1,
   (C21_save_writes_every_field_then_commits "" sample_dirty sample_world (by decide)).2.2
     (by decide) _ _ (by decide)⟩

/-! ### The input calls made on a menu -/

theorem SavesAvailable_fold_menu_inputs (p : String) (l : List Nat) (acc : Nat × Sys) :
    (l.foldl (fun (acc : Nat × Sys) id =>
        let e := DoesFileExist (saved_game_filename p id) acc.2
        (if e.1 then acc.1 + 1 else acc.1, e.2)) acc).2.trace.filter Event.isMenuInput
      = acc.2.trace.filter Event.isMenuInput := by
  induction l generalizing acc with
  | nil => rfl
  | cons x xs ih =>
      simp only [List.foldl_cons]
      rw [ih]
      simp [DoesFileExist, emit, List.filter_append, Event.isMenuInput]

theorem ReloadTranslatableMenus_menu_inputs (σ : Sys) :
    (_ReloadTranslatableMenus σ).trace.filter Event.isMenuInput
      = σ.trace.filter Event.isMenuInput := by
  have h : (_SavesAvailable σ.world.default_max_saves σ).2.trace.filter Event.isMenuInput
      = σ.trace.filter Event.isMenuInput := by
    unfold _SavesAvailable
    exact SavesAvailable_fold_menu_inputs _ _ (0, σ)
  have ht : (_ReloadTranslatableMenus σ).trace =
      (_SavesAvailable σ.world.default_max_saves σ).2.trace ++
        [.LoadSound "snd/confirm.wav", .LoadSound "snd/cancel.wav", .LoadSound "snd/bump.wav",
         .LoadSound "snd/volume_test.wav"] := by
    simp only [_ReloadTranslatableMenus, _SetupMainMenu, _SetupOptionsMenu,
      _SetupVideoOptionsMenu, _SetupAudioOptionsMenu, _SetupKeySettingsMenu,
      _SetupJoySettingsMenu, _SetupResolutionMenu, AudioManager_LoadSound, emit,
      Sys.modifyBoot, List.append_assoc, List.singleton_append]
    rfl
  rw [ht, List.filter_append, h]
  simp [Event.isMenuInput]

theorem handler_menu_inputs (h : Handler) (σ : Sys) :
    (h.body σ).trace.filter Event.isMenuInput = σ.trace.filter Event.isMenuInput := by
  cases h
  case OnLanguageSelect =>
    simp only [Handler.body, _OnLanguageSelect]
    cases selected_po_file σ.boot with
    | none => rfl
    | some lang =>
      simp only [Option.getD_some, emit, List.filter_append,
        ReloadTranslatableMenus_menu_inputs]
      simp [SystemManager_SetLanguage, emit, Sys.modifyBoot, Event.isMenuInput]
  case OnResolution640x480 =>
    simp only [Handler.body, _OnResolution640x480]
    split <;> simp [_ChangeResolution, VideoManager_SetResolution, VideoManager_ApplySettings,
      _RefreshVideoOptions, emit, Sys.modifyBoot, Event.isMenuInput]
  case OnResolution800x600 =>
    simp only [Handler.body, _OnResolution800x600]
    split <;> simp [_ChangeResolution, VideoManager_SetResolution, VideoManager_ApplySettings,
      _RefreshVideoOptions, emit, Sys.modifyBoot, Event.isMenuInput]
  case OnResolution1024x768 =>
    simp only [Handler.body, _OnResolution1024x768]
    split <;> simp [_ChangeResolution, VideoManager_SetResolution, VideoManager_ApplySettings,
      _RefreshVideoOptions, emit, Sys.modifyBoot, Event.isMenuInput]
  case OnResolution1280x1024 =>
    simp only [Handler.body, _OnResolution1280x1024]
    split <;> simp [_ChangeResolution, VideoManager_SetResolution, VideoManager_ApplySettings,
      _RefreshVideoOptions, emit, Sys.modifyBoot, Event.isMenuInput]
  all_goals
    simp [Handler.body, _OnNewGame, _OnLoadGame, _OnOptions, _OnQuit, _OnVideoOptions,
      _OnAudioOptions, _OnLanguageOptions, _OnKeySettings, _OnJoySettings, _OnResolution,
      _OnToggleFullscreen, _OnBrightnessLeft, _OnBrightnessRight, _OnTogglePixelArtSmoothed,
      _OnSoundLeft, _OnSoundRight, _OnMusicLeft, _OnMusicRight, _OnRestoreDefaultKeys,
      _OnRestoreDefaultJoyButtons, _RedefineUpKey, _RedefineDownKey, _RedefineLeftKey,
      _RedefineRightKey, _RedefineConfirmKey, _RedefineCancelKey, _RedefineMenuKey,
      _RedefinePauseKey, _RedefineXAxisJoy, _RedefineYAxisJoy, _RedefineConfirmJoy,
      _RedefineCancelJoy, _RedefineMenuJoy, _RedefinePauseJoy, _ShowMessageWindow_bool,
      _ShowMessageWindow, _RefreshVideoOptions, _RefreshAudioOptions, _RefreshKeySettings,
      _RefreshJoySettings, VideoManager_ToggleFullscreen, VideoManager_ApplySettings,
      VideoManager_SetPixelArtSmoothed, VideoManager_SetGamma, AudioManager_SetSoundVolume,
      AudioManager_SetMusicVolume, AudioManager_PlaySound, InputManager_RestoreDefaultKeys,
      InputManager_RestoreDefaultJoyButtons, emit, Sys.modifyBoot, Event.isMenuInput]

theorem invoke_menu_inputs (o : Option Handler) (σ : Sys) :
    (invoke o σ).trace.filter Event.isMenuInput = σ.trace.filter Event.isMenuInput := by
  cases o with
  | none => rfl
  | some h =>
      simp only [invoke, handler_menu_inputs]
      simp [emit, Event.isMenuInput]

theorem confirm_menu_inputs (σ : Sys) :
    (Update_confirm σ).trace.filter Event.isMenuInput =
      σ.trace.filter Event.isMenuInput ++ [.Menu σ.boot._active_menu .InputConfirm] := by
  simp only [Update_confirm, BootMenu_InputConfirm, invoke_menu_inputs]
  split_ifs <;> simp [AudioManager_PlaySound, emit, Event.isMenuInput]

theorem direction_menu_inputs (c : MenuCall) (pick : MenuOption → Option Handler) (m : MenuId)
    (f : Frame) (σ : Sys) (hc : c ≠ .Update) :
    (BootMenu_InputDirection c pick m f σ).trace.filter Event.isMenuInput =
      σ.trace.filter Event.isMenuInput ++ [.Menu m c] := by
  simp only [BootMenu_InputDirection, invoke_menu_inputs]
  cases c <;> simp [Sys.modifyBoot, emit, Event.isMenuInput] at hc ⊢

theorem cancel_menu_inputs (σ : Sys) :
    (Update_cancel σ).trace.filter Event.isMenuInput = σ.trace.filter Event.isMenuInput := by
  rw [cancel_trace]
  simp [Event.isMenuInput]

/-! ### C22: one action per frame, by priority -/

theorem menu_input_routed (f : Frame) (σ : Sys)
    (hquit : ¬ (σ.boot._active_menu = .main_menu ∧ f.QuitPress = true)) :
    Update_menu_input f σ =
      ((routed_action f).map
        (fun a => a.perform f (BootMenu_Update σ.boot._active_menu σ))).getD
        (BootMenu_Update σ.boot._active_menu σ) := by
  have hquit' : ¬ ((BootMenu_Update σ.boot._active_menu σ).boot._active_menu = .main_menu ∧
      f.QuitPress = true) := hquit
  unfold Update_menu_input
  simp only [hquit', if_false]
  generalize BootMenu_Update σ.boot._active_menu σ = σ'
  unfold routed_action presses_by_priority
  generalize (f.CancelPress || f.QuitPress) = x
  cases f.ConfirmPress <;> cases f.LeftPress <;> cases f.RightPress <;> cases f.UpPress <;>
    cases f.DownPress <;> cases x <;> rfl

/-- C22: an `Update` call that reaches menu routing (menu state, not exiting,
help window inactive, nothing pending, no quit press at the main menu) calls
`_active_menu->Update()` and then performs the one action the priority
confirm, left, right, up, down, cancel or quit picks among the presses reported,
or none when none is reported; the input methods called on a menu in that frame
are the single one of that action, and none for cancel navigation. -/
theorem C22_one_routed_action_by_priority (f : Frame) (b : BootMode) (w : World)
    (hreach : reaches_capture_check b w) (hpending : no_capture_pending b)
    (hquit : ¬ (b._active_menu = .main_menu ∧ f.QuitPress = true)) :
    run_Update f b w =
      ((routed_action f).map
        (fun a => a.perform f
          (BootMenu_Update b._active_menu { boot := b, world := w, trace := [] }))).getD
        (BootMenu_Update b._active_menu { boot := b, world := w, trace := [] }) ∧
    (run_Update f b w).trace.filter Event.isMenuInput =
      ((routed_action f).bind RoutedAction.menu_call).toList.map (Event.Menu b._active_menu) ∧
    ((run_Update f b w).trace.filter Event.isMenuInput).length ≤ 1 := by
  have heq : run_Update f b w = _ :=
    (Update_menu f { boot := b, world := w, trace := [] } hreach hpending).trans
      (menu_input_routed f { boot := b, world := w, trace := [] } hquit)
  have hfilter : (run_Update f b w).trace.filter Event.isMenuInput =
      ((routed_action f).bind RoutedAction.menu_call).toList.map
        (Event.Menu b._active_menu) := by
    rw [heq]
    cases routed_action f with
    | none => rfl
    | some a =>
        cases a <;>
          simp [RoutedAction.perform, RoutedAction.menu_call, confirm_menu_inputs,
            direction_menu_inputs, cancel_menu_inputs, BootMenu_Update, emit,
            Event.isMenuInput]
  refine ⟨heq, hfilter, ?_⟩
  rw [hfilter]
  cases (routed_action f).bind RoutedAction.menu_call <;> simp

/-- C22 at a concrete input: the options menu is active and the frame reports
confirm, left and cancel presses together; only `InputConfirm` is called, and
the confirm action of the selected row opens the video menu. -/
theorem C22_one_routed_action_by_priority_witness :
    (run_Update { Frame.idle with ConfirmPress := true, LeftPress := true, CancelPress := true }
      sample_at_options_menu sample_world).trace.filter Event.isMenuInput
      = [.Menu .options_menu .InputConfirm] ∧
    (run_Update { Frame.idle with ConfirmPress := true, LeftPress := true, CancelPress := true }
      sample_at_options_menu sample_world).boot._active_menu = .video_options_menu :=
  ⟨(C22_one_routed_action_by_priority
      { Frame.idle with ConfirmPress := true, LeftPress := true, CancelPress := true }
      sample_at_options_menu sample_world ⟨by decide, by decide, by decide⟩
      ⟨by decide, by decide, by decide⟩ (fun h => absurd h.1 (by decide))).2.1,
   congrArg (fun σ => σ.boot._active_menu) (C22_one_routed_action_by_priority
      { Frame.idle with ConfirmPress := true, LeftPress := true, CancelPress := true }
      sample_at_options_menu sample_world ⟨by decide, by decide, by decide⟩
      ⟨by decide, by decide, by decide⟩ (fun h => absurd h.1 (by decide))).1⟩

/-! ### C23: the resolution handlers between presets -/

/-- C23: with the screen at one of the four presets, the handler
`_OnResolutionWxH` leaves the screen at exactly W x H and the active menu as it
was; when the screen was at another preset it does what `_ChangeResolution(W, H)`
does, which sets the dirty flag, and when the screen was at W x H already it does
nothing. -/
theorem C23_resolution_handler_between_presets (h : Handler) (width height : Int)
    (hmem : (h, width, height) ∈ resolution_handlers) (σ : Sys)
    (hpreset : is_preset σ.world.screen_width σ.world.screen_height) :
    (h.body σ).world.screen_width = width ∧ (h.body σ).world.screen_height = height ∧
    (h.body σ).boot._active_menu = σ.boot._active_menu ∧
    (¬ (σ.world.screen_width = width ∧ σ.world.screen_height = height) →
      h.body σ = _ChangeResolution width height σ ∧
      (h.body σ).boot._has_modified_settings = true ∧
      (h.body σ).trace = σ.trace ++ [.SetResolution width height, .ApplySettings]) ∧
    (σ.world.screen_width = width ∧ σ.world.screen_height = height → h.body σ = σ) := by
  simp only [resolution_handlers, List.mem_cons, Prod.mk.injEq, List.not_mem_nil] at hmem
  iterate 4
    rcases hmem with hfirst | hmem
    · obtain ⟨rfl, rfl, rfl⟩ := hfirst
      rcases hpreset with ⟨h1, h2⟩ | ⟨h1, h2⟩ | ⟨h1, h2⟩ | ⟨h1, h2⟩ <;>
        simp [Handler.body, _OnResolution640x480, _OnResolution800x600,
          _OnResolution1024x768, _OnResolution1280x1024, _ChangeResolution,
          VideoManager_SetResolution, VideoManager_ApplySettings, _RefreshVideoOptions, emit,
          Sys.modifyBoot, h1, h2]
  exact hmem.elim

/-- C23 at a concrete input: the sample screen is 640 x 480 and
`_OnResolution800x600` is run. -/
theorem C23_resolution_handler_between_presets_witness :
    (_OnResolution800x600 sample_sys).world.screen_width = 800 ∧
    (_OnResolution800x600 sample_sys).world.screen_height = 600 ∧
    (_OnResolution800x600 sample_sys).boot._has_modified_settings = true :=
  ⟨(C23_resolution_handler_between_presets .OnResolution800x600 800 600 (by decide) sample_sys
      (Or.inl ⟨rfl, rfl⟩)).1,
   (C23_resolution_handler_between_presets .OnResolution800x600 800 600 (by decide) sample_sys
      (Or.inl ⟨rfl, rfl⟩)).2.1,
   ((C23_resolution_handler_between_presets .OnResolution800x600 800 600 (by decide) sample_sys
      (Or.inl ⟨rfl, rfl⟩)).2.2.2.1 (by decide)).2.1⟩

/-! ### Sample states with a capture armed -/

theorem sample_at_key_settings_menu_reachable : Reachable sample_at_key_settings_menu :=
  Reachable.update _ sample_world [] { Frame.idle with ConfirmPress := true }
    (Reachable.update sample_at_options_menu sample_world []
      { Frame.idle with DownPress := true, cursor := 3 } sample_at_options_menu_reachable)

theorem sample_key_armed_reachable : Reachable sample_key_armed :=
  Reachable.update _ sample_world [] { Frame.idle with ConfirmPress := true }
    (Reachable.update sample_at_key_settings_menu sample_world []
      { Frame.idle with UpPress := true, cursor := 0 } sample_at_key_settings_menu_reachable)

theorem sample_at_joy_settings_menu_reachable : Reachable sample_at_joy_settings_menu :=
  Reachable.update _ sample_world [] { Frame.idle with ConfirmPress := true }
    (Reachable.update sample_at_options_menu sample_world []
      { Frame.idle with DownPress := true, cursor := 4 } sample_at_options_menu_reachable)

theorem sample_axis_armed_reachable : Reachable sample_axis_armed :=
  Reachable.update _ sample_world [] { Frame.idle with ConfirmPress := true }
    (Reachable.update sample_at_joy_settings_menu sample_world []
      { Frame.idle with UpPress := true, cursor := 0 } sample_at_joy_settings_menu_reachable)

theorem sample_joy_armed_reachable : Reachable sample_joy_armed :=
  Reachable.update _ sample_world [] { Frame.idle with ConfirmPress := true }
    (Reachable.update sample_at_joy_settings_menu sample_world []
      { Frame.idle with DownPress := true, cursor := 2 } sample_at_joy_settings_menu_reachable)

/-- C2 at concrete reachable states in which a capture is armed, each reached
from the constructor by `Update` calls alone: after `_RedefineUpKey` has run
from the key settings menu the key pointer is non-null and the other two are
null; after `_RedefineConfirmJoy` has run from the joystick settings menu the
button pointer is the non-null one; after `_RedefineXAxisJoy` the axis pointer;
and one more frame with a confirm press, which the pending key capture keeps
from the menu, leaves the key pointer the only non-null one. -/
theorem C2_reachable_at_most_one_pending_witness :
    (at_most_one_pending sample_key_armed ∧
      sample_key_armed._key_setting_function = some .SetUpKey) ∧
    (at_most_one_pending sample_joy_armed ∧
      sample_joy_armed._joy_setting_function = some .SetConfirmJoy) ∧
    (at_most_one_pending sample_axis_armed ∧
      sample_axis_armed._joy_axis_setting_function = some .SetXAxisJoy) ∧
    (at_most_one_pending
        (Update { Frame.idle with ConfirmPress := true }
          { boot := sample_key_armed, world := sample_world, trace := [] }).boot ∧
      (Update { Frame.idle with ConfirmPress := true }
        { boot := sample_key_armed, world := sample_world,
          trace := [] }).boot._key_setting_function = some .SetUpKey) :=
  ⟨⟨C2_reachable_at_most_one_pending _ sample_key_armed_reachable, by decide⟩,
   ⟨C2_reachable_at_most_one_pending _ sample_joy_armed_reachable, by decide⟩,
   ⟨C2_reachable_at_most_one_pending _ sample_axis_armed_reachable, by decide⟩,
   ⟨C2_reachable_at_most_one_pending _
      (Reachable.update sample_key_armed sample_world [] { Frame.idle with ConfirmPress := true }
        sample_key_armed_reachable), by decide⟩⟩

/-! ### The help-window block saves with the flag set -/

theorem SaveSettingsFile_dirty_from (filename : String) (σ : Sys)
    (hdirty : σ.boot._has_modified_settings = true)
    (hno : Event.CommitChanges ∉ σ.trace) :
    ((_SaveSettingsFile filename σ).1 = false ∧
      (_SaveSettingsFile filename σ).2.boot = σ.boot ∧
      Event.CommitChanges ∉ (_SaveSettingsFile filename σ).2.trace) ∨
    ((_SaveSettingsFile filename σ).1 = true ∧
      (_SaveSettingsFile filename σ).2.boot = { σ.boot with _has_modified_settings := false } ∧
      Event.CommitChanges ∈ (_SaveSettingsFile filename σ).2.trace) := by
  unfold _SaveSettingsFile
  simp only [hdirty, Bool.not_true, Bool.false_eq_true, if_false]
  generalize (if filename = "" then σ.world.user_data_path false ++ "/settings.lua"
    else σ.world.user_data_path false ++ "/" ++ filename) = file
  have hpre := pre_open_trace_of (fun e => decide (e ≠ Event.CommitChanges)) file σ
    (by simp) (by simp)
  have hpre_boot := pre_open_boot file σ
  generalize (if (!(DoesFileExist file σ).1) = true then
      CopyFile "dat/config/settings.lua" file (DoesFileExist file σ).2
    else (DoesFileExist file σ).2) = pre at hpre hpre_boot ⊢
  have hopen_trace := OpenFile_trace file pre
  have hopen_boot := (OpenFile_boot file pre).1
  rcases hres : ScriptDescriptor_OpenFile file pre with ⟨o, σ'⟩
  rw [hres] at hopen_trace hopen_boot
  simp only at hopen_trace hopen_boot
  cases o with
  | none =>
      left
      refine ⟨rfl, ?_, ?_⟩
      · simp only [hopen_boot, hpre_boot]
      · simp only [hopen_trace]
        intro hmem
        rcases List.mem_append.mp hmem with hmem | hmem
        · rcases hpre.2 _ hmem with h' | h'
          · exact hno h'
          · simp at h'
        · simp at hmem
  | some d =>
      right
      refine ⟨rfl, ?_, ?_⟩
      · simp only [Sys.modifyBoot, ScriptDescriptor_CloseFile, emit, CommitChanges_boot,
          (save_fields_boot _).1, hopen_boot, hpre_boot]
      · simp only [Sys.modifyBoot, ScriptDescriptor_CloseFile, emit, CommitChanges_trace]
        simp

theorem SaveSettingsFile_opens (filename : String) (σ : Sys)
    (hdirty : σ.boot._has_modified_settings = true) :
    Event.DoesFileExist (saved_file_path filename σ.world)
      ∈ (_SaveSettingsFile filename σ).2.trace ∧
    Event.OpenFile (saved_file_path filename σ.world)
      ∈ (_SaveSettingsFile filename σ).2.trace := by
  unfold _SaveSettingsFile saved_file_path
  simp only [hdirty, Bool.not_true, Bool.false_eq_true, if_false]
  generalize (if filename = "" then σ.world.user_data_path false ++ "/settings.lua"
    else σ.world.user_data_path false ++ "/" ++ filename) = file
  have hpre := pre_open_calls file σ
  generalize (if (!(DoesFileExist file σ).1) = true then
      CopyFile "dat/config/settings.lua" file (DoesFileExist file σ).2
    else (DoesFileExist file σ).2) = pre at hpre ⊢
  have hopen_trace := OpenFile_trace file pre
  have hin : Event.DoesFileExist file ∈ (ScriptDescriptor_OpenFile file pre).2.trace ∧
      Event.OpenFile file ∈ (ScriptDescriptor_OpenFile file pre).2.trace := by
    rw [hopen_trace, hpre]
    simp [save_pre_open_calls]
  rcases hres : ScriptDescriptor_OpenFile file pre with ⟨o, σ'⟩
  rw [hres] at hin
  simp only at hin
  cases o with
  | none => exact hin
  | some d => exact ⟨(save_commit_trace d σ').1 _ hin.1, (save_commit_trace d σ').1 _ hin.2⟩

theorem help_window_eq (f : Frame) (b : BootMode) (w : World) :
    Update_help_window f { boot := b, world := w, trace := [] } =
      (_SaveSettingsFile ""
        { boot := { b with _has_modified_settings := true }
          world := if (!f.HelpPress && f.AnyKeyPress) = true then
              { w with help_window := w.help_window.map (fun _ => false) }
            else w
          trace := if (!f.HelpPress && f.AnyKeyPress) = true then
              [.PlaySound "snd/confirm.wav", .HelpWindowHide]
            else [] }).2 := by
  unfold Update_help_window
  cases (!f.HelpPress && f.AnyKeyPress) <;> rfl

/-- C10 amended: for every `Update` call that does not return from the
help-window-active branch, in which no menu option handler is invoked and no
pending capture is resolved (so every call that returns from the intro branch
or the exiting-to-new-game branch), `_has_modified_settings` has after the call
the value it had on entry and no file operation of `_SaveSettingsFile` is
performed.  An `Update` call that returns from the help-window-active branch
(menu state, not exiting to a new game, help window active) sets
`_has_modified_settings` to true and calls `_SaveSettingsFile`: its result is
that of `_SaveSettingsFile("")` run with the flag true, after the confirm sound
and the hiding of the help window when a key other than help was pressed; so
the existence check and the opening of the settings file are among its calls
whatever the flag was on entry, the flag is false afterwards exactly when the
commit was issued, and no handler is invoked and no binding setter called. -/
theorem C10_dirty_only_set_interactively (f : Frame) (b : BootMode) (w : World) :
    (¬ (b._exiting_to_new_game = false ∧ b._boot_state = .BOOT_STATE_MENU ∧
        HelpWindow_IsActive w = true) →
      (∀ h, Event.Invoke h ∉ (run_Update f b w).trace) →
      (∀ bd v, Event.InputSet bd v ∉ (run_Update f b w).trace) →
      (run_Update f b w).boot._has_modified_settings = b._has_modified_settings ∧
      ∀ e ∈ (run_Update f b w).trace, e.isFileOperation = false) ∧
    (b._exiting_to_new_game = false ∧ b._boot_state = .BOOT_STATE_MENU ∧
        HelpWindow_IsActive w = true →
      run_Update f b w =
        (_SaveSettingsFile ""
          { boot := { b with _has_modified_settings := true }
            world := if (!f.HelpPress && f.AnyKeyPress) = true then
                { w with help_window := w.help_window.map (fun _ => false) }
              else w
            trace := if (!f.HelpPress && f.AnyKeyPress) = true then
                [.PlaySound "snd/confirm.wav", .HelpWindowHide]
              else [] }).2 ∧
      Event.DoesFileExist (saved_file_path "" w) ∈ (run_Update f b w).trace ∧
      Event.OpenFile (saved_file_path "" w) ∈ (run_Update f b w).trace ∧
      ((run_Update f b w).boot._has_modified_settings = false ↔
        Event.CommitChanges ∈ (run_Update f b w).trace) ∧
      (∀ h, Event.Invoke h ∉ (run_Update f b w).trace) ∧
      (∀ bd v, Event.InputSet bd v ∉ (run_Update f b w).trace)) := by
  unfold run_Update
  refine ⟨fun hnohelp hnohandler hnoresolve => ?_, fun hhelp => ?_⟩
  · rcases Update_cases f { boot := b, world := w, trace := [] } with
      ⟨_, heq⟩ | ⟨_, _, heq⟩ | ⟨h1, h2, h3, _⟩ | ⟨_, fn, _, heq⟩ |
      ⟨_, _, fn, _, heq⟩ | ⟨_, _, _, fn, _, heq⟩ | ⟨_, _, heq⟩
    · rw [heq]
      split <;> simp [emit, Event.isFileOperation]
    · rw [heq]
      split <;> simp [ChangeState, Sys.modifyBoot]
    · exact absurd ⟨h1, h2, h3⟩ hnohelp
    · rw [heq, joy_capture_eq] at hnoresolve ⊢
      split at hnoresolve
      · exact absurd (by simp) (hnoresolve fn.binding f.MostRecentEvent.jbutton_button)
      · rw [if_neg (by assumption)]
        split <;> simp
    · rw [heq, joy_axis_capture_eq] at hnoresolve ⊢
      split at hnoresolve
      · exact absurd (by simp) (hnoresolve fn.binding (to_int8 f.LastAxisMoved))
      · rw [if_neg (by assumption)]
        split <;> simp
    · rw [heq, key_capture_eq] at hnoresolve ⊢
      split at hnoresolve
      · exact absurd (by simp) (hnoresolve fn.binding f.MostRecentEvent.key_keysym_sym)
      · rw [if_neg (by assumption)]
        split <;> simp
    · rw [heq] at hnohandler ⊢
      exact menu_input_without_handler f _ rfl hnohandler
  · have heq := Update_help f { boot := b, world := w, trace := [] } hhelp.1 hhelp.2.1 hhelp.2.2
    have htrace := help_window_trace f { boot := b, world := w, trace := [] }
    rw [← heq] at htrace
    have hclosed := help_window_eq f b w
    rw [← heq] at hclosed
    have hworld : saved_file_path "" w = saved_file_path ""
        (if (!f.HelpPress && f.AnyKeyPress) = true then
          { w with help_window := w.help_window.map (fun _ => false) } else w) := by
      split <;> rfl
    have hopens := SaveSettingsFile_opens ""
      { boot := { b with _has_modified_settings := true }
        world := if (!f.HelpPress && f.AnyKeyPress) = true then
            { w with help_window := w.help_window.map (fun _ => false) }
          else w
        trace := if (!f.HelpPress && f.AnyKeyPress) = true then
            [.PlaySound "snd/confirm.wav", .HelpWindowHide]
          else [] } rfl
    have hflag := SaveSettingsFile_dirty_from ""
      { boot := { b with _has_modified_settings := true }
        world := if (!f.HelpPress && f.AnyKeyPress) = true then
            { w with help_window := w.help_window.map (fun _ => false) }
          else w
        trace := if (!f.HelpPress && f.AnyKeyPress) = true then
            [.PlaySound "snd/confirm.wav", .HelpWindowHide]
          else [] } rfl (by split <;> simp)
    rw [← hclosed] at hopens hflag
    rw [← hworld] at hopens
    refine ⟨hclosed, hopens.1, hopens.2, ?_, fun h hmem => ?_, fun bd v hmem => ?_⟩
    · rcases hflag with ⟨_, hboot, hnc⟩ | ⟨_, hboot, hc⟩
      · rw [hboot]
        exact ⟨fun h => Bool.noConfusion h, fun h => absurd h hnc⟩
      · rw [hboot]
        exact ⟨fun _ => hc, fun _ => rfl⟩
    · have := htrace.2 _ hmem
      simp [Event.isHelpWindowEffect, Event.isFileOperation] at this
    · have := htrace.2 _ hmem
      simp [Event.isHelpWindowEffect, Event.isFileOperation] at this

/-- C10 amended at concrete inputs.  With the key capture armed in a state
reached from the constructor, a frame in which the joystick button bound to
cancel goes down aborts the capture: no handler runs, no setter is called, the
flag keeps its value and no file operation is made.  With the options menu
active a cancel press returns to the main menu in the same way.  With the help
window active an idle frame, from a clean flag, checks and opens the settings
file, and the flag is false afterwards because the commit was issued. -/
theorem C10_dirty_only_set_interactively_witness :
    ((run_Update Frame.cancel_button_down sample_key_armed sample_world).boot._has_modified_settings
        = sample_key_armed._has_modified_settings ∧
      ∀ e ∈ (run_Update Frame.cancel_button_down sample_key_armed sample_world).trace,
        e.isFileOperation = false) ∧
    ((run_Update { Frame.idle with CancelPress := true } sample_at_options_menu
        sample_world).boot._has_modified_settings = sample_at_options_menu._has_modified_settings ∧
      ∀ e ∈ (run_Update { Frame.idle with CancelPress := true } sample_at_options_menu
        sample_world).trace, e.isFileOperation = false) ∧
    sample_boot._has_modified_settings = false ∧
    Event.DoesFileExist "user/settings.lua"
      ∈ (run_Update Frame.idle sample_boot sample_world_help).trace ∧
    Event.OpenFile "user/settings.lua"
      ∈ (run_Update Frame.idle sample_boot sample_world_help).trace ∧
    ((run_Update Frame.idle sample_boot sample_world_help).boot._has_modified_settings = false ↔
      Event.CommitChanges ∈ (run_Update Frame.idle sample_boot sample_world_help).trace) :=
  ⟨(C10_dirty_only_set_interactively Frame.cancel_button_down sample_key_armed sample_world).1
      (fun h => absurd h.2.2 (by decide)) (fun _ hmem => by cases hmem)
      (fun _ _ hmem => by cases hmem),
   (C10_dirty_only_set_interactively { Frame.idle with CancelPress := true }
      sample_at_options_menu sample_world).1
      (fun h => absurd h.2.2 (by decide))
      (fun _ hmem => by
        have ht : (run_Update { Frame.idle with CancelPress := true } sample_at_options_menu
            sample_world).trace = [.Menu .options_menu .Update, .PlaySound "snd/cancel.wav"] := by
          decide
        rw [ht] at hmem
        simp at hmem)
      (fun _ _ hmem => by
        have ht : (run_Update { Frame.idle with CancelPress := true } sample_at_options_menu
            sample_world).trace = [.Menu .options_menu .Update, .PlaySound "snd/cancel.wav"] := by
          decide
        rw [ht] at hmem
        simp at hmem),
   by decide,
   ((C10_dirty_only_set_interactively Frame.idle sample_boot sample_world_help).2
      ⟨rfl, rfl, rfl⟩).2.1,
   ((C10_dirty_only_set_interactively Frame.idle sample_boot sample_world_help).2
      ⟨rfl, rfl, rfl⟩).2.2.1,
   ((C10_dirty_only_set_interactively Frame.idle sample_boot sample_world_help).2
      ⟨rfl, rfl, rfl⟩).2.2.2.1⟩

/-! ### C24: brightness and the dirty flag -/

theorem run_brightness_boot (hs : List Handler) (σ : Sys)
    (hbright : ∀ h ∈ hs, h = .OnBrightnessLeft ∨ h = .OnBrightnessRight) :
    (run_handlers hs σ).boot = σ.boot := by
  induction hs generalizing σ with
  | nil => rfl
  | cons h hs ih =>
      have hstep : run_handlers (h :: hs) σ = run_handlers hs (h.body σ) := rfl
      rw [hstep, ih _ (fun x hx => hbright x (List.mem_cons_of_mem _ hx))]
      rcases hbright h (List.mem_cons_self _ _) with rfl | rfl <;> rfl

theorem SaveSettingsFile_clean (filename : String) (σ : Sys)
    (hclean : σ.boot._has_modified_settings = false) :
    _SaveSettingsFile filename σ = (false, σ) := by
  simp [_SaveSettingsFile, hclean]

theorem SaveSettingsFile_false_writes (filename : String) (σ : Sys)
    (hsave : (_SaveSettingsFile filename σ).1 = false) (p : String) (v : Value)
    (hmem : Event.Modify p v ∈ (_SaveSettingsFile filename σ).2.trace) :
    Event.Modify p v ∈ σ.trace := by
  cases hdirty : σ.boot._has_modified_settings
  · rw [SaveSettingsFile_clean filename σ hdirty] at hmem
    exact hmem
  · unfold _SaveSettingsFile at hsave hmem
    simp only [hdirty, Bool.not_true, Bool.false_eq_true, if_false] at hsave hmem
    generalize (if filename = "" then σ.world.user_data_path false ++ "/settings.lua"
      else σ.world.user_data_path false ++ "/" ++ filename) = file at hsave hmem
    have hpre := pre_open_calls file σ
    generalize (if (!(DoesFileExist file σ).1) = true then
        CopyFile "dat/config/settings.lua" file (DoesFileExist file σ).2
      else (DoesFileExist file σ).2) = pre at hpre hsave hmem
    have hopen := OpenFile_trace file pre
    rcases hres : ScriptDescriptor_OpenFile file pre with ⟨o, σ'⟩
    rw [hres] at hsave hmem hopen
    cases o with
    | some d => simp at hsave
    | none =>
        simp only at hmem hopen
        rw [hopen, hpre] at hmem
        simp only [save_pre_open_calls, List.mem_append, List.mem_cons, List.mem_singleton,
          List.not_mem_nil, or_false] at hmem
        rcases hmem with (hmem | hmem | hmem) | hmem
        · exact hmem
        · cases hmem
        · split at hmem
          · cases hmem
          · simp at hmem
        · cases hmem

theorem OnLanguageSelect_isSome (σ : Sys) :
    (_OnLanguageSelect σ).isSome = true ↔
      0 ≤ σ.boot._language_options_menu.GetSelection ∧
      σ.boot._language_options_menu.GetSelection.toNat < σ.boot._po_files.length := by
  unfold _OnLanguageSelect selected_po_file
  dsimp only
  by_cases hneg : σ.boot._language_options_menu.GetSelection < 0
  · rw [if_pos hneg]
    simp only [Option.isSome_none, Bool.false_eq_true, false_iff, not_and]
    omega
  · rw [if_neg hneg]
    cases hget : σ.boot._po_files[σ.boot._language_options_menu.GetSelection.toNat]? with
    | none =>
      rw [List.getElem?_eq_none_iff] at hget
      simp only [Option.isSome_none, Bool.false_eq_true, false_iff, not_and]
      omega
    | some lang =>
      have hlt := (List.getElem?_eq_some_iff.1 hget).1
      simp only [Option.isSome_some, true_iff]
      omega

theorem OnLanguageSelect_dirty (σ σ' : Sys) (h : _OnLanguageSelect σ = some σ') :
    σ'.boot._has_modified_settings = true := by
  have hc := OnLanguageSelect_control σ σ' h
  simp only [BootMode.control, Prod.mk.injEq] at hc
  exact hc.2.2.1

/-! ### `_OnLanguageSelect` is reached with the selection inside `_po_files` -/

theorem selects_language_AddOption (m : BootMenu) (c u d l r : Option Handler) :
    (m.AddOption c u d l r).selects_language =
      (m.selects_language || MenuOption.selects_language ⟨true, c, u, d, l, r⟩) := by
  simp [BootMenu.selects_language, BootMenu.AddOption, List.any_append]

theorem selects_language_SetSelection (m : BootMenu) (i : Int) :
    (m.SetSelection i).selects_language = m.selects_language := rfl

theorem selects_language_ClearOptions (m : BootMenu) :
    m.ClearOptions.selects_language = false := rfl

theorem SetupMainMenu_language_rows (σ : Sys) (h : σ.boot.language_rows_match) :
    (_SetupMainMenu σ).boot.language_rows_match := by
  have hb := SavesAvailable_boot σ.world.default_max_saves σ
  obtain ⟨h1, h2, h3, h4, h5, h6, h7, h8, h9⟩ := h
  simp only [_SetupMainMenu, AudioManager_LoadSound, emit, Sys.modifyBoot,
    BootMode.language_rows_match, hb]
  refine ⟨h1, h2, ?_, h4, h5, h6, h7, h8, h9⟩
  cases (_SavesAvailable σ.world.default_max_saves σ).1 <;> rfl

theorem SetupOtherMenus_language_rows (σ : Sys) (h : σ.boot.language_rows_match) :
    (_SetupOptionsMenu σ).boot.language_rows_match ∧
    (_SetupVideoOptionsMenu σ).boot.language_rows_match ∧
    (_SetupAudioOptionsMenu σ).boot.language_rows_match ∧
    (_SetupKeySettingsMenu σ).boot.language_rows_match ∧
    (_SetupJoySettingsMenu σ).boot.language_rows_match ∧
    (_SetupResolutionMenu σ).boot.language_rows_match := by
  obtain ⟨h1, h2, h3, h4, h5, h6, h7, h8, h9⟩ := h
  refine ⟨⟨h1, h2, h3, rfl, h5, h6, h7, h8, h9⟩, ⟨h1, h2, h3, h4, rfl, h6, h7, h8, h9⟩,
    ⟨h1, h2, h3, h4, h5, rfl, h7, h8, h9⟩, ⟨h1, h2, h3, h4, h5, h6, rfl, h8, h9⟩,
    ⟨h1, h2, h3, h4, h5, h6, h7, rfl, h9⟩, ⟨h1, h2, h3, h4, h5, h6, h7, h8, ?_⟩⟩
  simp only [_SetupResolutionMenu, Sys.modifyBoot]
  split_ifs <;>
    simp [selects_language_AddOption, selects_language_SetSelection,
      MenuOption.selects_language, h9]

theorem ReloadTranslatableMenus_language_rows (σ : Sys) (h : σ.boot.language_rows_match) :
    (_ReloadTranslatableMenus σ).boot.language_rows_match := by
  unfold _ReloadTranslatableMenus
  have h0 := SetupMainMenu_language_rows σ h
  have h1 := (SetupOtherMenus_language_rows _ h0).1
  have h2 := (SetupOtherMenus_language_rows _ h1).2.1
  have h3 := (SetupOtherMenus_language_rows _ h2).2.2.1
  have h4 := (SetupOtherMenus_language_rows _ h3).2.2.2.1
  have h5 := (SetupOtherMenus_language_rows _ h4).2.2.2.2.1
  exact (SetupOtherMenus_language_rows _ h5).2.2.2.2.2

theorem language_rows_fold_match (read_data : ScriptDescriptor) (l : List Nat)
    (acc : List String × BootMenu) (hlen : acc.2.options.length = acc.1.length)
    (hdir : acc.2.direction_selects_language = false) :
    (l.foldl (fun (acc : List String × BootMenu) i =>
        let d := read_data.OpenTable (toString (i + 1))
        (acc.1 ++ [(d.ReadString "2").1],
         acc.2.AddOption (some .OnLanguageSelect) none none none none)) acc).2.options.length
      = (l.foldl (fun (acc : List String × BootMenu) i =>
        let d := read_data.OpenTable (toString (i + 1))
        (acc.1 ++ [(d.ReadString "2").1],
         acc.2.AddOption (some .OnLanguageSelect) none none none none)) acc).1.length ∧
    (l.foldl (fun (acc : List String × BootMenu) i =>
        let d := read_data.OpenTable (toString (i + 1))
        (acc.1 ++ [(d.ReadString "2").1],
         acc.2.AddOption (some .OnLanguageSelect) none none none none))
      acc).2.direction_selects_language = false := by
  induction l generalizing acc with
  | nil => exact ⟨hlen, hdir⟩
  | cons x xs ih =>
      simp only [List.foldl_cons]
      apply ih
      · simp [BootMenu.AddOption, hlen]
      · simpa [BootMenu.direction_selects_language, BootMenu.AddOption, List.any_append]
          using hdir

theorem SetupLanguageOptionsMenu_language_rows (σ : Sys)
    (h : σ.boot.language_rows_match) (hempty : σ.boot._language_options_menu.options = []) :
    (_SetupLanguageOptionsMenu σ).boot.language_rows_match := by
  have hb := (OpenFile_boot _LANGUAGE_FILE σ).1
  unfold _SetupLanguageOptionsMenu
  rcases hres : ScriptDescriptor_OpenFile _LANGUAGE_FILE σ with ⟨o, σ'⟩
  rw [hres] at hb
  simp only at hb
  cases o with
  | none =>
      simp only [hb]
      exact h
  | some d =>
      obtain ⟨h1, h2, h3, h4, h5, h6, h7, h8, h9⟩ := h
      have hfold := language_rows_fold_match (d.OpenTable "languages")
        (List.range (d.OpenTable "languages").GetTableSize)
        (([] : List String), σ'.boot._language_options_menu)
        (by simp [hb, hempty]) (by rw [hb]; exact h2)
      rw [hb] at hfold
      simp only [ScriptDescriptor_CloseFile, emit, Sys.modifyBoot, BootMode.language_rows_match,
        hb]
      exact ⟨hfold.1, hfold.2, h3, h4, h5, h6, h7, h8, h9⟩

theorem SetupMenus_language_menu (σ : Sys) :
    (_SetupMainMenu σ).boot._language_options_menu = σ.boot._language_options_menu ∧
    (_SetupOptionsMenu σ).boot._language_options_menu = σ.boot._language_options_menu ∧
    (_SetupVideoOptionsMenu σ).boot._language_options_menu = σ.boot._language_options_menu ∧
    (_SetupAudioOptionsMenu σ).boot._language_options_menu
      = σ.boot._language_options_menu := by
  have hb := SavesAvailable_boot σ.world.default_max_saves σ
  refine ⟨?_, rfl, rfl, rfl⟩
  simp only [_SetupMainMenu, AudioManager_LoadSound, emit, Sys.modifyBoot, hb]

theorem constructor_language_rows (w : World) (σ : Sys) (h : BootMode_constructor w = some σ) :
    σ.boot.language_rows_match := by
  unfold BootMode_constructor at h
  dsimp only at h
  rcases hres : ScriptDescriptor_OpenFile "dat/config/boot.lua"
    { boot := BootMode.initial, world := w, trace := [] } with ⟨o, σ'⟩
  have hb := (OpenFile_boot "dat/config/boot.lua"
    { boot := BootMode.initial, world := w, trace := [] }).1
  rw [hres] at h hb
  simp only at hb
  cases o with
  | none => simp at h
  | some boot_script =>
      simp only at h
      split at h
      · simp at h
      · injection h with h
        subst h
        have h0 : ((ScriptDescriptor_CloseFile σ').modifyBoot
            (fun b => { b with _options_window_shown := false })).boot.language_rows_match := by
          simp only [ScriptDescriptor_CloseFile, emit, Sys.modifyBoot,
            BootMode.language_rows_match, hb]
          exact ⟨rfl, rfl, rfl, rfl, rfl, rfl, rfl, rfl, rfl⟩
        have he0 : ((ScriptDescriptor_CloseFile σ').modifyBoot
            (fun b => { b with _options_window_shown := false })).boot._language_options_menu
            = BootMenu.empty := by
          simp only [ScriptDescriptor_CloseFile, emit, Sys.modifyBoot, hb]
          rfl
        have h1 := SetupMainMenu_language_rows _ h0
        have h2 := (SetupOtherMenus_language_rows _ h1).1
        have h3 := (SetupOtherMenus_language_rows _ h2).2.1
        have h4 := (SetupOtherMenus_language_rows _ h3).2.2.1
        have he4 : (_SetupAudioOptionsMenu (_SetupVideoOptionsMenu (_SetupOptionsMenu
            (_SetupMainMenu ((ScriptDescriptor_CloseFile σ').modifyBoot
              (fun b => { b with _options_window_shown := false })))))).boot._language_options_menu.options
            = [] := by
          rw [(SetupMenus_language_menu _).2.2.2, (SetupMenus_language_menu _).2.2.1,
            (SetupMenus_language_menu _).2.1, (SetupMenus_language_menu _).1, he0]
          rfl
        have h5 := SetupLanguageOptionsMenu_language_rows _ h4 he4
        have h6 := (SetupOtherMenus_language_rows _ h5).2.2.2.1
        have h7 := (SetupOtherMenus_language_rows _ h6).2.2.2.2.1
        have h8 := (SetupOtherMenus_language_rows _ h7).2.2.2.2.2
        simpa [_message_window_Hide, Sys.modifyBoot, BootMode.language_rows_match] using h8

theorem handler_language_rows (h : Handler) (σ : Sys) (hinv : σ.boot.language_rows_match) :
    (h.body σ).boot.language_rows_match := by
  cases h
  case OnLanguageSelect =>
    simp only [Handler.body, _OnLanguageSelect]
    cases selected_po_file σ.boot with
    | none => exact hinv
    | some lang =>
      simp only [Option.getD_some, emit]
      apply ReloadTranslatableMenus_language_rows
      simpa [SystemManager_SetLanguage, emit, Sys.modifyBoot, BootMode.language_rows_match]
        using hinv
  case OnResolution640x480 =>
    simp only [Handler.body, _OnResolution640x480]
    split <;> simpa [_ChangeResolution, VideoManager_SetResolution, VideoManager_ApplySettings,
      _RefreshVideoOptions, emit, Sys.modifyBoot, BootMode.language_rows_match] using hinv
  case OnResolution800x600 =>
    simp only [Handler.body, _OnResolution800x600]
    split <;> simpa [_ChangeResolution, VideoManager_SetResolution, VideoManager_ApplySettings,
      _RefreshVideoOptions, emit, Sys.modifyBoot, BootMode.language_rows_match] using hinv
  case OnResolution1024x768 =>
    simp only [Handler.body, _OnResolution1024x768]
    split <;> simpa [_ChangeResolution, VideoManager_SetResolution, VideoManager_ApplySettings,
      _RefreshVideoOptions, emit, Sys.modifyBoot, BootMode.language_rows_match] using hinv
  case OnResolution1280x1024 =>
    simp only [Handler.body, _OnResolution1280x1024]
    split <;> simpa [_ChangeResolution, VideoManager_SetResolution, VideoManager_ApplySettings,
      _RefreshVideoOptions, emit, Sys.modifyBoot, BootMode.language_rows_match] using hinv
  all_goals
    simpa [Handler.body, _OnNewGame, _OnLoadGame, _OnOptions, _OnQuit, _OnVideoOptions,
      _OnAudioOptions, _OnLanguageOptions, _OnKeySettings, _OnJoySettings, _OnResolution,
      _OnToggleFullscreen, _OnBrightnessLeft, _OnBrightnessRight, _OnTogglePixelArtSmoothed,
      _OnSoundLeft, _OnSoundRight, _OnMusicLeft, _OnMusicRight, _OnRestoreDefaultKeys,
      _OnRestoreDefaultJoyButtons, _RedefineUpKey, _RedefineDownKey, _RedefineLeftKey,
      _RedefineRightKey, _RedefineConfirmKey, _RedefineCancelKey, _RedefineMenuKey,
      _RedefinePauseKey, _RedefineXAxisJoy, _RedefineYAxisJoy, _RedefineConfirmJoy,
      _RedefineCancelJoy, _RedefineMenuJoy, _RedefinePauseJoy, _ShowMessageWindow_bool,
      _ShowMessageWindow, _RefreshVideoOptions, _RefreshAudioOptions, _RefreshKeySettings,
      _RefreshJoySettings, VideoManager_ToggleFullscreen, VideoManager_ApplySettings,
      VideoManager_SetPixelArtSmoothed, VideoManager_SetGamma, AudioManager_SetSoundVolume,
      AudioManager_SetMusicVolume, AudioManager_PlaySound, InputManager_RestoreDefaultKeys,
      InputManager_RestoreDefaultJoyButtons, emit, Sys.modifyBoot, BootMode.language_rows_match]
      using hinv

theorem invoke_language_rows (o : Option Handler) (σ : Sys)
    (hinv : σ.boot.language_rows_match) : (invoke o σ).boot.language_rows_match := by
  cases o with
  | none => exact hinv
  | some h => exact handler_language_rows h (emit (.Invoke h) σ) hinv

theorem setMenu_SetSelection_language_rows (b : BootMode) (m : MenuId) (i : Int)
    (hinv : b.language_rows_match) :
    (b.setMenu m ((b.menu m).SetSelection i)).language_rows_match := by
  cases m <;> exact hinv

theorem menu_input_language_rows (f : Frame) (σ : Sys) (hinv : σ.boot.language_rows_match) :
    (Update_menu_input f σ).boot.language_rows_match := by
  have hdir : ∀ c pick m, (BootMenu_InputDirection c pick m f
      (BootMenu_Update σ.boot._active_menu σ)).boot.language_rows_match := by
    intro c pick m
    apply invoke_language_rows
    simp only [Sys.modifyBoot, emit, BootMenu_Update]
    exact setMenu_SetSelection_language_rows _ _ _ hinv
  unfold Update_menu_input
  simp only
  split_ifs
  · exact hinv
  · unfold Update_confirm
    apply invoke_language_rows
    simp only [BootMenu_Update, emit, AudioManager_PlaySound]
    split_ifs <;> exact hinv
  · exact hdir _ _ _
  · exact hdir _ _ _
  · exact hdir _ _ _
  · exact hdir _ _ _
  · simp only [Update_cancel, BootMenu_Update, AudioManager_PlaySound, emit, Sys.modifyBoot]
    split_ifs <;> exact hinv
  · exact hinv

theorem Update_language_rows (f : Frame) (σ : Sys) (hinv : σ.boot.language_rows_match) :
    (Update f σ).boot.language_rows_match := by
  rcases Update_cases f σ with ⟨_, heq⟩ | ⟨_, _, heq⟩ | ⟨_, _, _, heq⟩ | ⟨_, fn, _, heq⟩ |
    ⟨_, _, fn, _, heq⟩ | ⟨_, _, _, fn, _, heq⟩ | ⟨_, _, heq⟩
  · rw [heq]
    split <;> exact hinv
  · rw [heq]
    split <;> exact hinv
  · rw [heq]
    unfold Update_help_window
    rcases SaveSettingsFile_boot "" ((if (!f.HelpPress && f.AnyKeyPress) = true then
        HelpWindow_Hide (AudioManager_PlaySound "snd/confirm.wav" σ) else σ).modifyBoot
        (fun b => { b with _has_modified_settings := true })) with h | h <;>
      rw [h] <;> split <;> exact hinv
  · rw [heq, joy_capture_eq]
    split_ifs <;> exact hinv
  · rw [heq, joy_axis_capture_eq]
    split_ifs <;> exact hinv
  · rw [heq, key_capture_eq]
    split_ifs <;> exact hinv
  · rw [heq]
    exact menu_input_language_rows f σ hinv

theorem reachable_language_rows (b : BootMode) (h : Reachable b) : b.language_rows_match := by
  induction h with
  | constructed w σ h => exact constructor_language_rows w σ h
  | update b w t f _ ih => exact Update_language_rows f _ ih
  | change_state b w t s _ ih => exact ih

theorem Invoke_in_invoke (g : Handler) (o : Option Handler) (σ : Sys)
    (h : Event.Invoke g ∈ (invoke o σ).trace) : Event.Invoke g ∈ σ.trace ∨ o = some g := by
  cases o with
  | none => exact Or.inl h
  | some k =>
      rcases (handler_trace k (emit (.Invoke k) σ)).2 _ h with h' | h'
      · simp only [emit, List.mem_append, List.mem_singleton, Event.Invoke.injEq] at h'
        rcases h' with h' | h'
        · exact Or.inl h'
        · exact Or.inr (by rw [h'])
      · simp [Event.isHandlerEffect] at h'

theorem row_selects_language (m : BootMenu) (i : Int) (o : MenuOption)
    (hrow : m.row i = some o) (h : m.selects_language = false) :
    o.selects_language = false := by
  unfold BootMenu.row at hrow
  split at hrow
  · simp at hrow
  · have hmem : o ∈ m.options := List.getElem?_mem hrow
    simp only [BootMenu.selects_language, List.any_eq_false] at h
    simpa using h o hmem

theorem row_direction_selects_language (m : BootMenu) (i : Int) (o : MenuOption)
    (hrow : m.row i = some o) (h : m.direction_selects_language = false) :
    o.up ≠ some .OnLanguageSelect ∧ o.down ≠ some .OnLanguageSelect ∧
    o.left ≠ some .OnLanguageSelect ∧ o.right ≠ some .OnLanguageSelect := by
  unfold BootMenu.row at hrow
  split at hrow
  · simp at hrow
  · have hmem : o ∈ m.options := List.getElem?_mem hrow
    simp only [BootMenu.direction_selects_language, List.any_eq_false] at h
    have ho := h o hmem
    simp only [Bool.or_eq_true, beq_iff_eq, not_or] at ho
    exact ⟨ho.1.1.1, ho.1.1.2, ho.1.2, ho.2⟩

theorem other_menu_selects_language (b : BootMode) (m : MenuId)
    (hm : m ≠ .language_options_menu) (hinv : b.language_rows_match) :
    (b.menu m).selects_language = false := by
  obtain ⟨_, _, h3, h4, h5, h6, h7, h8, h9⟩ := hinv
  cases m
  case language_options_menu => exact absurd rfl hm
  all_goals assumption

theorem row_directions_language (b : BootMode) (m : MenuId) (i : Int) (o : MenuOption)
    (hinv : b.language_rows_match) (hrow : (b.menu m).row i = some o) :
    o.up ≠ some .OnLanguageSelect ∧ o.down ≠ some .OnLanguageSelect ∧
    o.left ≠ some .OnLanguageSelect ∧ o.right ≠ some .OnLanguageSelect := by
  by_cases hm : m = .language_options_menu
  · subst hm
    exact row_direction_selects_language _ i o hrow hinv.2.1
  · have ho := row_selects_language _ i o hrow (other_menu_selects_language b m hm hinv)
    simp only [MenuOption.selects_language, Bool.or_eq_false_iff, beq_eq_false_iff_ne,
      ne_eq] at ho
    exact ⟨ho.1.1.1.2, ho.1.1.2, ho.1.2, ho.2⟩

theorem confirm_handler_language (b : BootMode) (m : MenuId) (hinv : b.language_rows_match)
    (h : (b.menu m).confirm_handler = some .OnLanguageSelect) :
    (selected_po_file b).isSome = true := by
  unfold BootMenu.confirm_handler at h
  cases hrow : (b.menu m).row (b.menu m).GetSelection with
  | none => simp [hrow] at h
  | some o =>
      rw [hrow] at h
      simp only at h
      have hc : o.confirm = some .OnLanguageSelect := by
        split at h
        · exact h
        · cases h
      by_cases hm : m = .language_options_menu
      · subst hm
        simp only [BootMode.menu] at hrow
        unfold BootMenu.row at hrow
        unfold selected_po_file
        simp only
        split at hrow
        · cases hrow
        · rename_i hneg
          rw [if_neg hneg]
          have hlt := (List.getElem?_eq_some_iff.1 hrow).1
          rw [hinv.1] at hlt
          rw [List.getElem?_eq_getElem hlt]
          rfl
      · have ho := row_selects_language _ _ o hrow (other_menu_selects_language b m hm hinv)
        simp [MenuOption.selects_language, hc] at ho

theorem direction_handler_language (b : BootMode) (m : MenuId) (i : Int)
    (pick : MenuOption → Option Handler)
    (hpick : ∀ o : MenuOption, o.up ≠ some .OnLanguageSelect ∧
      o.down ≠ some .OnLanguageSelect ∧ o.left ≠ some .OnLanguageSelect ∧
      o.right ≠ some .OnLanguageSelect → pick o ≠ some .OnLanguageSelect)
    (hinv : b.language_rows_match) :
    ((b.menu m).SetSelection i).direction_handler pick ≠ some .OnLanguageSelect := by
  unfold BootMenu.direction_handler
  cases hrow : ((b.menu m).SetSelection i).row ((b.menu m).SetSelection i).GetSelection with
  | none => simp
  | some o =>
      have hrow' : (b.menu m).row i = some o := hrow
      exact hpick o (row_directions_language b m i o hinv hrow')

theorem InputDirection_language_select (c : MenuCall) (pick : MenuOption → Option Handler)
    (m : MenuId) (f : Frame) (σ : Sys)
    (hpick : ∀ o : MenuOption, o.up ≠ some .OnLanguageSelect ∧
      o.down ≠ some .OnLanguageSelect ∧ o.left ≠ some .OnLanguageSelect ∧
      o.right ≠ some .OnLanguageSelect → pick o ≠ some .OnLanguageSelect)
    (hinv : σ.boot.language_rows_match)
    (h : Event.Invoke .OnLanguageSelect ∈ (BootMenu_InputDirection c pick m f σ).trace) :
    Event.Invoke .OnLanguageSelect ∈ σ.trace := by
  unfold BootMenu_InputDirection at h
  rcases Invoke_in_invoke _ _ _ h with h' | h'
  · simpa [Sys.modifyBoot, emit] using h'
  · simp only [Sys.modifyBoot, emit, menu_setMenu] at h'
    exact absurd h' (direction_handler_language σ.boot m f.cursor pick hpick hinv)

theorem confirm_language_select (σ : Sys) (hinv : σ.boot.language_rows_match)
    (h : Event.Invoke .OnLanguageSelect ∈ (Update_confirm σ).trace) :
    Event.Invoke .OnLanguageSelect ∈ σ.trace ∨ (selected_po_file σ.boot).isSome = true := by
  unfold Update_confirm BootMenu_InputConfirm at h
  simp only at h
  rcases Invoke_in_invoke _ _ _ h with h' | h'
  · left
    split_ifs at h' <;> simpa [AudioManager_PlaySound, emit] using h'
  · right
    apply confirm_handler_language σ.boot σ.boot._active_menu hinv
    split_ifs at h' <;> exact h'

theorem menu_input_language_select (f : Frame) (σ : Sys) (hinv : σ.boot.language_rows_match)
    (h : Event.Invoke .OnLanguageSelect ∈ (Update_menu_input f σ).trace) :
    Event.Invoke .OnLanguageSelect ∈ σ.trace ∨ (selected_po_file σ.boot).isSome = true := by
  have hdir : ∀ c pick, (∀ o : MenuOption, o.up ≠ some .OnLanguageSelect ∧
      o.down ≠ some .OnLanguageSelect ∧ o.left ≠ some .OnLanguageSelect ∧
      o.right ≠ some .OnLanguageSelect → pick o ≠ some .OnLanguageSelect) →
      Event.Invoke .OnLanguageSelect ∈ (BootMenu_InputDirection c pick σ.boot._active_menu f
        (BootMenu_Update σ.boot._active_menu σ)).trace →
      Event.Invoke .OnLanguageSelect ∈ σ.trace := by
    intro c pick hpick hmem
    have := InputDirection_language_select c pick σ.boot._active_menu f
      (BootMenu_Update σ.boot._active_menu σ) hpick hinv hmem
    simpa [BootMenu_Update, emit] using this
  unfold Update_menu_input at h
  simp only at h
  split_ifs at h
  · left
    simpa [BootMenu_Update, emit] using h
  · rcases confirm_language_select (BootMenu_Update σ.boot._active_menu σ) hinv h with h' | h'
    · left
      simpa [BootMenu_Update, emit] using h'
    · exact Or.inr h'
  · exact Or.inl (hdir _ _ (fun o ho => ho.2.2.1) h)
  · exact Or.inl (hdir _ _ (fun o ho => ho.2.2.2) h)
  · exact Or.inl (hdir _ _ (fun o ho => ho.1) h)
  · exact Or.inl (hdir _ _ (fun o ho => ho.2.1) h)
  · left
    rw [cancel_trace] at h
    simpa [BootMenu_Update, emit] using h
  · left
    simpa [BootMenu_Update, emit] using h

theorem OnLanguageSelect_isSome_eq (σ : Sys) :
    (_OnLanguageSelect σ).isSome = (selected_po_file σ.boot).isSome := by
  unfold _OnLanguageSelect
  cases selected_po_file σ.boot <;> rfl

/-- In every state reachable from the constructor, an `Update` call invokes
`_OnLanguageSelect` only with the selection of the language menu inside
`_po_files`: the handler runs on the boot mode the call started with, and its
unchecked read of `_po_files` is defined there. -/
theorem reachable_language_select_defined (f : Frame) (b : BootMode) (w : World)
    (hr : Reachable b)
    (h : Event.Invoke .OnLanguageSelect ∈ (run_Update f b w).trace) :
    (selected_po_file b).isSome = true ∧
    0 ≤ b._language_options_menu.GetSelection ∧
    b._language_options_menu.GetSelection.toNat < b._po_files.length := by
  have hinv := reachable_language_rows b hr
  have hsel : (selected_po_file b).isSome = true := by
    unfold run_Update at h
    rcases Update_cases f { boot := b, world := w, trace := [] } with
      ⟨_, heq⟩ | ⟨_, _, heq⟩ | ⟨_, _, _, heq⟩ | ⟨_, fn, _, heq⟩ |
      ⟨_, _, fn, _, heq⟩ | ⟨_, _, _, fn, _, heq⟩ | ⟨_, _, heq⟩
    · rw [heq] at h
      split at h <;> simp [emit] at h
    · rw [heq] at h
      split at h <;> simp [ChangeState, Sys.modifyBoot] at h
    · rw [heq] at h
      have := (help_window_trace f _).2 _ h
      simp [Event.isHelpWindowEffect, Event.isFileOperation] at this
    · rw [heq, joy_capture_eq] at h
      split_ifs at h <;> simp at h
    · rw [heq, joy_axis_capture_eq] at h
      split_ifs at h <;> simp at h
    · rw [heq, key_capture_eq] at h
      split_ifs at h <;> simp at h
    · rw [heq] at h
      rcases menu_input_language_select f _ hinv h with h' | h'
      · simp at h'
      · exact h'
  exact ⟨hsel, (OnLanguageSelect_isSome { boot := b, world := w, trace := [] }).1
    ((OnLanguageSelect_isSome_eq { boot := b, world := w, trace := [] }).trans hsel)⟩

/-- C24: the two brightness handlers leave the boot mode, and so the dirty
flag, as it is; from a clean state, `_SaveSettingsFile` after any sequence of
brightness adjustments returns false in the state it was called in (no call
made, nothing written); the fields any `_SaveSettingsFile` run writes are among
those of `settings_field_writes`, which do not depend on the gamma value and
have no brightness field; each of the other value-changing handlers apart from
`_OnLanguageSelect` leaves the dirty flag true in every state;
`_OnLanguageSelect`, whose read of `_po_files` is defined exactly when the
selection of the language menu lies inside the vector, leaves the dirty flag
true whenever it is defined; and it is defined whenever an `Update` call from
a state reachable from the constructor invokes it. -/
theorem C24_brightness_never_persisted (σ : Sys) (filename : String) :
    (_OnBrightnessLeft σ).boot = σ.boot ∧ (_OnBrightnessRight σ).boot = σ.boot ∧
    (∀ hs : List Handler, (∀ h ∈ hs, h = .OnBrightnessLeft ∨ h = .OnBrightnessRight) →
      σ.boot._has_modified_settings = false →
      _SaveSettingsFile filename (run_handlers hs σ) = (false, run_handlers hs σ)) ∧
    (∀ p v, Event.Modify p v ∈ (_SaveSettingsFile filename σ).2.trace →
      Event.Modify p v ∈ σ.trace ∨ Event.Modify p v ∈ settings_field_writes σ.world) ∧
    (∀ g, settings_field_writes { σ.world with gamma := g } = settings_field_writes σ.world) ∧
    (∀ v, Event.Modify "settings.video_settings.brightness" v
      ∉ settings_field_writes σ.world) ∧
    (∀ h ∈ dirtying_handlers, h ≠ .OnLanguageSelect →
      (h.body σ).boot._has_modified_settings = true) ∧
    ((_OnLanguageSelect σ).isSome = true ↔
      0 ≤ σ.boot._language_options_menu.GetSelection ∧
      σ.boot._language_options_menu.GetSelection.toNat < σ.boot._po_files.length) ∧
    (∀ σ', _OnLanguageSelect σ = some σ' → σ'.boot._has_modified_settings = true) ∧
    (∀ f w, Reachable σ.boot →
      Event.Invoke .OnLanguageSelect ∈ (run_Update f σ.boot w).trace →
      (_OnLanguageSelect σ).isSome = true) := by
  refine ⟨rfl, rfl, fun hs hbright hclean => ?_, fun p v hmem => ?_, fun g => rfl,
    fun v => by simp [settings_field_writes], fun h hmem hne => ?_,
    OnLanguageSelect_isSome σ, fun σ' hsel => OnLanguageSelect_dirty σ σ' hsel,
    fun f w hr hmem => (OnLanguageSelect_isSome σ).2
      (reachable_language_select_defined f σ.boot w hr hmem).2⟩
  · apply SaveSettingsFile_clean
    rw [run_brightness_boot hs σ hbright]
    exact hclean
  · cases hsave : (_SaveSettingsFile filename σ).1
    · exact Or.inl (SaveSettingsFile_false_writes filename σ hsave p v hmem)
    · rw [SaveSettingsFile_calls filename σ hsave] at hmem
      simp only [List.mem_append] at hmem
      rcases hmem with (((hmem | hmem) | hmem) | hmem) | hmem
      · exact Or.inl hmem
      · simp only [save_pre_open_calls, List.mem_cons] at hmem
        rcases hmem with hmem | hmem
        · cases hmem
        · split at hmem <;> simp at hmem
      · simp at hmem
      · exact Or.inr hmem
      · simp at hmem
  · simp only [dirtying_handlers, List.mem_cons, List.not_mem_nil] at hmem
    iterate 9
      rcases hmem with rfl | hmem
      · first
          | rfl
          | exact absurd rfl hne
    exact hmem.elim

theorem sample_at_language_menu_reachable : Reachable sample_at_language_menu :=
  Reachable.update _ sample_world_languages [] { Frame.idle with ConfirmPress := true }
    (Reachable.update _ sample_world_languages [] { Frame.idle with DownPress := true, cursor := 2 }
      (Reachable.update _ sample_world_languages [] { Frame.idle with ConfirmPress := true }
        (Reachable.update _ sample_world_languages []
          { Frame.idle with DownPress := true, cursor := 2 }
          (Reachable.update _ sample_world_languages [] { Frame.idle with AnyKeyPress := true }
            (Reachable.constructed sample_world_languages sample_constructed_languages rfl)))))

theorem sample_on_french_reachable : Reachable sample_on_french.boot :=
  Reachable.update sample_at_language_menu sample_world_languages []
    { Frame.idle with DownPress := true, cursor := 1 } sample_at_language_menu_reachable

/-- C24 at concrete inputs.  From the clean sample boot mode, two steps up and
one step down of the brightness, which leave the gamma changed, and then a
save: it returns false.  In the sample with two languages, at the language menu
reached from the constructor with the cursor on row 1, the flag is false and a
confirm press makes `Update` invoke `_OnLanguageSelect`: the handler is defined
there, sets the language of that row and leaves the flag true;
`_OnToggleFullscreen` there leaves it true as well.  In the sample boot mode,
whose `_po_files` is empty, `_OnLanguageSelect` is not defined. -/
theorem C24_brightness_never_persisted_witness :
    (_SaveSettingsFile ""
      (run_handlers [.OnBrightnessRight, .OnBrightnessRight, .OnBrightnessLeft]
        sample_sys_gamma)).1 = false ∧
    (run_handlers [.OnBrightnessRight, .OnBrightnessRight, .OnBrightnessLeft]
      sample_sys_gamma).world.gamma ≠ sample_sys_gamma.world.gamma ∧
    sample_on_french.boot._has_modified_settings = false ∧
    Event.Invoke .OnLanguageSelect ∈
      (run_Update { Frame.idle with ConfirmPress := true } sample_on_french.boot
        sample_world_languages).trace ∧
    (_OnLanguageSelect sample_on_french).isSome = true ∧
    (_OnLanguageSelect sample_on_french).map (fun σ => σ.world.language) = some "fr" ∧
    (_OnLanguageSelect sample_on_french).map (fun σ => σ.boot._has_modified_settings)
      = some true ∧
    (_OnToggleFullscreen sample_on_french).boot._has_modified_settings = true ∧
    (_OnLanguageSelect sample_sys).isSome = false := by
  have hsome : (_OnLanguageSelect sample_on_french).isSome = true :=
    (C24_brightness_never_persisted sample_on_french "").2.2.2.2.2.2.2.2.2
      { Frame.idle with ConfirmPress := true } sample_world_languages
      sample_on_french_reachable (by decide)
  refine ⟨congrArg Prod.fst ((C24_brightness_never_persisted sample_sys_gamma "").2.2.1
      [.OnBrightnessRight, .OnBrightnessRight, .OnBrightnessLeft] (by decide) rfl),
    by decide, by decide, by decide, hsome, by decide, ?_,
    (C24_brightness_never_persisted sample_on_french "").2.2.2.2.2.2.1 .OnToggleFullscreen
      (by decide) (by decide),
    Bool.eq_false_iff.2 (fun h => absurd
      ((C24_brightness_never_persisted sample_sys "").2.2.2.2.2.2.2.1.1 h) (by decide))⟩
  cases hsel : _OnLanguageSelect sample_on_french with
  | none =>
    rw [hsel] at hsome
    cases hsome
  | some σ' =>
    exact congrArg some
      ((C24_brightness_never_persisted sample_on_french "").2.2.2.2.2.2.2.2.1 σ' hsel)

end hoa_boot
